import Mathlib

/-!
# QuestPaE / QuforiaPlugin: buffer store, devices and coordinate transform

A shallow embedding of `vuforia_driver.cpp`, `external_camera.cpp` and
`external_tracker.cpp`.

* `int` and `int64_t` values are mathematical integers; every arithmetic
  operation of the source that can leave the range is followed by an explicit
  two's-complement reduction (`wrap32`, `wrap64`).
* `float` values are elements of a type parameter `α` carrying only the
  operations the source applies to them, so every definition can be read at
  `Float` as well as at `ℤ`, `ℚ` or `ℝ`.
* A C pointer to an array is a function from indices to elements; a nullable
  pointer is an `Option` of that.
* `std::queue` is a list whose head is the front (oldest record) and whose last
  element is the back (newest record).
* A call that leaves by a C++ exception returns `none`.
* The `...Locked` variant of a driver method returns, next to the method's
  result, the events of its `std::lock_guard` objects in program order.
-/

namespace Quforia

/-! ## Machine integers -/

/-- The value held by a 32-bit `int` after an operation whose mathematical
result is `i`. -/
def wrap32 (i : Int) : Int := (i + 2147483648) % 4294967296 - 2147483648

/-- The value held by an `int64_t` after an operation whose mathematical result
is `i`. -/
def wrap64 (i : Int) : Int :=
  (i + 9223372036854775808) % 18446744073709551616 - 9223372036854775808

/-- The constant `INT64_MAX`. -/
def INT64_MAX : Int := 9223372036854775807

/-- Multiplication of two `int` values. -/
def mul32 (a b : Int) : Int := wrap32 (a * b)

/-- Subtraction of two `int64_t` values. -/
def sub64 (a b : Int) : Int := wrap64 (a - b)

/-- The function `std::abs` on `int64_t`. -/
def abs64 (a : Int) : Int := wrap64 (if a < 0 then -a else a)

/-! ## Engine types used by the plugin -/

/-- Modelled from the spec: the engine header that declares the pixel format
enumeration is not part of the sources. `RGB888` is the packed 3-bytes-per-pixel
layout, the only enumerator the plugin names; `other code` stands for any other
enumerator. -/
inductive PixelFormat where
  | RGB888
  | other (code : Nat)
  deriving DecidableEq, Repr

/-- Modelled from the spec: the engine's exposure mode enumeration, of which the
plugin names only the continuous automatic mode. -/
inductive ExposureMode where
  | CONTINUOUS_AUTO
  | other (code : Nat)
  deriving DecidableEq, Repr

/-- Modelled from the spec: the engine's focus mode enumeration, of which the
plugin names only the continuous automatic mode. -/
inductive FocusMode where
  | CONTINUOUS_AUTO
  | other (code : Nat)
  deriving DecidableEq, Repr

/-- The engine's camera mode record: resolution, frame rate and pixel format
(`width`, `height` and `fps` are `uint32_t`). -/
structure CameraMode where
  width : Nat
  height : Nat
  fps : Nat
  format : PixelFormat
  deriving DecidableEq, Repr

/-- The engine's camera calibration record. -/
structure CameraIntrinsics (α : Type) where
  focalLengthX : α
  focalLengthY : α
  principalPointX : α
  principalPointY : α
  distortionCoefficients : Fin 8 → α

/-- The record after `memset(&intrinsics, 0, sizeof(intrinsics))`. -/
def CameraIntrinsics.zeroed {α : Type} [OfNat α 0] : CameraIntrinsics α :=
  { focalLengthX := 0, focalLengthY := 0, principalPointX := 0, principalPointY := 0,
    distortionCoefficients := fun _ => 0 }

/-- The assignments both `feedCameraFrame` and `setCameraIntrinsics` perform from
an array `[width, height, fx, fy, cx, cy, d0 .. d7]`: indices 2 to 5, then the
loop `for (i = 0; i < 8; i++) distortionCoefficients[i] = intrinsics[i + 6]`. -/
def CameraIntrinsics.assignFromArray {α : Type} (target : CameraIntrinsics α)
    (intrinsics : Nat → α) : CameraIntrinsics α :=
  { target with
    focalLengthX := intrinsics 2
    focalLengthY := intrinsics 3
    principalPointX := intrinsics 4
    principalPointY := intrinsics 5
    distortionCoefficients := fun i => intrinsics (i.val + 6) }

/-! ## Records of the buffer store (`vuforia_driver.h`) -/

/-- The struct `CameraFrameData`: an owned copy of the pixels, the dimensions,
the capture timestamp and the intrinsics of the frame. -/
structure CameraFrameData (α : Type) where
  imageData : List UInt8
  width : Int
  height : Int
  timestamp : Int
  intrinsics : CameraIntrinsics α

/-- The struct `PoseData`: timestamp, position `(x, y, z)` and rotation
quaternion `(x, y, z, w)`. -/
structure PoseData (α : Type) where
  timestamp : Int
  position : Fin 3 → α
  rotation : Fin 4 → α

/-- The constructor `PoseData()`: timestamp 0, zero position, identity
quaternion. -/
def PoseData.new {α : Type} [OfNat α 0] [OfNat α 1] : PoseData α :=
  { timestamp := 0, position := ![0, 0, 0], rotation := ![0, 0, 0, 1] }

/-! ## Camera device (`external_camera.cpp`) -/

/-- State of a `QuestExternalCamera`. A callback pointer is the address of the
callback object (`none` is `nullptr`); `frameThread_` records whether the thread
handle is joinable; `frameBuffer_` is the size of the allocated working buffer
(`none` is `nullptr`). The back pointer `driver_` never changes and is left
out. -/
structure QuestExternalCamera where
  callback_ : Option Nat
  currentMode_ : CameraMode
  frameThread_ : Bool
  isRunning_ : Bool
  isOpen_ : Bool
  exposureMode_ : ExposureMode
  focusMode_ : FocusMode
  frameBuffer_ : Option Int
  deriving DecidableEq, Repr

namespace QuestExternalCamera

/-- The constructor: closed, not running, default mode 1280x960 at 30 fps,
RGB888. -/
def new : QuestExternalCamera :=
  { callback_ := none
    currentMode_ := { width := 1280, height := 960, fps := 30, format := PixelFormat.RGB888 }
    frameThread_ := false
    isRunning_ := false
    isOpen_ := false
    exposureMode_ := ExposureMode.CONTINUOUS_AUTO
    focusMode_ := FocusMode.CONTINUOUS_AUTO
    frameBuffer_ := none }

/-- The method `open()`. The buffer size is computed in `uint32_t` and stored
in an `int`; the null check after the allocation is kept as in the source. -/
def «open» (c : QuestExternalCamera) : Bool × QuestExternalCamera :=
  if c.isOpen_ then (true, c)
  else
    let bufferSize : Int :=
      wrap32 (((c.currentMode_.width * c.currentMode_.height * 3 : Nat) % 4294967296 : Nat) : Int)
    let c1 := { c with frameBuffer_ := some bufferSize }
    if c1.frameBuffer_.isNone then (false, c1)
    else (true, { c1 with isOpen_ := true })

/-- The method `stop()`: clears the running flag, joins the delivery thread and
forgets the callback. -/
def stop (c : QuestExternalCamera) : Bool × QuestExternalCamera :=
  if !c.isRunning_ then (true, c)
  else (true, { c with isRunning_ := false, frameThread_ := false, callback_ := none })

/-- The method `close()`: stops the camera when it runs, releases the buffer. -/
def close (c : QuestExternalCamera) : Bool × QuestExternalCamera :=
  if !c.isOpen_ then (true, c)
  else
    let c1 := if c.isRunning_ then (stop c).2 else c
    let c2 := if c1.frameBuffer_.isSome then { c1 with frameBuffer_ := none } else c1
    (true, { c2 with isOpen_ := false })

/-- The method `start(mode, callback)`. The checks are made in the order of the
source: open, already running, null callback, mode. -/
def start (c : QuestExternalCamera) (mode : CameraMode) (callback : Option Nat) :
    Bool × QuestExternalCamera :=
  if !c.isOpen_ then (false, c)
  else if c.isRunning_ then (true, c)
  else if callback.isNone then (false, c)
  else if mode.width ≠ c.currentMode_.width ∨ mode.height ≠ c.currentMode_.height ∨
      mode.format ≠ c.currentMode_.format then (false, c)
  else
    (true, { c with currentMode_ := mode, callback_ := callback, isRunning_ := true,
                    frameThread_ := true })

/-- The method `getNumSupportedCameraModes()`. -/
def getNumSupportedCameraModes (_c : QuestExternalCamera) : Nat := 1

/-- The method `getSupportedCameraMode(index, cameraMode)`. The out-parameter is
`none` for a null pointer, else the record it points to; the result is the
returned flag and the record after the call. -/
def getSupportedCameraMode (_c : QuestExternalCamera) (index : Nat)
    (cameraMode : Option CameraMode) : Bool × Option CameraMode :=
  if index ≠ 0 ∨ cameraMode.isNone then (false, cameraMode)
  else (true, some { width := 1280, height := 960, fps := 30, format := PixelFormat.RGB888 })

/-- The method `supportsExposureMode(mode)`. -/
def supportsExposureMode (_c : QuestExternalCamera) (mode : ExposureMode) : Bool :=
  decide (mode = ExposureMode.CONTINUOUS_AUTO)

/-- The method `getExposureMode()`. -/
def getExposureMode (c : QuestExternalCamera) : ExposureMode := c.exposureMode_

/-- The method `setExposureMode(mode)`. -/
def setExposureMode (c : QuestExternalCamera) (mode : ExposureMode) :
    Bool × QuestExternalCamera :=
  if !c.supportsExposureMode mode then (false, c)
  else (true, { c with exposureMode_ := mode })

/-- The method `supportsFocusMode(mode)`. -/
def supportsFocusMode (_c : QuestExternalCamera) (mode : FocusMode) : Bool :=
  decide (mode = FocusMode.CONTINUOUS_AUTO)

/-- The method `getFocusMode()`. -/
def getFocusMode (c : QuestExternalCamera) : FocusMode := c.focusMode_

/-- The method `setFocusMode(mode)`. -/
def setFocusMode (c : QuestExternalCamera) (mode : FocusMode) : Bool × QuestExternalCamera :=
  if !c.supportsFocusMode mode then (false, c)
  else (true, { c with focusMode_ := mode })

/-- The method `setExposureValue(exposureTime)`: always refused. -/
def setExposureValue (c : QuestExternalCamera) (_exposureTime : Nat) :
    Bool × QuestExternalCamera := (false, c)

/-- The method `setFocusValue(focusValue)`: always refused. -/
def setFocusValue {α : Type} (c : QuestExternalCamera) (_focusValue : α) :
    Bool × QuestExternalCamera := (false, c)

end QuestExternalCamera

/-- A call of one of the state-changing methods the engine can make on the
camera (the focus value of `setFocusValue` is ignored by the method and left
out). -/
inductive CameraCall where
  | «open»
  | close
  | start (mode : CameraMode) (callback : Option Nat)
  | stop
  | setExposureMode (mode : ExposureMode)
  | setFocusMode (mode : FocusMode)
  | setExposureValue (exposureTime : Nat)
  | setFocusValue

/-- The effect of one call on the camera: returned flag and next state. -/
def CameraCall.apply (c : QuestExternalCamera) : CameraCall → Bool × QuestExternalCamera
  | .«open» => c.«open»
  | .close => c.close
  | .start mode callback => c.start mode callback
  | .stop => c.stop
  | .setExposureMode mode => c.setExposureMode mode
  | .setFocusMode mode => c.setFocusMode mode
  | .setExposureValue t => c.setExposureValue t
  | .setFocusValue => c.setFocusValue ()

/-- The camera state after a sequence of calls. -/
def QuestExternalCamera.run (c : QuestExternalCamera) (calls : List CameraCall) :
    QuestExternalCamera :=
  calls.foldl (fun s call => (call.apply s).2) c

/-- A camera state the engine can reach from a freshly constructed camera. -/
def QuestExternalCamera.Reachable (c : QuestExternalCamera) : Prop :=
  ∃ calls : List CameraCall, QuestExternalCamera.new.run calls = c

/-! ## Tracker device (`external_tracker.cpp`) -/

/-- State of a `QuestExternalTracker`; `poseThread_` records whether the thread
handle is joinable. -/
structure QuestExternalTracker where
  callback_ : Option Nat
  poseThread_ : Bool
  isRunning_ : Bool
  isOpen_ : Bool
  lastPoseTimestamp_ : Int
  deriving DecidableEq, Repr

namespace QuestExternalTracker

/-- The constructor. -/
def new : QuestExternalTracker :=
  { callback_ := none, poseThread_ := false, isRunning_ := false, isOpen_ := false,
    lastPoseTimestamp_ := 0 }

/-- The method `open()`. -/
def «open» (t : QuestExternalTracker) : Bool × QuestExternalTracker :=
  if t.isOpen_ then (true, t) else (true, { t with isOpen_ := true })

/-- The method `stop()`. -/
def stop (t : QuestExternalTracker) : Bool × QuestExternalTracker :=
  if !t.isRunning_ then (true, t)
  else (true, { t with isRunning_ := false, poseThread_ := false, callback_ := none })

/-- The method `close()`. -/
def close (t : QuestExternalTracker) : Bool × QuestExternalTracker :=
  if !t.isOpen_ then (true, t)
  else
    let t1 := if t.isRunning_ then (stop t).2 else t
    (true, { t1 with isOpen_ := false })

/-- The method `start(cb, anchorCb)`; the anchor callback is ignored. -/
def start (t : QuestExternalTracker) (cb : Option Nat) (_anchorCb : Option Nat) :
    Bool × QuestExternalTracker :=
  if !t.isOpen_ then (false, t)
  else if t.isRunning_ then (true, t)
  else if cb.isNone then (false, t)
  else
    (true, { t with callback_ := cb, isRunning_ := true, lastPoseTimestamp_ := 0,
                    poseThread_ := true })

/-- The method `resetTracking()`. -/
def resetTracking (t : QuestExternalTracker) : Bool × QuestExternalTracker :=
  (true, { t with lastPoseTimestamp_ := 0 })

end QuestExternalTracker

/-! ## Driver and buffer store (`vuforia_driver.cpp`) -/

/-- State of a `QuestVuforiaDriver`: the pointers to the two devices it owns
(the address of the object, `none` for `nullptr`), the frame queue, the pose
queue and the intrinsics cache. -/
structure QuestVuforiaDriver (α : Type) where
  camera_ : Option Nat
  tracker_ : Option Nat
  frameQueue_ : List (CameraFrameData α)
  poseQueue_ : List (PoseData α)
  cachedIntrinsics_ : CameraIntrinsics α
  intrinsicsSet_ : Bool

/-- The constant `MAX_FRAME_QUEUE_SIZE`. -/
def MAX_FRAME_QUEUE_SIZE : Nat := 3

/-- The constant `MAX_POSE_QUEUE_SIZE`. -/
def MAX_POSE_QUEUE_SIZE : Nat := 90

/-- The loop `while (queue.size() > max) queue.pop();`, which removes records
from the front. -/
def popWhileOver {β : Type} (max : Nat) : List β → List β
  | [] => []
  | x :: xs => if (x :: xs).length > max then popWhileOver max xs else x :: xs

namespace QuestVuforiaDriver

variable {α : Type}

/-- The constructor: no devices, empty queues, zeroed cache that is not
active. -/
def new [OfNat α 0] : QuestVuforiaDriver α :=
  { camera_ := none, tracker_ := none, frameQueue_ := [], poseQueue_ := [],
    cachedIntrinsics_ := CameraIntrinsics.zeroed, intrinsicsSet_ := false }

/-- The frame record `feedCameraFrame` builds before it enqueues it: a copy of
`dataSize` bytes of the caller's buffer, and the cached intrinsics when the
cache is active, else the caller's array when there is one, else the zeroed
record of the `CameraFrameData` constructor. -/
def makeFrame [OfNat α 0] (d : QuestVuforiaDriver α) (imageData : Nat → UInt8)
    (width height : Int) (intrinsics : Option (Nat → α)) (timestamp : Int) :
    CameraFrameData α :=
  let dataSize := mul32 (mul32 width height) 3
  { imageData := (List.range dataSize.toNat).map imageData
    width := width
    height := height
    timestamp := timestamp
    intrinsics :=
      if d.intrinsicsSet_ then d.cachedIntrinsics_
      else match intrinsics with
        | some a => CameraIntrinsics.zeroed.assignFromArray a
        | none => CameraIntrinsics.zeroed }

/-- The method `feedCameraFrame`. `imageData` is the caller's (non-null) pixel
buffer. The array allocation `new uint8_t[dataSize]` throws for a negative
`dataSize`; the call then returns `none`. -/
def feedCameraFrame [OfNat α 0] (d : QuestVuforiaDriver α) (imageData : Nat → UInt8)
    (width height : Int) (intrinsics : Option (Nat → α)) (timestamp : Int) :
    Option (QuestVuforiaDriver α) :=
  if mul32 (mul32 width height) 3 < 0 then none
  else
    let frameData := d.makeFrame imageData width height intrinsics timestamp
    some { d with frameQueue_ := popWhileOver MAX_FRAME_QUEUE_SIZE (d.frameQueue_ ++ [frameData]) }

/-- The method `feedDevicePose`: position and rotation are copied when their
pointers are not null. -/
def feedDevicePose [OfNat α 0] [OfNat α 1] (d : QuestVuforiaDriver α)
    (position : Option (Fin 3 → α)) (rotation : Option (Fin 4 → α)) (timestamp : Int) :
    QuestVuforiaDriver α :=
  let p0 : PoseData α := { (PoseData.new : PoseData α) with timestamp := timestamp }
  let p1 : PoseData α := match position with
    | some p => { p0 with position := p }
    | none => p0
  let poseData : PoseData α := match rotation with
    | some r => { p1 with rotation := r }
    | none => p1
  { d with poseQueue_ := popWhileOver MAX_POSE_QUEUE_SIZE (d.poseQueue_ ++ [poseData]) }

/-- The method `setCameraIntrinsics`: a null array returns at once. -/
def setCameraIntrinsics (d : QuestVuforiaDriver α) (intrinsics : Option (Nat → α)) :
    QuestVuforiaDriver α :=
  match intrinsics with
  | none => d
  | some a =>
    { d with cachedIntrinsics_ := d.cachedIntrinsics_.assignFromArray a, intrinsicsSet_ := true }

/-- The method `acquireLatestFrame`: the back of the frame queue, which is not
popped. The result is the returned record and the driver state after the
call. -/
def acquireLatestFrame (d : QuestVuforiaDriver α) :
    Option (CameraFrameData α) × QuestVuforiaDriver α :=
  if d.frameQueue_.isEmpty then (none, d)
  else (d.frameQueue_.getLast?, d)

/-- One pass of the scan loop of `acquirePoseForTimestamp` over the pair
`(closestPose, minTimeDiff)`. -/
def scanStep (timestamp : Int) (acc : Option (PoseData α) × Int) (pose : PoseData α) :
    Option (PoseData α) × Int :=
  let timeDiff := abs64 (sub64 pose.timestamp timestamp)
  if timeDiff < acc.2 then (some pose, timeDiff) else acc

/-- The method `acquirePoseForTimestamp`: the scan runs over a copy of the pose
queue from front to back, starting from `(nullptr, INT64_MAX)`. The result is
the returned record and the driver state after the call. -/
def acquirePoseForTimestamp (d : QuestVuforiaDriver α) (timestamp : Int) :
    Option (PoseData α) × QuestVuforiaDriver α :=
  if d.poseQueue_.isEmpty then (none, d)
  else
    let r := d.poseQueue_.foldl (scanStep timestamp) (none, INT64_MAX)
    if r.1.isSome ∧ r.2 < 50000000 then (r.1, d) else (none, d)

/-- The method `getCapabilities`. The bit positions `CAMERA_IMAGE` and
`CAMERA_POSE` are enumerators of the engine header, which is not part of the
sources, and are taken as parameters; the result is a `uint32_t`. -/
def getCapabilities (_d : QuestVuforiaDriver α) (CAMERA_IMAGE CAMERA_POSE : Nat) : Nat :=
  ((1 <<< CAMERA_IMAGE) ||| (1 <<< CAMERA_POSE)) % 4294967296

/-- The method `createExternalCamera`. `alloc` is the outcome of
`new QuestExternalCamera(this)` should it be evaluated: the address of the new
object, or `none` when the allocation throws, which is caught and answered with
`nullptr`. The result is the returned pointer and the driver state. -/
def createExternalCamera (d : QuestVuforiaDriver α) (alloc : Option Nat) :
    Option Nat × QuestVuforiaDriver α :=
  if d.camera_.isSome then (d.camera_, d)
  else
    match alloc with
    | some a => (some a, { d with camera_ := some a })
    | none => (none, d)

/-- The method `destroyExternalCamera(instance)`: the camera is deleted and the
pointer cleared when `instance` is the driver's camera pointer. -/
def destroyExternalCamera (d : QuestVuforiaDriver α) (instancePtr : Option Nat) :
    QuestVuforiaDriver α :=
  if instancePtr = d.camera_ then { d with camera_ := none } else d

/-- The method `createExternalPositionalDeviceTracker`, with `alloc` as in
`createExternalCamera`. -/
def createExternalPositionalDeviceTracker (d : QuestVuforiaDriver α) (alloc : Option Nat) :
    Option Nat × QuestVuforiaDriver α :=
  if d.tracker_.isSome then (d.tracker_, d)
  else
    match alloc with
    | some a => (some a, { d with tracker_ := some a })
    | none => (none, d)

/-- The method `destroyExternalPositionalDeviceTracker(instance)`. -/
def destroyExternalPositionalDeviceTracker (d : QuestVuforiaDriver α)
    (instancePtr : Option Nat) : QuestVuforiaDriver α :=
  if instancePtr = d.tracker_ then { d with tracker_ := none } else d

end QuestVuforiaDriver

/-- The device objects on the heap after a `create...` method: `new` is
evaluated, and adds its address, only when the driver's pointer `slot` is null
and the allocation succeeds. -/
def heapAfterCreate (slot alloc : Option Nat) (live : List Nat) : List Nat :=
  if slot.isSome then live
  else
    match alloc with
    | some a => a :: live
    | none => live

/-- The device objects on the heap after a `destroy...` method: `delete` is
applied to the driver's pointer `slot` only when the given pointer equals it. -/
def heapAfterDestroy (slot instancePtr : Option Nat) (live : List Nat) : List Nat :=
  if instancePtr = slot then
    match slot with
    | some a => live.erase a
    | none => live
  else live

/-- A call of one of the methods of the driver. -/
inductive DriverCall (α : Type) where
  | feedCameraFrame (imageData : Nat → UInt8) (width height : Int)
      (intrinsics : Option (Nat → α)) (timestamp : Int)
  | feedDevicePose (position : Option (Fin 3 → α)) (rotation : Option (Fin 4 → α))
      (timestamp : Int)
  | setCameraIntrinsics (intrinsics : Option (Nat → α))
  | acquireLatestFrame
  | acquirePoseForTimestamp (timestamp : Int)
  | getCapabilities
  | createExternalCamera (alloc : Option Nat)
  | destroyExternalCamera (instancePtr : Option Nat)
  | createExternalPositionalDeviceTracker (alloc : Option Nat)
  | destroyExternalPositionalDeviceTracker (instancePtr : Option Nat)

/-- The driver state after one call, `none` when the call throws. -/
def DriverCall.apply {α : Type} [OfNat α 0] [OfNat α 1] (d : QuestVuforiaDriver α) :
    DriverCall α → Option (QuestVuforiaDriver α)
  | .feedCameraFrame img w h intr ts => d.feedCameraFrame img w h intr ts
  | .feedDevicePose p r ts => some (d.feedDevicePose p r ts)
  | .setCameraIntrinsics intr => some (d.setCameraIntrinsics intr)
  | .acquireLatestFrame => some d.acquireLatestFrame.2
  | .acquirePoseForTimestamp ts => some (d.acquirePoseForTimestamp ts).2
  | .getCapabilities => some d
  | .createExternalCamera alloc => some (d.createExternalCamera alloc).2
  | .destroyExternalCamera instancePtr => some (d.destroyExternalCamera instancePtr)
  | .createExternalPositionalDeviceTracker alloc =>
    some (d.createExternalPositionalDeviceTracker alloc).2
  | .destroyExternalPositionalDeviceTracker instancePtr =>
    some (d.destroyExternalPositionalDeviceTracker instancePtr)

/-- The driver state after a sequence of calls, `none` when one of them
throws. -/
def QuestVuforiaDriver.run {α : Type} [OfNat α 0] [OfNat α 1] (d : QuestVuforiaDriver α) :
    List (DriverCall α) → Option (QuestVuforiaDriver α)
  | [] => some d
  | call :: rest =>
    match call.apply d with
    | some d1 => QuestVuforiaDriver.run d1 rest
    | none => none

/-- The arguments of one `feedCameraFrame` call. -/
structure FrameArgs (α : Type) where
  imageData : Nat → UInt8
  width : Int
  height : Int
  intrinsics : Option (Nat → α)
  timestamp : Int

/-- The call made with these arguments. -/
def FrameArgs.toCall {α : Type} (a : FrameArgs α) : DriverCall α :=
  DriverCall.feedCameraFrame a.imageData a.width a.height a.intrinsics a.timestamp

/-- The byte count `width * height * 3` the call computes in `int`. -/
def FrameArgs.dataSize {α : Type} (a : FrameArgs α) : Int := mul32 (mul32 a.width a.height) 3

/-- The frame record the call builds in driver state `d`. -/
def FrameArgs.frame {α : Type} [OfNat α 0] (d : QuestVuforiaDriver α) (a : FrameArgs α) :
    CameraFrameData α :=
  d.makeFrame a.imageData a.width a.height a.intrinsics a.timestamp

/-- Whether a call is a `feedCameraFrame` call. -/
def DriverCall.isFeedCameraFrame {α : Type} : DriverCall α → Bool
  | .feedCameraFrame _ _ _ _ _ => true
  | _ => false

/-- The array of the most recent `setCameraIntrinsics` call of a history that
was made with a non-null array, if there is one. -/
def lastIntrinsicsSet {α : Type} : List (DriverCall α) → Option (Nat → α)
  | [] => none
  | call :: rest =>
    match lastIntrinsicsSet rest with
    | some a => some a
    | none =>
      match call with
      | .setCameraIntrinsics (some a) => some a
      | _ => none

/-- A driver over `ℤ` whose pose queue holds default poses with the given
timestamps, oldest first. -/
def driverWithPoses (timestamps : List Int) : QuestVuforiaDriver ℤ :=
  { (QuestVuforiaDriver.new : QuestVuforiaDriver ℤ) with
    poseQueue_ := timestamps.map fun t => { (PoseData.new : PoseData ℤ) with timestamp := t } }

/-- Arguments of a `feedCameraFrame` call over `ℤ` with a 2x1 black image, no
intrinsics array and the given timestamp. -/
def frameArgsAt (t : Int) : FrameArgs ℤ :=
  { imageData := fun _ => 0, width := 2, height := 1, intrinsics := none, timestamp := t }

/-- A history over `ℤ`: the intrinsics are set from the array `v[i] = i`, a null
array is passed, a frame is fed, and the intrinsics are set again from
`v[i] = 10 * i`. -/
def intrinsicsHistory : List (DriverCall ℤ) :=
  [DriverCall.setCameraIntrinsics (some fun i => (i : ℤ)),
   DriverCall.setCameraIntrinsics none,
   (frameArgsAt 1).toCall,
   DriverCall.setCameraIntrinsics (some fun i => 10 * (i : ℤ))]

/-- A `feedCameraFrame` call over `ℤ` that carries its own intrinsics array
`v[i] = 100 + i`. -/
def frameArgsWithIntrinsics : FrameArgs ℤ :=
  { imageData := fun _ => 0, width := 2, height := 1,
    intrinsics := some fun i => 100 + (i : ℤ), timestamp := 9 }

/-! ## Coordinate transform (`external_tracker.cpp`) -/

namespace QuestExternalTracker

/-- The method `quaternionToMatrix`: the row-major 3x3 matrix written for the
quaternion `(x, y, z, w)`. -/
def quaternionToMatrix {α : Type} [Add α] [Sub α] [Mul α] [OfNat α 1] [OfNat α 2]
    (quat : Fin 4 → α) : Fin 9 → α :=
  let x := quat 0
  let y := quat 1
  let z := quat 2
  let w := quat 3
  let xx := x * x
  let xy := x * y
  let xz := x * z
  let xw := x * w
  let yy := y * y
  let yz := y * z
  let yw := y * w
  let zz := z * z
  let zw := z * w
  ![1 - 2 * (yy + zz), 2 * (xy - zw), 2 * (xz + yw),
    2 * (xy + zw), 1 - 2 * (xx + zz), 2 * (yz - xw),
    2 * (xz - yw), 2 * (yz + xw), 1 - 2 * (xx + yy)]

/-- The quaternion `transformedQuat` that `transformOpenXRToCV` builds from the
input quaternion `(qx, qy, qz, qw)`. -/
def transformedQuat {α : Type} [Neg α] (rotationIn : Fin 4 → α) : Fin 4 → α :=
  let qx := rotationIn 0
  let qy := rotationIn 1
  let qz := rotationIn 2
  let qw := rotationIn 3
  ![qw, -qz, -qy, qx]

/-- The method `transformOpenXRToCV`: the pair `(positionOut, rotationOut)` it
writes. -/
def transformOpenXRToCV {α : Type} [Add α] [Sub α] [Mul α] [Neg α] [OfNat α 1] [OfNat α 2]
    (positionIn : Fin 3 → α) (rotationIn : Fin 4 → α) : (Fin 3 → α) × (Fin 9 → α) :=
  let positionOut : Fin 3 → α := ![positionIn 0, -positionIn 1, -positionIn 2]
  (positionOut, quaternionToMatrix (transformedQuat rotationIn))

end QuestExternalTracker

/-- A row-major array of 9 entries read as a 3x3 matrix. -/
def rowMajor {α : Type} (m : Fin 9 → α) : Matrix (Fin 3) (Fin 3) α :=
  Matrix.of fun i j => m ⟨3 * i.val + j.val, by omega⟩

/-- The rotation by 180 degrees about the X axis, `diag(1, -1, -1)`, as the
source comment writes it. -/
def rotX180 {α : Type} [Zero α] [One α] [Neg α] : Matrix (Fin 3) (Fin 3) α :=
  !![1, 0, 0; 0, -1, 0; 0, 0, -1]

/-- The Hamilton product of two quaternions given as `(x, y, z, w)`. -/
def quatMul {α : Type} [Add α] [Sub α] [Mul α] (p q : Fin 4 → α) : Fin 4 → α :=
  ![p 3 * q 0 + p 0 * q 3 + p 1 * q 2 - p 2 * q 1,
    p 3 * q 1 - p 0 * q 2 + p 1 * q 3 + p 2 * q 0,
    p 3 * q 2 + p 0 * q 1 - p 1 * q 0 + p 2 * q 3,
    p 3 * q 3 - p 0 * q 0 - p 1 * q 1 - p 2 * q 2]

/-- The rotation matrix the source comment and the specification ask for:
`R_x(180°) * M(q)`, with `M(q)` the expansion `quaternionToMatrix` of the input
quaternion. -/
def specRotation {α : Type} [CommRing α] (q : Fin 4 → α) : Matrix (Fin 3) (Fin 3) α :=
  rotX180 * rowMajor (QuestExternalTracker.quaternionToMatrix q)

/-- The single camera mode the plugin supports: 1280x960 at 30 fps, RGB888. -/
def supportedMode : CameraMode :=
  { width := 1280, height := 960, fps := 30, format := PixelFormat.RGB888 }

/-- Facts that hold in every camera state between two calls: the resolution and
pixel format of the current mode never change, a running camera is open, the
working buffer is allocated exactly while the camera is open, and thread handle
and callback are set exactly while the camera runs. -/
def QuestExternalCamera.Inv (c : QuestExternalCamera) : Prop :=
  c.currentMode_.width = 1280 ∧ c.currentMode_.height = 960 ∧
  c.currentMode_.format = PixelFormat.RGB888 ∧
  (c.isRunning_ = true → c.isOpen_ = true) ∧
  c.frameBuffer_.isSome = c.isOpen_ ∧
  c.frameThread_ = c.isRunning_ ∧
  c.callback_.isSome = c.isRunning_

/-! ## Tracker delivery loop (`external_tracker.cpp`) -/

/-- Modelled from the spec: the engine's pose reason enumeration, of which the
plugin names only `VALID`. -/
inductive PoseReason where
  | VALID
  | other (code : Nat)
  deriving DecidableEq, Repr

/-- Modelled from the spec: the engine's pose coordinate system enumeration, of
which the plugin names only `CAMERA`. -/
inductive PoseCoordSystem where
  | CAMERA
  | other (code : Nat)
  deriving DecidableEq, Repr

/-- Modelled from the spec: the engine's pose validity enumeration, of which the
plugin names only `VALID`. -/
inductive PoseValidity where
  | VALID
  | other (code : Nat)
  deriving DecidableEq, Repr

/-- The engine's pose record, as filled by the delivery loop. -/
structure Pose (α : Type) where
  timestamp : Int
  translationData : Fin 3 → α
  rotationData : Fin 9 → α
  reason : PoseReason
  coordinateSystem : PoseCoordSystem
  validity : PoseValidity

namespace QuestExternalTracker

/-- The body of the loop of `poseDeliveryThread`, run on driver state `d`. The
result is the list of `onNewPose` invocations it makes (callback address and
pose passed) and the tracker state after the pass. -/
def poseDeliveryIteration {α : Type} [Add α] [Sub α] [Mul α] [Neg α] [OfNat α 1] [OfNat α 2]
    (t : QuestExternalTracker) (d : QuestVuforiaDriver α) :
    List (Nat × Pose α) × QuestExternalTracker :=
  match d.acquireLatestFrame.1, t.callback_ with
  | some frameData, some cb =>
    let frameTimestamp := frameData.timestamp
    if frameTimestamp ≠ t.lastPoseTimestamp_ then
      match (d.acquirePoseForTimestamp frameTimestamp).1 with
      | some poseData =>
        let transformed := transformOpenXRToCV poseData.position poseData.rotation
        let vuforiaPose : Pose α :=
          { timestamp := frameTimestamp
            translationData := transformed.1
            rotationData := transformed.2
            reason := PoseReason.VALID
            coordinateSystem := PoseCoordSystem.CAMERA
            validity := PoseValidity.VALID }
        ([(cb, vuforiaPose)], { t with lastPoseTimestamp_ := frameTimestamp })
      | none => ([], t)
    else ([], t)
  | _, _ => ([], t)

/-- Up to `n` passes of the loop `while (isRunning_) { ... }` over an unchanged
driver state `d`: the invocations made, in order, and the final tracker
state. -/
def poseDeliveryLoop {α : Type} [Add α] [Sub α] [Mul α] [Neg α] [OfNat α 1] [OfNat α 2]
    (d : QuestVuforiaDriver α) : Nat → QuestExternalTracker →
    List (Nat × Pose α) × QuestExternalTracker
  | 0, t => ([], t)
  | n + 1, t =>
    if t.isRunning_ then
      let r := t.poseDeliveryIteration d
      let r2 := poseDeliveryLoop d n r.2
      (r.1 ++ r2.1, r2.2)
    else ([], t)

end QuestExternalTracker

/-- A call of one of the state-changing methods the engine can make on the
tracker, or one pass of the delivery loop run by the tracker's thread on the
driver state of that moment. -/
inductive TrackerCall (α : Type) where
  | «open»
  | close
  | start (cb : Option Nat) (anchorCb : Option Nat)
  | stop
  | resetTracking
  | poseDeliveryIteration (d : QuestVuforiaDriver α)

/-- The effect of one call on the tracker: returned flag and next state. A pass
of the delivery loop happens only while the tracker runs. -/
def TrackerCall.apply {α : Type} [Add α] [Sub α] [Mul α] [Neg α] [OfNat α 1] [OfNat α 2]
    (t : QuestExternalTracker) : TrackerCall α → Bool × QuestExternalTracker
  | .«open» => t.«open»
  | .close => t.close
  | .start cb anchorCb => t.start cb anchorCb
  | .stop => t.stop
  | .resetTracking => t.resetTracking
  | .poseDeliveryIteration d =>
    if t.isRunning_ then (true, (t.poseDeliveryIteration d).2) else (true, t)

/-- The tracker state after a sequence of calls. -/
def QuestExternalTracker.run {α : Type} [Add α] [Sub α] [Mul α] [Neg α] [OfNat α 1] [OfNat α 2]
    (t : QuestExternalTracker) (calls : List (TrackerCall α)) : QuestExternalTracker :=
  calls.foldl (fun s call => (call.apply s).2) t

/-- A tracker state that can be reached from a freshly constructed tracker. -/
def QuestExternalTracker.Reachable (α : Type) [Add α] [Sub α] [Mul α] [Neg α] [OfNat α 1]
    [OfNat α 2] (t : QuestExternalTracker) : Prop :=
  ∃ calls : List (TrackerCall α), QuestExternalTracker.new.run calls = t

/-- Facts that hold in every tracker state between two calls: a running tracker
is open, and thread handle and callback are set exactly while it runs. -/
def QuestExternalTracker.Inv (t : QuestExternalTracker) : Prop :=
  (t.isRunning_ = true → t.isOpen_ = true) ∧
  t.poseThread_ = t.isRunning_ ∧
  t.callback_.isSome = t.isRunning_

/-- A driver over `ℤ` holding one frame with timestamp 5 and one default pose
with timestamp 5. -/
def driverWithFrameAndPose : QuestVuforiaDriver ℤ :=
  { (driverWithPoses [5]) with frameQueue_ := [(frameArgsAt 5).frame (driverWithPoses [5])] }

/-- A tracker over `ℤ` that was opened, started with callback 1 and has run one
pass of its delivery loop on `driverWithFrameAndPose`. -/
def trackerAfterDelivery : QuestExternalTracker :=
  QuestExternalTracker.new.run
    [TrackerCall.open, TrackerCall.start (some 1) none,
     TrackerCall.poseDeliveryIteration driverWithFrameAndPose]

/-- A tracker that was opened and started with callback 1 (its delivery loop has
not run yet). -/
def trackerStarted : QuestExternalTracker :=
  QuestExternalTracker.new.run
    ([TrackerCall.open, TrackerCall.start (some 1) none] : List (TrackerCall ℤ))

/-- The pose record `feedDevicePose` builds before it enqueues it. -/
def makePose {α : Type} [OfNat α 0] [OfNat α 1] (position : Option (Fin 3 → α))
    (rotation : Option (Fin 4 → α)) (timestamp : Int) : PoseData α :=
  let p0 : PoseData α := { (PoseData.new : PoseData α) with timestamp := timestamp }
  let p1 : PoseData α := match position with
    | some p => { p0 with position := p }
    | none => p0
  match rotation with
  | some r => { p1 with rotation := r }
  | none => p1

/-- The pose record a call pushes, if it is a `feedDevicePose` call. -/
def DriverCall.pushedPose {α : Type} [OfNat α 0] [OfNat α 1] : DriverCall α → Option (PoseData α)
  | .feedDevicePose position rotation timestamp => some (makePose position rotation timestamp)
  | _ => none

/-- The pose records pushed by the `feedDevicePose` calls of a sequence of calls,
in call order. -/
def pushedPoses {α : Type} [OfNat α 0] [OfNat α 1] (calls : List (DriverCall α)) :
    List (PoseData α) :=
  calls.filterMap DriverCall.pushedPose

/-- The condition under which a call returns rather than throws: the byte count
of a `feedCameraFrame` call is not negative. -/
def DriverCall.returns {α : Type} : DriverCall α → Prop
  | .feedCameraFrame _ width height _ _ => 0 ≤ mul32 (mul32 width height) 3
  | _ => True

/-- A sequence of calls over `ℤ`: a camera is created, a frame is fed, and 92
poses with timestamps 0 to 91 are fed. -/
def ninetyTwoPoses : List (DriverCall ℤ) :=
  [DriverCall.createExternalCamera (some 7), (frameArgsAt 1).toCall] ++
    (List.range 92).map fun i => DriverCall.feedDevicePose none none (i : ℤ)

/-! ## Process globals, entry points and ingestion bridge
(`vuforia_driver.cpp`, `quforia_jni.cpp`) -/

/-- The process-wide state: the global pointer `g_driverInstance` together with
the driver object it points to, and the addresses of the driver, camera and
tracker objects that were created by `new` and not yet deleted. -/
structure Process (α : Type) where
  g_driverInstance : Option (Nat × QuestVuforiaDriver α)
  drivers : List Nat
  cameras : List Nat
  trackers : List Nat

/-- The census of device objects a driver call leaves, for the cameras. -/
def DriverCall.camerasAfter {α : Type} (d : QuestVuforiaDriver α) :
    DriverCall α → List Nat → List Nat
  | .createExternalCamera alloc, live => heapAfterCreate d.camera_ alloc live
  | .destroyExternalCamera instancePtr, live => heapAfterDestroy d.camera_ instancePtr live
  | _, live => live

/-- The census of device objects a driver call leaves, for the trackers. -/
def DriverCall.trackersAfter {α : Type} (d : QuestVuforiaDriver α) :
    DriverCall α → List Nat → List Nat
  | .createExternalPositionalDeviceTracker alloc, live => heapAfterCreate d.tracker_ alloc live
  | .destroyExternalPositionalDeviceTracker instancePtr, live =>
    heapAfterDestroy d.tracker_ instancePtr live
  | _, live => live

namespace Process

variable {α : Type}

/-- The state at process start: the global pointer is null and no object
exists. -/
def initial : Process α :=
  { g_driverInstance := none, drivers := [], cameras := [], trackers := [] }

/-- The entry point `vuforiaDriver_init`. `alloc` is the outcome of
`new QuestVuforiaDriver(...)` should it be evaluated: the address of the new
driver, or `none` when it throws, which is caught and answered with `nullptr`.
The result is the returned pointer and the process state. -/
def vuforiaDriver_init [OfNat α 0] (p : Process α) (alloc : Option Nat) :
    Option Nat × Process α :=
  match p.g_driverInstance with
  | some (g, _) => (some g, p)
  | none =>
    match alloc with
    | some a =>
      (some a, { p with g_driverInstance := some (a, QuestVuforiaDriver.new),
                        drivers := a :: p.drivers })
    | none => (none, p)

/-- The entry point `vuforiaDriver_deinit(driver)`. Deleting the driver runs its
destructor, which deletes the camera and the tracker it still owns. -/
def vuforiaDriver_deinit (p : Process α) (driver : Option Nat) : Process α :=
  match driver with
  | none => p
  | some a =>
    match p.g_driverInstance with
    | some (g, d) =>
      if a = g then
        { g_driverInstance := none
          drivers := p.drivers.erase g
          cameras := match d.camera_ with
            | some c => p.cameras.erase c
            | none => p.cameras
          trackers := match d.tracker_ with
            | some t => p.trackers.erase t
            | none => p.trackers }
      else p
    | none => p

/-- A method call the engine makes on the driver it obtained from
`vuforiaDriver_init` (no call is made while there is no driver); `none` when
the call throws. -/
def driverCall [OfNat α 0] [OfNat α 1] (p : Process α) (c : DriverCall α) :
    Option (Process α) :=
  match p.g_driverInstance with
  | none => some p
  | some (g, d) =>
    match c.apply d with
    | none => none
    | some d1 =>
      some { p with g_driverInstance := some (g, d1)
                    cameras := c.camerasAfter d p.cameras
                    trackers := c.trackersAfter d p.trackers }

/-- The bridge function `nativeSetCameraIntrinsics(intrinsics, length)`. -/
def nativeSetCameraIntrinsics (p : Process α) (intrinsics : Option (Nat → α)) (length : Int) :
    Bool × Process α :=
  match p.g_driverInstance with
  | none => (false, p)
  | some (g, d) =>
    if intrinsics.isNone ∨ length < 6 then (false, p)
    else (true, { p with g_driverInstance := some (g, d.setCameraIntrinsics intrinsics) })

/-- The bridge function `nativeFeedDevicePose(position, rotation, timestamp)`. -/
def nativeFeedDevicePose [OfNat α 0] [OfNat α 1] (p : Process α)
    (position : Option (Fin 3 → α)) (rotation : Option (Fin 4 → α)) (timestamp : Int) :
    Bool × Process α :=
  match p.g_driverInstance with
  | none => (false, p)
  | some (g, d) =>
    if position.isNone ∨ rotation.isNone then (false, p)
    else
      (true,
        { p with g_driverInstance := some (g, d.feedDevicePose position rotation timestamp) })

/-- The bridge function `nativeFeedCameraFrame(imageData, width, height,
intrinsics, intrinsicsLength, timestamp)`; `none` when `feedCameraFrame`
throws. -/
def nativeFeedCameraFrame [OfNat α 0] (p : Process α) (imageData : Option (Nat → UInt8))
    (width height : Int) (intrinsics : Option (Nat → α)) (_intrinsicsLength : Int)
    (timestamp : Int) : Option (Bool × Process α) :=
  match p.g_driverInstance with
  | none => some (false, p)
  | some (g, d) =>
    match imageData with
    | none => some (false, p)
    | some img =>
      match d.feedCameraFrame img width height intrinsics timestamp with
      | none => none
      | some d1 => some (true, { p with g_driverInstance := some (g, d1) })

/-- The bridge function `nativeIsDriverInitialized`. -/
def nativeIsDriverInitialized (p : Process α) : Bool := p.g_driverInstance.isSome

end Process

/-- A call of an entry point, of a bridge function, or of a driver method. -/
inductive ProcessCall (α : Type) where
  | vuforiaDriver_init (alloc : Option Nat)
  | vuforiaDriver_deinit (driver : Option Nat)
  | driverCall (c : DriverCall α)
  | nativeSetCameraIntrinsics (intrinsics : Option (Nat → α)) (length : Int)
  | nativeFeedDevicePose (position : Option (Fin 3 → α)) (rotation : Option (Fin 4 → α))
      (timestamp : Int)
  | nativeFeedCameraFrame (imageData : Option (Nat → UInt8)) (width height : Int)
      (intrinsics : Option (Nat → α)) (intrinsicsLength : Int) (timestamp : Int)

/-- The process state after one call, `none` when the call throws. -/
def ProcessCall.apply {α : Type} [OfNat α 0] [OfNat α 1] (p : Process α) :
    ProcessCall α → Option (Process α)
  | .vuforiaDriver_init alloc => some (p.vuforiaDriver_init alloc).2
  | .vuforiaDriver_deinit driver => some (p.vuforiaDriver_deinit driver)
  | .driverCall c => p.driverCall c
  | .nativeSetCameraIntrinsics intrinsics length =>
    some (p.nativeSetCameraIntrinsics intrinsics length).2
  | .nativeFeedDevicePose position rotation timestamp =>
    some (p.nativeFeedDevicePose position rotation timestamp).2
  | .nativeFeedCameraFrame imageData width height intrinsics intrinsicsLength timestamp =>
    (p.nativeFeedCameraFrame imageData width height intrinsics intrinsicsLength timestamp).map
      Prod.snd

/-- The process state after a sequence of calls, `none` when one of them
throws. -/
def Process.run {α : Type} [OfNat α 0] [OfNat α 1] (p : Process α) :
    List (ProcessCall α) → Option (Process α)
  | [] => some p
  | call :: rest =>
    match call.apply p with
    | some p1 => Process.run p1 rest
    | none => none

/-- The census agrees with the pointers: the live drivers are the one the global
pointer names, the live cameras and trackers the ones that driver points to. -/
def Process.Census {α : Type} (p : Process α) : Prop :=
  p.drivers = (p.g_driverInstance.map Prod.fst).toList ∧
  p.cameras = (p.g_driverInstance.bind fun x => x.2.camera_).toList ∧
  p.trackers = (p.g_driverInstance.bind fun x => x.2.tracker_).toList

/-- A process over `ℤ` in which the driver was created at address 1. -/
def processWithDriver : Process ℤ :=
  ((Process.initial : Process ℤ).vuforiaDriver_init (some 1)).2

/-- A history of entry point and driver calls over `ℤ`: the driver is created at
address 1, a second `init` is attempted, a camera is created at 10 and a tracker
at 20, second creations are attempted, and destroy calls are made with pointers
that are not the current ones. -/
def singletonHistory : List (ProcessCall ℤ) :=
  [ProcessCall.vuforiaDriver_init (some 1),
   ProcessCall.vuforiaDriver_init (some 2),
   ProcessCall.driverCall (DriverCall.createExternalCamera (some 10)),
   ProcessCall.driverCall (DriverCall.createExternalCamera (some 11)),
   ProcessCall.driverCall (DriverCall.createExternalPositionalDeviceTracker (some 20)),
   ProcessCall.driverCall (DriverCall.createExternalPositionalDeviceTracker (some 21)),
   ProcessCall.driverCall (DriverCall.destroyExternalCamera (some 11)),
   ProcessCall.driverCall (DriverCall.destroyExternalPositionalDeviceTracker none),
   ProcessCall.vuforiaDriver_deinit (some 2)]

/-! ## Library version entry point and camera delivery loop -/

/-- The function `strncpy(dest, src, n)` for a source string `src` (without its
terminator): the `n` characters it stores at `dest[0 .. n)`, the source
characters followed by zero padding when the source is shorter than `n`. -/
def strncpy (src : List Char) (n : Nat) : List Char :=
  src.take n ++ List.replicate (n - src.length) (Char.ofNat 0)

/-- The string constant of `vuforiaDriver_getLibraryVersion`. -/
def libraryVersion : List Char := "QuestVuforiaDriver 1.0.0".toList

/-- The entry point `vuforiaDriver_getLibraryVersion(versionString, maxLen)`,
with `len` and `maxLen` of type `uint32_t`. The result is the returned length
and the characters stored at `versionString[0 .. len]`: those of `strncpy`
followed by the terminator stored at index `len`. -/
def vuforiaDriver_getLibraryVersion (maxLen : Nat) : Nat × List Char :=
  let len0 := libraryVersion.length % 4294967296
  let len := if len0 ≥ maxLen then (maxLen + 4294967296 - 1) % 4294967296 else len0
  (len, strncpy libraryVersion len ++ [Char.ofNat 0])

/-- The frame period `1000 / targetFPS` that `frameDeliveryThread` computes in
`int` from the current mode (`targetFPS` is the `uint32_t` frame rate stored in
an `int`); `none` when the division is by zero. -/
def QuestExternalCamera.frameDuration (c : QuestExternalCamera) : Option Int :=
  let targetFPS := wrap32 (c.currentMode_.fps : Int)
  if targetFPS = 0 then none else some (Int.tdiv 1000 targetFPS)

/-- A driver over `ℤ` holding one frame and one default pose, both with the
timestamp `ts`. -/
def driverWithFrameAndPoseAt (ts : Int) : QuestVuforiaDriver ℤ :=
  { (driverWithPoses [ts]) with frameQueue_ := [(frameArgsAt ts).frame (driverWithPoses [ts])] }

/-- Modelled from the spec: the engine's frame descriptor `CameraFrame`, whose
declaration is in the engine header that is not part of the sources. It has the
fields the delivery loop assigns after zeroing the descriptor; each integer
field holds the value of the right-hand side of its assignment, computed in
`int` where the source multiplies, and the buffer pointer is represented by the
bytes it points to. -/
structure CameraFrame (α : Type) where
  buffer : List UInt8
  width : Int
  height : Int
  stride : Int
  bufferSize : Int
  format : PixelFormat
  timestamp : Int
  exposureTime : Int
  intrinsics : CameraIntrinsics α

/-- The body of the loop of `frameDeliveryThread`, run on driver state `d`: the
list of `onNewCameraFrame` invocations it makes (callback address and
descriptor passed). The camera state is not changed by the loop. -/
def QuestExternalCamera.frameDeliveryIteration {α : Type} (c : QuestExternalCamera)
    (d : QuestVuforiaDriver α) : List (Nat × CameraFrame α) :=
  match d.acquireLatestFrame.1, c.callback_ with
  | some frameData, some cb =>
    let stride := mul32 frameData.width 3
    let vuforiaFrame : CameraFrame α :=
      { buffer := frameData.imageData
        width := frameData.width
        height := frameData.height
        stride := stride
        bufferSize := mul32 stride frameData.height
        format := PixelFormat.RGB888
        timestamp := frameData.timestamp
        exposureTime := 33333333
        intrinsics := frameData.intrinsics }
    [(cb, vuforiaFrame)]
  | _, _ => []

/-- Arguments of a `feedCameraFrame` call over `ℤ` with width `2^30`, height 4
and timestamp 1: the byte count `width * height * 3` wraps to 0 in `int`. -/
def largeFrameArgs : FrameArgs ℤ :=
  { imageData := fun _ => 0, width := 1073741824, height := 4, intrinsics := none,
    timestamp := 1 }

/-- The driver over `ℤ` after `largeFrameArgs` was fed to a fresh driver. -/
def driverWithLargeFrame : QuestVuforiaDriver ℤ :=
  match (QuestVuforiaDriver.new : QuestVuforiaDriver ℤ).feedCameraFrame largeFrameArgs.imageData
      largeFrameArgs.width largeFrameArgs.height largeFrameArgs.intrinsics
      largeFrameArgs.timestamp with
  | some d => d
  | none => QuestVuforiaDriver.new

/-- A camera that was opened and started with the supported mode and
callback 1. -/
def cameraStarted : QuestExternalCamera :=
  QuestExternalCamera.new.run [CameraCall.open, CameraCall.start supportedMode (some 1)]

/-! ## Array reads and lock scopes -/

/-- The indices of the array read by the assignments of
`CameraIntrinsics.assignFromArray`, in order: 2 to 5, then `i + 6` for `i` from
0 to 7. -/
def CameraIntrinsics.assignFromArrayReads : List Nat :=
  [2, 3, 4, 5] ++ (List.range 8).map fun i => i + 6

/-- The indices of the array read by `setCameraIntrinsics`: none for a null
array, else those of the assignments and indices 0 and 1 for the log line. -/
def QuestVuforiaDriver.setCameraIntrinsicsReads {α : Type} (_d : QuestVuforiaDriver α)
    (intrinsics : Option (Nat → α)) : List Nat :=
  match intrinsics with
  | none => []
  | some _ => CameraIntrinsics.assignFromArrayReads ++ [0, 1]

/-- The indices of the array read by `feedCameraFrame`: those of the assignments
when the cache is not active and the array is not null. -/
def QuestVuforiaDriver.feedCameraFrameReads {α : Type} (d : QuestVuforiaDriver α)
    (intrinsics : Option (Nat → α)) : List Nat :=
  if d.intrinsicsSet_ then []
  else
    match intrinsics with
    | some _ => CameraIntrinsics.assignFromArrayReads
    | none => []

/-- The indices of the array read by `nativeSetCameraIntrinsics`: those of
`setCameraIntrinsics` and indices 0 to 5 for its own log line, when the call is
accepted. -/
def Process.nativeSetCameraIntrinsicsReads {α : Type} (p : Process α)
    (intrinsics : Option (Nat → α)) (length : Int) : List Nat :=
  match p.g_driverInstance with
  | none => []
  | some (_, d) =>
    if intrinsics.isNone ∨ length < 6 then []
    else d.setCameraIntrinsicsReads intrinsics ++ [0, 1, 2, 3, 4, 5]

/-- The indices of the intrinsics array read by `nativeFeedCameraFrame`: those
of `feedCameraFrame`, when the call is accepted. -/
def Process.nativeFeedCameraFrameReads {α : Type} (p : Process α)
    (imageData : Option (Nat → UInt8)) (intrinsics : Option (Nat → α)) : List Nat :=
  match p.g_driverInstance with
  | none => []
  | some (_, d) =>
    match imageData with
    | none => []
    | some _ => d.feedCameraFrameReads intrinsics

/-- The three mutexes of the driver. -/
inductive LockDomain where
  | frameMutex_
  | poseMutex_
  | intrinsicsMutex_
  deriving DecidableEq, Repr

/-- A lock event: the construction of a `std::lock_guard` on a mutex, or its
destruction at the end of its scope. -/
inductive LockEvent where
  | acquire (m : LockDomain)
  | release (m : LockDomain)
  deriving DecidableEq, Repr

namespace QuestVuforiaDriver

variable {α : Type}

/-- The method `feedCameraFrame` together with the events of its two
`std::lock_guard` objects, in program order. `lock(frameMutex_)` is constructed
on entry and destroyed when the function is left. The allocation
`new uint8_t[dataSize]` is evaluated under it, before the inner block: when it
throws, the function is left with only the frame lock taken (its guard is
destroyed as the stack unwinds). Otherwise the inner block constructs
`intrinsicsLock(intrinsicsMutex_)` and destroys it at its closing brace, and the
frame lock is released at the end of the function. -/
def feedCameraFrameLocked [OfNat α 0] (d : QuestVuforiaDriver α) (imageData : Nat → UInt8)
    (width height : Int) (intrinsics : Option (Nat → α)) (timestamp : Int) :
    Option (QuestVuforiaDriver α) × List LockEvent :=
  let entered := [LockEvent.acquire LockDomain.frameMutex_]
  if mul32 (mul32 width height) 3 < 0 then
    (none, entered ++ [LockEvent.release LockDomain.frameMutex_])
  else
    let resolved := entered ++
      [LockEvent.acquire LockDomain.intrinsicsMutex_, LockEvent.release LockDomain.intrinsicsMutex_]
    let frameData := d.makeFrame imageData width height intrinsics timestamp
    (some { d with frameQueue_ := popWhileOver MAX_FRAME_QUEUE_SIZE (d.frameQueue_ ++ [frameData]) },
      resolved ++ [LockEvent.release LockDomain.frameMutex_])

/-- The method `feedDevicePose` with its lock events: one guard on `poseMutex_`
over the whole body. -/
def feedDevicePoseLocked [OfNat α 0] [OfNat α 1] (d : QuestVuforiaDriver α)
    (position : Option (Fin 3 → α)) (rotation : Option (Fin 4 → α)) (timestamp : Int) :
    QuestVuforiaDriver α × List LockEvent :=
  (d.feedDevicePose position rotation timestamp,
    [LockEvent.acquire LockDomain.poseMutex_, LockEvent.release LockDomain.poseMutex_])

/-- The method `setCameraIntrinsics` with its lock events: a null array returns
before the guard on `intrinsicsMutex_` is constructed. -/
def setCameraIntrinsicsLocked (d : QuestVuforiaDriver α) (intrinsics : Option (Nat → α)) :
    QuestVuforiaDriver α × List LockEvent :=
  match intrinsics with
  | none => (d, [])
  | some a =>
    ({ d with cachedIntrinsics_ := d.cachedIntrinsics_.assignFromArray a, intrinsicsSet_ := true },
      [LockEvent.acquire LockDomain.intrinsicsMutex_, LockEvent.release LockDomain.intrinsicsMutex_])

/-- The method `acquireLatestFrame` with its lock events: one guard on
`frameMutex_`, constructed before the queue is tested. -/
def acquireLatestFrameLocked (d : QuestVuforiaDriver α) :
    (Option (CameraFrameData α) × QuestVuforiaDriver α) × List LockEvent :=
  (d.acquireLatestFrame,
    [LockEvent.acquire LockDomain.frameMutex_, LockEvent.release LockDomain.frameMutex_])

/-- The method `acquirePoseForTimestamp` with its lock events: one guard on
`poseMutex_`, constructed before the queue is tested. -/
def acquirePoseForTimestampLocked (d : QuestVuforiaDriver α) (timestamp : Int) :
    (Option (PoseData α) × QuestVuforiaDriver α) × List LockEvent :=
  (d.acquirePoseForTimestamp timestamp,
    [LockEvent.acquire LockDomain.poseMutex_, LockEvent.release LockDomain.poseMutex_])

/-- The destructor `~QuestVuforiaDriver` with its lock events: the devices are
deleted before any guard exists; `frameLock` and `poseLock` are locals of the
function body, so both live until its end and are destroyed in reverse order.
The result is the state of the object when the body ends. -/
def destructorLocked (d : QuestVuforiaDriver α) : QuestVuforiaDriver α × List LockEvent :=
  let d1 := { d with camera_ := none, tracker_ := none }
  let d2 := { d1 with frameQueue_ := [] }
  let d3 := { d2 with poseQueue_ := [] }
  (d3,
    [LockEvent.acquire LockDomain.frameMutex_, LockEvent.acquire LockDomain.poseMutex_,
     LockEvent.release LockDomain.poseMutex_, LockEvent.release LockDomain.frameMutex_])

end QuestVuforiaDriver

/-- The driver state after one call (`none` when the call throws) together with
the lock events of the call. `getCapabilities` and the four create and destroy
methods construct no guard. -/
def DriverCall.applyLocked {α : Type} [OfNat α 0] [OfNat α 1] (d : QuestVuforiaDriver α) :
    DriverCall α → Option (QuestVuforiaDriver α) × List LockEvent
  | .feedCameraFrame img w h intr ts => d.feedCameraFrameLocked img w h intr ts
  | .feedDevicePose p r ts =>
    (some (d.feedDevicePoseLocked p r ts).1, (d.feedDevicePoseLocked p r ts).2)
  | .setCameraIntrinsics intr =>
    (some (d.setCameraIntrinsicsLocked intr).1, (d.setCameraIntrinsicsLocked intr).2)
  | .acquireLatestFrame => (some d.acquireLatestFrameLocked.1.2, d.acquireLatestFrameLocked.2)
  | .acquirePoseForTimestamp ts =>
    (some (d.acquirePoseForTimestampLocked ts).1.2, (d.acquirePoseForTimestampLocked ts).2)
  | .getCapabilities => (some d, [])
  | .createExternalCamera alloc => (some (d.createExternalCamera alloc).2, [])
  | .destroyExternalCamera instancePtr => (some (d.destroyExternalCamera instancePtr), [])
  | .createExternalPositionalDeviceTracker alloc =>
    (some (d.createExternalPositionalDeviceTracker alloc).2, [])
  | .destroyExternalPositionalDeviceTracker instancePtr =>
    (some (d.destroyExternalPositionalDeviceTracker instancePtr), [])

/-- The lock events of one call made in driver state `d`. -/
def DriverCall.lockTrace {α : Type} [OfNat α 0] [OfNat α 1] (d : QuestVuforiaDriver α)
    (c : DriverCall α) : List LockEvent :=
  (c.applyLocked d).2

/-- Arguments of a `feedCameraFrame` call over `ℤ` with width -1 and height 1:
the byte count is -3 and the allocation throws. -/
def negativeFrameArgs : FrameArgs ℤ :=
  { imageData := fun _ => 0, width := -1, height := 1, intrinsics := none, timestamp := 7 }

/-- The locks held after an event. -/
def heldAfter (held : List LockDomain) : LockEvent → List LockDomain
  | .acquire m => m :: held
  | .release m => held.erase m

/-- The largest number of locks held at any moment of a trace, starting with the
locks `held`. -/
def maxHeld : List LockDomain → List LockEvent → Nat
  | held, [] => held.length
  | held, e :: es => max held.length (maxHeld (heldAfter held e) es)

/-- The nested acquisitions of a trace: the pairs (lock held, lock acquired
while it is held). -/
def nestedAcquisitions : List LockDomain → List LockEvent → List (LockDomain × LockDomain)
  | _, [] => []
  | held, .acquire m :: es => held.map (fun h => (h, m)) ++ nestedAcquisitions (m :: held) es
  | held, .release m :: es => nestedAcquisitions (held.erase m) es

/-! ## Theorems: machine integers and queues -/

theorem abs64_sub64_of_inRange (a b : Int) (h1 : -9223372036854775808 < a - b)
    (h2 : a - b < 9223372036854775808) : abs64 (sub64 a b) = |a - b| := by
  have hs : sub64 a b = a - b := by unfold sub64 wrap64; omega
  rw [hs]
  unfold abs64 wrap64
  rcases lt_or_le (a - b) 0 with h | h
  · rw [if_pos h, abs_of_neg h]; omega
  · rw [if_neg (not_lt.mpr h), abs_of_nonneg h]; omega

theorem popWhileOver_eq_drop {β : Type} (max : Nat) (l : List β) :
    popWhileOver max l = l.drop (l.length - max) := by
  induction l with
  | nil => simp [popWhileOver]
  | cons x xs ih =>
    unfold popWhileOver
    by_cases h : (x :: xs).length > max
    · rw [if_pos h, ih]
      simp only [List.length_cons] at h ⊢
      have e : xs.length + 1 - max = (xs.length - max) + 1 := by omega
      rw [e, List.drop_succ_cons]
    · rw [if_neg h]
      simp only [List.length_cons] at h ⊢
      have e : xs.length + 1 - max = 0 := by omega
      rw [e, List.drop_zero]

theorem popWhileOver_length_le {β : Type} (max : Nat) (l : List β) :
    (popWhileOver max l).length ≤ max := by
  rw [popWhileOver_eq_drop, List.length_drop]; omega

/-! ## Theorems: nearest pose -/

namespace QuestVuforiaDriver

variable {α : Type}

theorem scan_invariant (T : Int) (l : List (PoseData α))
    (hrange : ∀ p ∈ l, -9223372036854775808 < p.timestamp - T ∧
      p.timestamp - T < 9223372036854775808) :
    (l.foldl (scanStep T) (none, INT64_MAX)).2 ≤ INT64_MAX ∧
    (∀ p ∈ l, (l.foldl (scanStep T) (none, INT64_MAX)).2 ≤ |p.timestamp - T|) ∧
    ((l.foldl (scanStep T) (none, INT64_MAX)).1 = none →
      (l.foldl (scanStep T) (none, INT64_MAX)).2 = INT64_MAX) ∧
    (∀ q, (l.foldl (scanStep T) (none, INT64_MAX)).1 = some q →
      q ∈ l ∧ (l.foldl (scanStep T) (none, INT64_MAX)).2 = |q.timestamp - T|) := by
  induction l using List.reverseRecOn with
  | nil => simp
  | append_singleton l p ih =>
    have hl : ∀ p ∈ l, -9223372036854775808 < p.timestamp - T ∧
        p.timestamp - T < 9223372036854775808 :=
      fun x hx => hrange x (List.mem_append_left _ hx)
    obtain ⟨h1, h2, h3, h4⟩ := ih hl
    have hp := hrange p (by simp)
    have habs := abs64_sub64_of_inRange p.timestamp T hp.1 hp.2
    rw [List.foldl_append, List.foldl_cons, List.foldl_nil]
    generalize l.foldl (scanStep T) (none, INT64_MAX) = acc at h1 h2 h3 h4 ⊢
    unfold scanStep
    simp only [habs]
    by_cases hlt : |p.timestamp - T| < acc.2
    · simp only [if_pos hlt]
      refine ⟨le_of_lt (lt_of_lt_of_le hlt h1), ?_, ?_, ?_⟩
      · intro x hx
        rcases List.mem_append.mp hx with hx | hx
        · exact le_trans (le_of_lt hlt) (h2 x hx)
        · simp at hx; subst hx; exact le_refl _
      · intro h; cases h
      · intro q hq
        simp only [Option.some.injEq] at hq
        subst hq
        exact ⟨by simp, rfl⟩
    · simp only [if_neg hlt]
      refine ⟨h1, ?_, h3, ?_⟩
      · intro x hx
        rcases List.mem_append.mp hx with hx | hx
        · exact h2 x hx
        · simp at hx; subst hx; exact not_lt.mp hlt
      · intro q hq
        obtain ⟨hm, he⟩ := h4 q hq
        exact ⟨List.mem_append_left _ hm, he⟩

/-- C1 (evaluation at the failing input, and the inputs on which the claim
holds): with one buffered pose at `INT64_MIN` and the target `INT64_MAX`, every
buffered pose is at least 50,000,000 ns away from the target (the distance is
`2^64 - 1` ns), yet `acquirePoseForTimestamp` returns that pose, because the
64-bit difference wraps to 1. With poses at 100, 200 and 500 ns, the target 210
returns the 200-pose and the target 100,000,000 returns none. Whenever every
buffered pose's difference `pose.timestamp - T` lies strictly between `-2^63`
and `2^63` (true of all non-negative timestamps), `acquirePoseForTimestamp T`
returns none exactly when the pose queue is empty or every buffered pose is at
least 50,000,000 ns away from `T`; a returned pose is a buffered pose whose
distance to `T` is minimal among the buffered poses; and the call leaves the
driver unchanged. -/
theorem acquirePoseForTimestamp_nearest_overflow :
    (∀ p ∈ (driverWithPoses [-9223372036854775808]).poseQueue_,
      50000000 ≤ |p.timestamp - 9223372036854775807|) ∧
    abs64 (sub64 (-9223372036854775808) 9223372036854775807) = 1 ∧
    ((driverWithPoses [-9223372036854775808]).acquirePoseForTimestamp
      9223372036854775807).1.map PoseData.timestamp = some (-9223372036854775808) ∧
    ((driverWithPoses [100, 200, 500]).acquirePoseForTimestamp 210).1.map PoseData.timestamp =
      some 200 ∧
    ((driverWithPoses [100, 200, 500]).acquirePoseForTimestamp 100000000).1 = none ∧
    (∀ (α : Type) (d : QuestVuforiaDriver α) (T : Int),
      (∀ p ∈ d.poseQueue_, -9223372036854775808 < p.timestamp - T ∧
        p.timestamp - T < 9223372036854775808) →
      ((d.acquirePoseForTimestamp T).1 = none ↔
        (d.poseQueue_ = [] ∨ ∀ p ∈ d.poseQueue_, 50000000 ≤ |p.timestamp - T|)) ∧
      (∀ r, (d.acquirePoseForTimestamp T).1 = some r →
        r ∈ d.poseQueue_ ∧ |r.timestamp - T| < 50000000 ∧
          ∀ p ∈ d.poseQueue_, |r.timestamp - T| ≤ |p.timestamp - T|) ∧
      (d.acquirePoseForTimestamp T).2 = d) := by
  refine ⟨?_, by decide, by decide, by decide, rfl, ?_⟩
  · intro p hp
    simp [driverWithPoses, PoseData.new] at hp
    subst hp
    norm_num
  intro α d T hrange
  obtain ⟨h1, h2, h3, h4⟩ := scan_invariant T d.poseQueue_ hrange
  unfold acquirePoseForTimestamp
  generalize d.poseQueue_.foldl (scanStep T) (none, INT64_MAX) = acc at h1 h2 h3 h4 ⊢
  by_cases hempty : d.poseQueue_ = []
  · simp [hempty]
  · have hne : d.poseQueue_.isEmpty = false := by
      cases hq : d.poseQueue_ with
      | nil => exact absurd hq hempty
      | cons x xs => rfl
    simp only [hne, Bool.false_eq_true, if_false]
    by_cases hc : acc.1.isSome = true ∧ acc.2 < 50000000
    · simp only [if_pos hc]
      obtain ⟨q, hq⟩ := Option.isSome_iff_exists.mp hc.1
      obtain ⟨hm, he⟩ := h4 q hq
      refine ⟨?_, ?_, trivial⟩
      · constructor
        · intro h; rw [hq] at h; cases h
        · intro h
          rcases h with h | h
          · exact absurd h hempty
          · have := h q hm
            rw [← he] at this
            omega
      · intro r hr
        rw [hq] at hr
        simp only [Option.some.injEq] at hr
        subst hr
        refine ⟨hm, by rw [← he]; exact hc.2, ?_⟩
        intro p hp
        rw [← he]
        exact h2 p hp
    · simp only [if_neg hc]
      refine ⟨?_, ?_, trivial⟩
      · constructor
        · intro _
          right
          intro p hp
          have hb := h2 p hp
          cases hs : acc.1 with
          | none =>
            have := h3 hs
            unfold INT64_MAX at this
            omega
          | some q =>
            have hlt : ¬ acc.2 < 50000000 := fun hlt => hc ⟨by simp [hs], hlt⟩
            omega
        · intro _; trivial
      · intro r hr; cases hr

end QuestVuforiaDriver

/-! ## Theorems: frame queue -/

theorem drop_length_sub_append {β : Type} (n : Nat) (A B : List β) :
    (A.drop (A.length - n) ++ B).drop ((A.drop (A.length - n) ++ B).length - n) =
      (A ++ B).drop ((A ++ B).length - n) := by
  have hk : A.length - n ≤ A.length := Nat.sub_le _ _
  rw [← List.drop_append_of_le_length hk, List.drop_drop]
  congr 1
  simp only [List.length_drop, List.length_append]
  omega

namespace QuestVuforiaDriver

variable {α : Type}

theorem makeFrame_congr [OfNat α 0] (d1 d2 : QuestVuforiaDriver α)
    (hs : d1.intrinsicsSet_ = d2.intrinsicsSet_)
    (hc : d1.cachedIntrinsics_ = d2.cachedIntrinsics_) (imageData : Nat → UInt8)
    (width height : Int) (intrinsics : Option (Nat → α)) (timestamp : Int) :
    d1.makeFrame imageData width height intrinsics timestamp =
      d2.makeFrame imageData width height intrinsics timestamp := by
  unfold makeFrame
  rw [hs, hc]

theorem feedCameraFrame_of_valid [OfNat α 0] (d : QuestVuforiaDriver α) (a : FrameArgs α)
    (hvalid : 0 ≤ a.dataSize) :
    ∃ d1, d.feedCameraFrame a.imageData a.width a.height a.intrinsics a.timestamp = some d1 ∧
      d1.frameQueue_ =
        (d.frameQueue_ ++ [a.frame d]).drop ((d.frameQueue_ ++ [a.frame d]).length - 3) ∧
      d1.intrinsicsSet_ = d.intrinsicsSet_ ∧ d1.cachedIntrinsics_ = d.cachedIntrinsics_ ∧
      d1.poseQueue_ = d.poseQueue_ ∧ d1.camera_ = d.camera_ ∧ d1.tracker_ = d.tracker_ := by
  unfold feedCameraFrame
  have h : ¬ mul32 (mul32 a.width a.height) 3 < 0 := not_lt.mpr hvalid
  rw [if_neg h]
  exact ⟨_, rfl, by simp only [popWhileOver_eq_drop, MAX_FRAME_QUEUE_SIZE, FrameArgs.frame],
    rfl, rfl, rfl, rfl, rfl⟩

theorem run_feedCameraFrame [OfNat α 0] [OfNat α 1] (args : List (FrameArgs α)) :
    ∀ d : QuestVuforiaDriver α, (∀ a ∈ args, 0 ≤ a.dataSize) → d.frameQueue_.length ≤ 3 →
      ∃ d1, d.run (args.map FrameArgs.toCall) = some d1 ∧
        d1.frameQueue_ = (d.frameQueue_ ++ args.map (FrameArgs.frame d)).drop
          ((d.frameQueue_ ++ args.map (FrameArgs.frame d)).length - 3) ∧
        d1.intrinsicsSet_ = d.intrinsicsSet_ ∧ d1.cachedIntrinsics_ = d.cachedIntrinsics_ ∧
        d1.poseQueue_ = d.poseQueue_ := by
  induction args with
  | nil =>
    intro d _ hlen
    refine ⟨d, rfl, ?_, rfl, rfl, rfl⟩
    have e : d.frameQueue_.length - 3 = 0 := by omega
    simp [e]
  | cons a rest ih =>
    intro d hvalid hlen
    obtain ⟨d0, ha, hq0, hs0, hc0, hp0, _, _⟩ := feedCameraFrame_of_valid d a (hvalid a (by simp))
    obtain ⟨d1, hrun, hq, hs, hc, hp⟩ := ih d0 (fun x hx => hvalid x (by simp [hx]))
      (by rw [hq0]; simp only [List.length_drop, List.length_append, List.length_singleton]; omega)
    refine ⟨d1, ?_, ?_, hs.trans hs0, hc.trans hc0, hp.trans hp0⟩
    · simp only [List.map_cons, run, FrameArgs.toCall, DriverCall.apply]
      rw [ha]
      exact hrun
    · rw [hq]
      have hf : FrameArgs.frame d0 = FrameArgs.frame d :=
        funext fun x => makeFrame_congr _ _ hs0 hc0 _ _ _ _ _
      rw [hf, hq0, drop_length_sub_append 3 (d.frameQueue_ ++ [a.frame d])
        (List.map (FrameArgs.frame d) rest)]
      simp

/-- C2: starting from an empty frame queue, a sequence of `n` `feedCameraFrame`
calls (each with a non-negative byte count, so that it returns) runs to a state
whose frame queue is exactly the last `min n 3` frames built by the calls, in
push order; its length is `min n 3`, hence at most 3. -/
theorem feedCameraFrame_queue_bound [OfNat α 0] [OfNat α 1] (d : QuestVuforiaDriver α)
    (args : List (FrameArgs α)) (hempty : d.frameQueue_ = [])
    (hvalid : ∀ a ∈ args, 0 ≤ a.dataSize) :
    ∃ d1, d.run (args.map FrameArgs.toCall) = some d1 ∧
      d1.frameQueue_ = (args.map (FrameArgs.frame d)).drop (args.length - 3) ∧
      d1.frameQueue_.length = min args.length 3 ∧
      d1.frameQueue_.length ≤ MAX_FRAME_QUEUE_SIZE := by
  obtain ⟨d1, hrun, hq, _, _, _⟩ := run_feedCameraFrame args d hvalid (by simp [hempty])
  have hq1 : d1.frameQueue_ = (args.map (FrameArgs.frame d)).drop (args.length - 3) := by
    rw [hq, hempty]; simp
  refine ⟨d1, hrun, hq1, ?_, ?_⟩
  · rw [hq1]; simp only [List.length_drop, List.length_map]; omega
  · rw [hq1]; simp only [List.length_drop, List.length_map, MAX_FRAME_QUEUE_SIZE]; omega

end QuestVuforiaDriver

/-- Witness for C2: four frames with timestamps 1 < 2 < 3 < 4 pushed into a
fresh driver leave exactly the frames 2, 3, 4 in the queue. -/
theorem feedCameraFrame_queue_bound_witness :
    ∃ d1, (QuestVuforiaDriver.new : QuestVuforiaDriver ℤ).run
        (([1, 2, 3, 4].map frameArgsAt).map FrameArgs.toCall) = some d1 ∧
      d1.frameQueue_.map CameraFrameData.timestamp = [2, 3, 4] := by
  obtain ⟨d1, h1, h2, _, _⟩ := QuestVuforiaDriver.feedCameraFrame_queue_bound
    (QuestVuforiaDriver.new : QuestVuforiaDriver ℤ) ([1, 2, 3, 4].map frameArgsAt) rfl
    (by decide)
  exact ⟨d1, h1, by rw [h2]; rfl⟩

namespace QuestVuforiaDriver

variable {α : Type}

theorem apply_frameQueue_of_not_feed [OfNat α 0] [OfNat α 1] (d : QuestVuforiaDriver α)
    (c : DriverCall α) (hc : c.isFeedCameraFrame = false) :
    ∃ d1, c.apply d = some d1 ∧ d1.frameQueue_ = d.frameQueue_ := by
  cases c with
  | feedCameraFrame img w h i ts => simp [DriverCall.isFeedCameraFrame] at hc
  | feedDevicePose p r ts => exact ⟨_, rfl, rfl⟩
  | setCameraIntrinsics i =>
    cases i with
    | none => exact ⟨_, rfl, rfl⟩
    | some a => exact ⟨_, rfl, rfl⟩
  | acquireLatestFrame =>
    refine ⟨_, rfl, ?_⟩
    unfold acquireLatestFrame
    split <;> rfl
  | acquirePoseForTimestamp ts =>
    refine ⟨_, rfl, ?_⟩
    unfold acquirePoseForTimestamp
    dsimp only
    split_ifs <;> rfl
  | getCapabilities => exact ⟨_, rfl, rfl⟩
  | createExternalCamera alloc =>
    refine ⟨_, rfl, ?_⟩
    unfold createExternalCamera
    split
    · rfl
    · split <;> rfl
  | destroyExternalCamera instancePtr =>
    refine ⟨_, rfl, ?_⟩
    unfold destroyExternalCamera
    split <;> rfl
  | createExternalPositionalDeviceTracker alloc =>
    refine ⟨_, rfl, ?_⟩
    unfold createExternalPositionalDeviceTracker
    split
    · rfl
    · split <;> rfl
  | destroyExternalPositionalDeviceTracker instancePtr =>
    refine ⟨_, rfl, ?_⟩
    unfold destroyExternalPositionalDeviceTracker
    split <;> rfl

theorem run_frameQueue_of_not_feed [OfNat α 0] [OfNat α 1] (calls : List (DriverCall α)) :
    ∀ d : QuestVuforiaDriver α, (∀ c ∈ calls, c.isFeedCameraFrame = false) →
      ∃ d1, d.run calls = some d1 ∧ d1.frameQueue_ = d.frameQueue_ := by
  induction calls with
  | nil => intro d _; exact ⟨d, rfl, rfl⟩
  | cons c rest ih =>
    intro d h
    obtain ⟨d0, h0, hq0⟩ := apply_frameQueue_of_not_feed d c (h c (by simp))
    obtain ⟨d1, h1, hq1⟩ := ih d0 (fun x hx => h x (by simp [hx]))
    exact ⟨d1, by simp only [run, h0]; exact h1, hq1.trans hq0⟩

theorem acquireLatestFrame_fst (d : QuestVuforiaDriver α) :
    d.acquireLatestFrame.1 = d.frameQueue_.getLast? := by
  unfold acquireLatestFrame
  cases h : d.frameQueue_ with
  | nil => rfl
  | cons x xs => rfl

theorem acquireLatestFrame_snd (d : QuestVuforiaDriver α) : d.acquireLatestFrame.2 = d := by
  unfold acquireLatestFrame
  split <;> rfl

/-- C3: `acquireLatestFrame` returns none exactly when the frame queue is empty;
it leaves the driver state (hence the frame queue) unchanged, so a second call
returns the same record; and after a `feedCameraFrame` call that returns,
followed by any calls other than `feedCameraFrame`, it returns the frame that
call enqueued. -/
theorem acquireLatestFrame_latest [OfNat α 0] [OfNat α 1] (d : QuestVuforiaDriver α)
    (a : FrameArgs α) (later : List (DriverCall α)) (hvalid : 0 ≤ a.dataSize)
    (hlater : ∀ c ∈ later, c.isFeedCameraFrame = false) :
    (d.acquireLatestFrame.1 = none ↔ d.frameQueue_ = []) ∧
    d.acquireLatestFrame.2 = d ∧
    d.acquireLatestFrame.2.acquireLatestFrame.1 = d.acquireLatestFrame.1 ∧
    ∃ d1 d2, d.feedCameraFrame a.imageData a.width a.height a.intrinsics a.timestamp = some d1 ∧
      d1.run later = some d2 ∧
      d2.acquireLatestFrame.1 = some (a.frame d) ∧
      d2.acquireLatestFrame.2.frameQueue_ = d2.frameQueue_ := by
  refine ⟨?_, acquireLatestFrame_snd d, by rw [acquireLatestFrame_snd], ?_⟩
  · rw [acquireLatestFrame_fst]
    exact List.getLast?_eq_none_iff
  · obtain ⟨d1, h1, hq1, _⟩ := feedCameraFrame_of_valid d a hvalid
    obtain ⟨d2, h2, hq2⟩ := run_frameQueue_of_not_feed later d1 hlater
    refine ⟨d1, d2, h1, h2, ?_, by rw [acquireLatestFrame_snd]⟩
    rw [acquireLatestFrame_fst, hq2, hq1]
    have hk : (d.frameQueue_ ++ [a.frame d]).length - 3 ≤ d.frameQueue_.length := by
      simp only [List.length_append, List.length_singleton]; omega
    rw [List.drop_append_of_le_length hk, List.getLast?_append, List.getLast?_singleton]
    rfl

end QuestVuforiaDriver

/-- Witness for C3: a frame with timestamp 7 fed to a fresh driver, followed by
a read and a pose push, is what `acquireLatestFrame` returns, and the fresh
driver itself returns none. -/
theorem acquireLatestFrame_latest_witness :
    (QuestVuforiaDriver.new : QuestVuforiaDriver ℤ).acquireLatestFrame.1.isNone = true ∧
    ∃ d1 d2, (QuestVuforiaDriver.new : QuestVuforiaDriver ℤ).feedCameraFrame
        (frameArgsAt 7).imageData 2 1 none 7 = some d1 ∧
      d1.run [DriverCall.acquireLatestFrame, DriverCall.feedDevicePose none none 5] = some d2 ∧
      d2.acquireLatestFrame.1.map CameraFrameData.timestamp = some 7 := by
  obtain ⟨h0, _, _, d1, d2, h1, h2, h3, _⟩ := QuestVuforiaDriver.acquireLatestFrame_latest
    (QuestVuforiaDriver.new : QuestVuforiaDriver ℤ) (frameArgsAt 7)
    [DriverCall.acquireLatestFrame, DriverCall.feedDevicePose none none 5]
    (by decide) (by decide)
  refine ⟨?_, d1, d2, h1, h2, by rw [h3]; rfl⟩
  rw [h0.mpr rfl]
  rfl

/-! ## Theorems: intrinsics cache -/

namespace QuestVuforiaDriver

variable {α : Type}

theorem apply_intrinsics [OfNat α 0] [OfNat α 1] (d d1 : QuestVuforiaDriver α)
    (c : DriverCall α) (h : c.apply d = some d1) :
    (∀ v, c = DriverCall.setCameraIntrinsics (some v) →
      d1.intrinsicsSet_ = true ∧
      d1.cachedIntrinsics_ = ⟨v 2, v 3, v 4, v 5, fun i => v (i.val + 6)⟩) ∧
    ((∀ v, c ≠ DriverCall.setCameraIntrinsics (some v)) →
      d1.intrinsicsSet_ = d.intrinsicsSet_ ∧ d1.cachedIntrinsics_ = d.cachedIntrinsics_) := by
  cases c with
  | feedCameraFrame img w hh i ts =>
    simp only [DriverCall.apply, feedCameraFrame] at h
    split at h
    · cases h
    · simp only [Option.some.injEq] at h
      subst h
      exact ⟨fun v hv => (by cases hv), fun _ => ⟨rfl, rfl⟩⟩
  | feedDevicePose p r ts =>
    simp only [DriverCall.apply, Option.some.injEq] at h
    subst h
    exact ⟨fun v hv => (by cases hv), fun _ => ⟨rfl, rfl⟩⟩
  | setCameraIntrinsics i =>
    simp only [DriverCall.apply, Option.some.injEq] at h
    subst h
    cases i with
    | none => exact ⟨fun v hv => (by cases hv), fun _ => ⟨rfl, rfl⟩⟩
    | some a =>
      refine ⟨fun v hv => ?_, fun hne => absurd rfl (hne a)⟩
      cases hv
      exact ⟨rfl, rfl⟩
  | acquireLatestFrame =>
    simp only [DriverCall.apply, Option.some.injEq] at h
    subst h
    rw [acquireLatestFrame_snd]
    exact ⟨fun v hv => (by cases hv), fun _ => ⟨rfl, rfl⟩⟩
  | acquirePoseForTimestamp ts =>
    simp only [DriverCall.apply, Option.some.injEq] at h
    subst h
    have e : (d.acquirePoseForTimestamp ts).2 = d := by
      unfold acquirePoseForTimestamp
      dsimp only
      split_ifs <;> rfl
    rw [e]
    exact ⟨fun v hv => (by cases hv), fun _ => ⟨rfl, rfl⟩⟩
  | getCapabilities =>
    simp only [DriverCall.apply, Option.some.injEq] at h
    subst h
    exact ⟨fun v hv => (by cases hv), fun _ => ⟨rfl, rfl⟩⟩
  | createExternalCamera alloc =>
    simp only [DriverCall.apply, Option.some.injEq] at h
    subst h
    refine ⟨fun v hv => (by cases hv), fun _ => ?_⟩
    unfold createExternalCamera
    split
    · exact ⟨rfl, rfl⟩
    · split <;> exact ⟨rfl, rfl⟩
  | destroyExternalCamera instancePtr =>
    simp only [DriverCall.apply, Option.some.injEq] at h
    subst h
    refine ⟨fun v hv => (by cases hv), fun _ => ?_⟩
    unfold destroyExternalCamera
    split <;> exact ⟨rfl, rfl⟩
  | createExternalPositionalDeviceTracker alloc =>
    simp only [DriverCall.apply, Option.some.injEq] at h
    subst h
    refine ⟨fun v hv => (by cases hv), fun _ => ?_⟩
    unfold createExternalPositionalDeviceTracker
    split
    · exact ⟨rfl, rfl⟩
    · split <;> exact ⟨rfl, rfl⟩
  | destroyExternalPositionalDeviceTracker instancePtr =>
    simp only [DriverCall.apply, Option.some.injEq] at h
    subst h
    refine ⟨fun v hv => (by cases hv), fun _ => ?_⟩
    unfold destroyExternalPositionalDeviceTracker
    split <;> exact ⟨rfl, rfl⟩

theorem run_intrinsics [OfNat α 0] [OfNat α 1] (history : List (DriverCall α)) :
    ∀ d d1 : QuestVuforiaDriver α, d.run history = some d1 →
      (∀ v, lastIntrinsicsSet history = some v →
        d1.intrinsicsSet_ = true ∧
        d1.cachedIntrinsics_ = ⟨v 2, v 3, v 4, v 5, fun i => v (i.val + 6)⟩) ∧
      (lastIntrinsicsSet history = none →
        d1.intrinsicsSet_ = d.intrinsicsSet_ ∧ d1.cachedIntrinsics_ = d.cachedIntrinsics_) := by
  induction history with
  | nil =>
    intro d d1 h
    simp only [run, Option.some.injEq] at h
    subst h
    exact ⟨fun v hv => (by cases hv), fun _ => ⟨rfl, rfl⟩⟩
  | cons c rest ih =>
    intro d d1 h
    simp only [run] at h
    cases h0 : c.apply d with
    | none => rw [h0] at h; cases h
    | some d0 =>
      rw [h0] at h
      obtain ⟨ih1, ih2⟩ := ih d0 d1 h
      obtain ⟨a1, a2⟩ := apply_intrinsics d d0 c h0
      cases hl : lastIntrinsicsSet rest with
      | some w =>
        have e : lastIntrinsicsSet (c :: rest) = some w := by
          simp only [lastIntrinsicsSet, hl]
        rw [e]
        refine ⟨fun v hv => ?_, fun hn => by cases hn⟩
        cases hv
        exact ih1 w hl
      | none =>
        obtain ⟨i1, i2⟩ := ih2 hl
        by_cases hc : ∃ v, c = DriverCall.setCameraIntrinsics (some v)
        · obtain ⟨w, hw⟩ := hc
          have e : lastIntrinsicsSet (c :: rest) = some w := by
            subst hw
            simp only [lastIntrinsicsSet, hl]
          rw [e]
          refine ⟨fun v hv => ?_, fun hn => by cases hn⟩
          cases hv
          obtain ⟨b1, b2⟩ := a1 w hw
          exact ⟨i1.trans b1, i2.trans b2⟩
        · have hne : ∀ v, c ≠ DriverCall.setCameraIntrinsics (some v) :=
            fun v hv => hc ⟨v, hv⟩
          have e : lastIntrinsicsSet (c :: rest) = none := by
            cases c with
            | setCameraIntrinsics i =>
              cases i with
              | none => simp only [lastIntrinsicsSet, hl]
              | some a => exact absurd rfl (hne a)
            | _ => simp only [lastIntrinsicsSet, hl]
          rw [e]
          obtain ⟨b1, b2⟩ := a2 hne
          exact ⟨fun v hv => (by cases hv), fun _ => ⟨i1.trans b1, i2.trans b2⟩⟩

/-- C4: let `d` be the state a freshly constructed driver reaches by any history
of calls, and let a `feedCameraFrame` call that returns be made in `d`. The
frame it enqueues, which is the one `acquireLatestFrame` then reports, stores as
intrinsics: the fields `v[2], v[3], v[4], v[5], v[6..13]` of the most recent
`setCameraIntrinsics` call of the history made with an array `v`, whatever was
supplied with the frame; if there is no such call, the same fields of the array
supplied with the frame; and the zeroed record if no array was supplied. -/
theorem frame_intrinsics_precedence [OfNat α 0] [OfNat α 1] (history : List (DriverCall α))
    (d : QuestVuforiaDriver α) (a : FrameArgs α)
    (hrun : (QuestVuforiaDriver.new : QuestVuforiaDriver α).run history = some d)
    (hvalid : 0 ≤ a.dataSize) :
    ∃ d1 f, d.feedCameraFrame a.imageData a.width a.height a.intrinsics a.timestamp = some d1 ∧
      d1.frameQueue_.getLast? = some f ∧
      d1.acquireLatestFrame.1 = some f ∧
      f.timestamp = a.timestamp ∧
      f.intrinsics =
        match lastIntrinsicsSet history with
        | some v => ⟨v 2, v 3, v 4, v 5, fun i => v (i.val + 6)⟩
        | none =>
          match a.intrinsics with
          | some w => ⟨w 2, w 3, w 4, w 5, fun i => w (i.val + 6)⟩
          | none => ⟨0, 0, 0, 0, fun _ => 0⟩ := by
  obtain ⟨d1, h1, hq1, _⟩ := feedCameraFrame_of_valid d a hvalid
  have hk : (d.frameQueue_ ++ [a.frame d]).length - 3 ≤ d.frameQueue_.length := by
    simp only [List.length_append, List.length_singleton]; omega
  have hlast : d1.frameQueue_.getLast? = some (a.frame d) := by
    rw [hq1, List.drop_append_of_le_length hk, List.getLast?_append, List.getLast?_singleton]
    rfl
  refine ⟨d1, a.frame d, h1, hlast, by rw [acquireLatestFrame_fst, hlast], rfl, ?_⟩
  obtain ⟨r1, r2⟩ := run_intrinsics history _ d hrun
  cases hl : lastIntrinsicsSet history with
  | some v =>
    obtain ⟨s1, s2⟩ := r1 v hl
    simp only [FrameArgs.frame, makeFrame, s1, s2, if_true]
  | none =>
    obtain ⟨s1, s2⟩ := r2 hl
    have s1f : d.intrinsicsSet_ = false := s1
    simp only [FrameArgs.frame, makeFrame, s1f, Bool.false_eq_true, if_false]
    cases a.intrinsics with
    | some w => rfl
    | none => rfl

end QuestVuforiaDriver

/-- Witness for C4: after the intrinsics were set from `v[i] = i` and then from
`v[i] = 10 * i`, a frame fed with its own array `v[i] = 100 + i` stores
`fx = 20, fy = 30, cx = 40, cy = 50` and `d7 = 130`. -/
theorem frame_intrinsics_precedence_witness :
    ∃ d d1 f, (QuestVuforiaDriver.new : QuestVuforiaDriver ℤ).run intrinsicsHistory = some d ∧
      d.feedCameraFrame frameArgsWithIntrinsics.imageData 2 1
        frameArgsWithIntrinsics.intrinsics 9 = some d1 ∧
      d1.acquireLatestFrame.1 = some f ∧
      f.intrinsics.focalLengthX = 20 ∧ f.intrinsics.focalLengthY = 30 ∧
      f.intrinsics.principalPointX = 40 ∧ f.intrinsics.principalPointY = 50 ∧
      f.intrinsics.distortionCoefficients 7 = 130 := by
  have hrun : ∃ d, (QuestVuforiaDriver.new : QuestVuforiaDriver ℤ).run intrinsicsHistory
      = some d := ⟨_, rfl⟩
  obtain ⟨d, hd⟩ := hrun
  obtain ⟨d1, f, h1, _, h3, _, h5⟩ := QuestVuforiaDriver.frame_intrinsics_precedence
    intrinsicsHistory d frameArgsWithIntrinsics hd (by decide)
  refine ⟨d, d1, f, hd, h1, h3, ?_⟩
  rw [h5]
  exact ⟨rfl, rfl, rfl, rfl, rfl⟩

/-! ## Theorems: coordinate transform -/

namespace QuestExternalTracker

/-- C5: the position written by `transformOpenXRToCV` is `(x, -y, -z)` for every
input position `(x, y, z)`, whatever the input quaternion (and whatever the
scalar type, `float` included, since only negation is applied); `(1, 2, 3)` is
mapped to `(1, -2, -3)`. -/
theorem transformOpenXRToCV_position {α : Type} [Add α] [Sub α] [Mul α] [Neg α] [OfNat α 1]
    [OfNat α 2] (positionIn : Fin 3 → α) (rotationIn : Fin 4 → α) :
    (transformOpenXRToCV positionIn rotationIn).1 =
        ![positionIn 0, -positionIn 1, -positionIn 2] ∧
      (∀ otherRotation : Fin 4 → α, (transformOpenXRToCV positionIn otherRotation).1 =
        (transformOpenXRToCV positionIn rotationIn).1) ∧
      (∀ q : Fin 4 → ℤ, (transformOpenXRToCV (![1, 2, 3] : Fin 3 → ℤ) q).1 = ![1, -2, -3]) :=
  ⟨rfl, fun _ => rfl, fun _ => rfl⟩

/-- C6 (evaluation at the failing input): for the unit quaternion
`(1/2, 1/2, 1/2, 1/2)` the matrix written by `transformOpenXRToCV` is
`[0 0 -1; -1 0 0; 0 1 0]`, whereas `R_x(180°) * M(q)` is `[0 0 1; -1 0 0; 0 -1 0]`;
and the quaternion the code builds, `(w, -z, -y, x)`, is neither the Hamilton
product `(1, 0, 0, 0) * q = (w, -z, y, -x)` nor its negative. -/
theorem transformOpenXRToCV_rotation_not_rotX180 :
    rowMajor (transformOpenXRToCV (![0, 0, 0] : Fin 3 → ℚ) ![1/2, 1/2, 1/2, 1/2]).2 =
        !![0, 0, -1; -1, 0, 0; 0, 1, 0] ∧
      specRotation (![1/2, 1/2, 1/2, 1/2] : Fin 4 → ℚ) = !![0, 0, 1; -1, 0, 0; 0, -1, 0] ∧
      rowMajor (transformOpenXRToCV (![0, 0, 0] : Fin 3 → ℚ) ![1/2, 1/2, 1/2, 1/2]).2 ≠
        specRotation ![1/2, 1/2, 1/2, 1/2] ∧
      quatMul (![1, 0, 0, 0] : Fin 4 → ℚ) ![1/2, 1/2, 1/2, 1/2] = ![1/2, -1/2, 1/2, -1/2] ∧
      transformedQuat (![1/2, 1/2, 1/2, 1/2] : Fin 4 → ℚ) = ![1/2, -1/2, -1/2, 1/2] ∧
      transformedQuat (![1/2, 1/2, 1/2, 1/2] : Fin 4 → ℚ) ≠
        quatMul ![1, 0, 0, 0] ![1/2, 1/2, 1/2, 1/2] ∧
      transformedQuat (![1/2, 1/2, 1/2, 1/2] : Fin 4 → ℚ) ≠
        -quatMul ![1, 0, 0, 0] ![1/2, 1/2, 1/2, 1/2] := by
  have hcode : rowMajor (transformOpenXRToCV (![0, 0, 0] : Fin 3 → ℚ)
      ![1/2, 1/2, 1/2, 1/2]).2 = !![0, 0, -1; -1, 0, 0; 0, 1, 0] := by
    ext i j
    fin_cases i <;> fin_cases j <;>
      norm_num [rowMajor, transformOpenXRToCV, transformedQuat, quaternionToMatrix]
  have hspec : specRotation (![1/2, 1/2, 1/2, 1/2] : Fin 4 → ℚ) =
      !![0, 0, 1; -1, 0, 0; 0, -1, 0] := by
    ext i j
    fin_cases i <;> fin_cases j <;>
      norm_num [specRotation, rotX180, rowMajor, quaternionToMatrix, Matrix.mul_apply,
        Fin.sum_univ_three]
  have hmul : quatMul (![1, 0, 0, 0] : Fin 4 → ℚ) ![1/2, 1/2, 1/2, 1/2] =
      ![1/2, -1/2, 1/2, -1/2] := by
    funext i
    fin_cases i <;> norm_num [quatMul]
  have hquat : transformedQuat (![1/2, 1/2, 1/2, 1/2] : Fin 4 → ℚ) =
      ![1/2, -1/2, -1/2, 1/2] := by
    funext i
    fin_cases i <;> norm_num [transformedQuat]
  refine ⟨hcode, hspec, ?_, hmul, hquat, ?_, ?_⟩
  · rw [hcode, hspec]
    intro h
    have h02 := congrFun (congrFun h 0) 2
    norm_num at h02
  · rw [hquat, hmul]
    intro h
    have h2 := congrFun h 2
    norm_num at h2
  · rw [hquat, hmul]
    intro h
    have h0 := congrFun h 0
    norm_num at h0

/-- C7 (as amended): for the identity input quaternion `(0, 0, 0, 1)` the
transformed quaternion is `(1, 0, 0, 0)` and the rotation matrix written by
`transformOpenXRToCV` is `diag(1, -1, -1)`, the rotation by 180 degrees about
the X axis. -/
theorem transformOpenXRToCV_identity {α : Type} [Ring α] (positionIn : Fin 3 → α) :
    transformedQuat (![0, 0, 0, 1] : Fin 4 → α) = ![1, 0, 0, 0] ∧
      (transformOpenXRToCV positionIn ![0, 0, 0, 1]).2 = ![1, 0, 0, 0, -1, 0, 0, 0, -1] ∧
      rowMajor (transformOpenXRToCV positionIn ![0, 0, 0, 1]).2 = rotX180 := by
  have hq : transformedQuat (![0, 0, 0, 1] : Fin 4 → α) = ![1, 0, 0, 0] := by
    funext i
    fin_cases i <;> simp [transformedQuat]
  have hm : (transformOpenXRToCV positionIn ![0, 0, 0, 1]).2 =
      ![1, 0, 0, 0, -1, 0, 0, 0, -1] := by
    funext i
    fin_cases i <;>
      simp [transformOpenXRToCV, transformedQuat, quaternionToMatrix] <;> norm_num
  refine ⟨hq, hm, ?_⟩
  rw [hm]
  ext i j
  fin_cases i <;> fin_cases j <;> rfl

/-- Counterexample to C7 as stated: over `ℤ`, the matrix written for the identity
quaternion `(0, 0, 0, 1)` is not the identity matrix (its entry `m11` is `-1`). -/
theorem transformOpenXRToCV_identity_counterexample :
    (transformOpenXRToCV (![0, 0, 0] : Fin 3 → ℤ) ![0, 0, 0, 1]).2 ≠
      ![1, 0, 0, 0, 1, 0, 0, 0, 1] := by
  intro h
  have h4 := congrFun h 4
  revert h4
  decide

end QuestExternalTracker

/-! ## Theorems: camera and tracker lifecycle -/

namespace QuestExternalCamera

theorem inv_new : QuestExternalCamera.new.Inv := by
  simp [Inv, new]

theorem inv_apply (c : QuestExternalCamera) (call : CameraCall) (h : c.Inv) :
    (call.apply c).2.Inv := by
  obtain ⟨cb, mode, th, running, opened, em, fm, buf⟩ := c
  obtain ⟨h1, h2, h3, h4, h5, h6, h7⟩ := h
  simp only at h1 h2 h3 h4 h5 h6 h7
  cases call with
  | «open» =>
    cases opened <;> cases running <;>
      simp_all [CameraCall.apply, QuestExternalCamera.open, Inv]
  | close =>
    cases opened <;> cases running <;> cases buf <;>
      simp_all [CameraCall.apply, close, stop, Inv]
  | start m callback =>
    simp only [CameraCall.apply, start]
    split_ifs with g1 g2 g3 g4
    · exact ⟨h1, h2, h3, h4, h5, h6, h7⟩
    · exact ⟨h1, h2, h3, h4, h5, h6, h7⟩
    · exact ⟨h1, h2, h3, h4, h5, h6, h7⟩
    · exact ⟨h1, h2, h3, h4, h5, h6, h7⟩
    · simp only [not_or, not_not] at g4
      obtain ⟨w, hh, f⟩ := g4
      cases callback with
      | none => simp at g3
      | some k =>
        cases opened
        · simp at g1
        · exact ⟨w.trans h1, hh.trans h2, f.trans h3, fun _ => rfl, h5, rfl, rfl⟩
  | stop =>
    cases opened <;> cases running <;> simp_all [CameraCall.apply, stop, Inv]
  | setExposureMode m =>
    simp only [CameraCall.apply, setExposureMode]
    split_ifs <;> exact ⟨h1, h2, h3, h4, h5, h6, h7⟩
  | setFocusMode m =>
    simp only [CameraCall.apply, setFocusMode]
    split_ifs <;> exact ⟨h1, h2, h3, h4, h5, h6, h7⟩
  | setExposureValue t => exact ⟨h1, h2, h3, h4, h5, h6, h7⟩
  | setFocusValue => exact ⟨h1, h2, h3, h4, h5, h6, h7⟩

theorem inv_run (calls : List CameraCall) :
    ∀ c : QuestExternalCamera, c.Inv → (c.run calls).Inv := by
  induction calls with
  | nil => intro c h; exact h
  | cons call rest ih =>
    intro c h
    exact ih _ (inv_apply c call h)

theorem inv_of_reachable (c : QuestExternalCamera) (h : c.Reachable) : c.Inv := by
  obtain ⟨calls, rfl⟩ := h
  exact inv_run calls _ inv_new

/-- C8: in every reachable camera state that is open and not running, `start`
with a non-null callback and a mode whose width, height or pixel format differs
from 1280x960 RGB888 returns false and returns the state it was given: still
open, not running, no callback recorded, current mode unchanged. -/
theorem start_rejects_unsupported_mode (c : QuestExternalCamera) (mode : CameraMode)
    (callback : Nat) (hreach : c.Reachable) (hopen : c.isOpen_ = true)
    (hrun : c.isRunning_ = false)
    (hmode : mode.width ≠ 1280 ∨ mode.height ≠ 960 ∨ mode.format ≠ PixelFormat.RGB888) :
    c.start mode (some callback) = (false, c) ∧
      (c.start mode (some callback)).2.isOpen_ = true ∧
      (c.start mode (some callback)).2.isRunning_ = false ∧
      (c.start mode (some callback)).2.callback_ = none ∧
      (c.start mode (some callback)).2.currentMode_ = c.currentMode_ := by
  obtain ⟨h1, h2, h3, _, _, _, h7⟩ := inv_of_reachable c hreach
  have hs : c.start mode (some callback) = (false, c) := by
    unfold start
    rw [← h1, ← h2, ← h3] at hmode
    simp [hopen, hrun, hmode]
  rw [hs]
  refine ⟨rfl, hopen, hrun, ?_, rfl⟩
  rw [hrun] at h7
  simpa using h7

/-- Witness for C8: an opened camera rejects the mode 1280x961 RGB888, which
differs from the supported mode only in height. -/
theorem start_rejects_unsupported_mode_witness :
    (QuestExternalCamera.new.run [CameraCall.open]).start
        { width := 1280, height := 961, fps := 30, format := PixelFormat.RGB888 } (some 1) =
      (false, QuestExternalCamera.new.run [CameraCall.open]) :=
  (start_rejects_unsupported_mode (QuestExternalCamera.new.run [CameraCall.open])
    { width := 1280, height := 961, fps := 30, format := PixelFormat.RGB888 } 1
    ⟨[CameraCall.open], rfl⟩ rfl rfl (by decide)).1

end QuestExternalCamera

/-- C9 (as amended): for the camera and for the tracker, in any state, a `start`
call made while the device is not open returns failure and returns the state
unchanged; a `start` call with an absent callback made while the device is open
and not running returns failure and returns the state unchanged; and a `start`
call made while the device is running, with or without a callback, returns
success and returns the state unchanged. -/
theorem start_failure_cases (c : QuestExternalCamera) (t : QuestExternalTracker)
    (mode : CameraMode) (callback anchorCb : Option Nat) :
    (c.isOpen_ = false → c.start mode callback = (false, c)) ∧
    (c.isOpen_ = true → c.isRunning_ = false → c.start mode none = (false, c)) ∧
    (c.isOpen_ = true → c.isRunning_ = true → c.start mode callback = (true, c)) ∧
    (t.isOpen_ = false → t.start callback anchorCb = (false, t)) ∧
    (t.isOpen_ = true → t.isRunning_ = false → t.start none anchorCb = (false, t)) ∧
    (t.isOpen_ = true → t.isRunning_ = true → t.start callback anchorCb = (true, t)) := by
  refine ⟨?_, ?_, ?_, ?_, ?_, ?_⟩
  · intro h; simp [QuestExternalCamera.start, h]
  · intro h1 h2; simp [QuestExternalCamera.start, h1, h2]
  · intro h1 h2; simp [QuestExternalCamera.start, h1, h2]
  · intro h; simp [QuestExternalTracker.start, h]
  · intro h1 h2; simp [QuestExternalTracker.start, h1, h2]
  · intro h1 h2; simp [QuestExternalTracker.start, h1, h2]

/-- Witness for C9: the three cases at a fresh (closed) camera and tracker, at
opened ones, and at running ones. -/
theorem start_failure_cases_witness :
    QuestExternalCamera.new.start supportedMode (some 1) = (false, QuestExternalCamera.new) ∧
    (QuestExternalCamera.new.run [CameraCall.open]).start supportedMode none =
      (false, QuestExternalCamera.new.run [CameraCall.open]) ∧
    (QuestExternalCamera.new.run [CameraCall.open, CameraCall.start supportedMode (some 1)]).start
        supportedMode none =
      (true, QuestExternalCamera.new.run [CameraCall.open, CameraCall.start supportedMode (some 1)]) ∧
    QuestExternalTracker.new.start (some 1) none = (false, QuestExternalTracker.new) ∧
    QuestExternalTracker.new.open.2.start none none = (false, QuestExternalTracker.new.open.2) ∧
    (QuestExternalTracker.new.open.2.start (some 1) none).2.start none none =
      (true, (QuestExternalTracker.new.open.2.start (some 1) none).2) :=
  ⟨(start_failure_cases QuestExternalCamera.new QuestExternalTracker.new supportedMode
      (some 1) none).1 rfl,
   (start_failure_cases (QuestExternalCamera.new.run [CameraCall.open])
      QuestExternalTracker.new supportedMode none none).2.1 rfl rfl,
   (start_failure_cases
      (QuestExternalCamera.new.run [CameraCall.open, CameraCall.start supportedMode (some 1)])
      QuestExternalTracker.new supportedMode none none).2.2.1 rfl rfl,
   (start_failure_cases QuestExternalCamera.new QuestExternalTracker.new supportedMode
      (some 1) none).2.2.2.1 rfl,
   (start_failure_cases QuestExternalCamera.new QuestExternalTracker.new.open.2 supportedMode
      none none).2.2.2.2.1 rfl rfl,
   (start_failure_cases QuestExternalCamera.new
      (QuestExternalTracker.new.open.2.start (some 1) none).2 supportedMode
      none none).2.2.2.2.2 rfl rfl⟩

/-- Counterexample to C9 as stated: a camera and a tracker that are running
(opened, then started with callback 1) answer a `start` call with an absent
callback with success, not failure. -/
theorem start_absent_callback_counterexample :
    (QuestExternalCamera.new.run
        [CameraCall.open, CameraCall.start supportedMode (some 1)]).isRunning_ = true ∧
    ((QuestExternalCamera.new.run
        [CameraCall.open, CameraCall.start supportedMode (some 1)]).start
          supportedMode none).1 ≠ false ∧
    (QuestExternalTracker.new.open.2.start (some 1) none).2.isRunning_ = true ∧
    ((QuestExternalTracker.new.open.2.start (some 1) none).2.start none none).1 ≠ false := by
  decide

namespace QuestExternalCamera

/-- C10: in every reachable camera state that is open and not running,
`getSupportedCameraMode(0)` reports the mode 1280x960 at 30 fps, RGB888, and
`start` with that mode and a non-null callback returns true, leaves the camera
open and running and records the callback and the mode;
`getNumSupportedCameraModes` is 1 and `getSupportedCameraMode` fails for every
index other than 0 without touching the out-parameter. -/
theorem start_accepts_supported_mode (c : QuestExternalCamera) (callback : Nat)
    (out : CameraMode) (hreach : c.Reachable) (hopen : c.isOpen_ = true)
    (hrun : c.isRunning_ = false) :
    c.getSupportedCameraMode 0 (some out) = (true, some supportedMode) ∧
      supportedMode = { width := 1280, height := 960, fps := 30, format := PixelFormat.RGB888 } ∧
      (c.start supportedMode (some callback)).1 = true ∧
      (c.start supportedMode (some callback)).2.isOpen_ = true ∧
      (c.start supportedMode (some callback)).2.isRunning_ = true ∧
      (c.start supportedMode (some callback)).2.callback_ = some callback ∧
      (c.start supportedMode (some callback)).2.currentMode_ = supportedMode ∧
      c.getNumSupportedCameraModes = 1 ∧
      (∀ index : Nat, ∀ cameraMode : Option CameraMode, index ≠ 0 →
        c.getSupportedCameraMode index cameraMode = (false, cameraMode)) := by
  obtain ⟨h1, h2, h3, _, _, _, _⟩ := inv_of_reachable c hreach
  have hs : c.start supportedMode (some callback) =
      (true, { c with currentMode_ := supportedMode, callback_ := some callback,
                      isRunning_ := true, frameThread_ := true }) := by
    unfold start
    simp [hopen, hrun, h1, h2, h3, supportedMode]
  rw [hs]
  refine ⟨rfl, rfl, rfl, hopen, rfl, rfl, rfl, rfl, ?_⟩
  intro index cameraMode hne
  simp [getSupportedCameraMode, hne]

/-- Witness for C10: a freshly opened camera, and a camera that was opened,
started, stopped, closed and opened again, both start with the supported mode. -/
theorem start_accepts_supported_mode_witness :
    ((QuestExternalCamera.new.run [CameraCall.open]).start supportedMode (some 7)).1 = true ∧
    ((QuestExternalCamera.new.run [CameraCall.open, CameraCall.start supportedMode (some 1),
        CameraCall.stop, CameraCall.close, CameraCall.open]).start
          supportedMode (some 7)).2.callback_ = some 7 :=
  ⟨(start_accepts_supported_mode (QuestExternalCamera.new.run [CameraCall.open]) 7 supportedMode
      ⟨[CameraCall.open], rfl⟩ rfl rfl).2.2.1,
   (start_accepts_supported_mode
      (QuestExternalCamera.new.run [CameraCall.open, CameraCall.start supportedMode (some 1),
        CameraCall.stop, CameraCall.close, CameraCall.open]) 7 supportedMode
      ⟨[CameraCall.open, CameraCall.start supportedMode (some 1),
        CameraCall.stop, CameraCall.close, CameraCall.open], rfl⟩ rfl rfl).2.2.2.2.2.1⟩

end QuestExternalCamera

/-- C11: for the camera and for the tracker, in every state, `stop` returns
success and a second `stop` returns success and the same state; likewise
`close` returns success and a second `close` returns success and the same
state. -/
theorem stop_close_idempotent (c : QuestExternalCamera) (t : QuestExternalTracker) :
    (c.stop.1 = true ∧ c.stop.2.stop = (true, c.stop.2)) ∧
    (c.close.1 = true ∧ c.close.2.close = (true, c.close.2)) ∧
    (t.stop.1 = true ∧ t.stop.2.stop = (true, t.stop.2)) ∧
    (t.close.1 = true ∧ t.close.2.close = (true, t.close.2)) := by
  refine ⟨?_, ?_, ?_, ?_⟩
  · cases h : c.isRunning_ <;> simp [QuestExternalCamera.stop, h]
  · cases h : c.isOpen_ <;> simp [QuestExternalCamera.close, h]
  · cases h : t.isRunning_ <;> simp [QuestExternalTracker.stop, h]
  · cases h : t.isOpen_ <;> simp [QuestExternalTracker.close, h]

namespace QuestExternalTracker

theorem poseDeliveryIteration_flags {α : Type} [Add α] [Sub α] [Mul α] [Neg α] [OfNat α 1]
    [OfNat α 2] (t : QuestExternalTracker) (d : QuestVuforiaDriver α) :
    (t.poseDeliveryIteration d).2.isRunning_ = t.isRunning_ ∧
    (t.poseDeliveryIteration d).2.isOpen_ = t.isOpen_ ∧
    (t.poseDeliveryIteration d).2.poseThread_ = t.poseThread_ ∧
    (t.poseDeliveryIteration d).2.callback_ = t.callback_ := by
  unfold poseDeliveryIteration
  split
  · dsimp only
    split
    · split <;> exact ⟨rfl, rfl, rfl, rfl⟩
    · exact ⟨rfl, rfl, rfl, rfl⟩
  · exact ⟨rfl, rfl, rfl, rfl⟩

theorem tracker_inv_new : QuestExternalTracker.new.Inv := by
  simp [Inv, new]

theorem tracker_inv_apply {α : Type} [Add α] [Sub α] [Mul α] [Neg α] [OfNat α 1] [OfNat α 2]
    (t : QuestExternalTracker) (call : TrackerCall α) (h : t.Inv) : (call.apply t).2.Inv := by
  cases call with
  | poseDeliveryIteration d =>
    simp only [TrackerCall.apply]
    split
    · obtain ⟨f1, f2, f3, f4⟩ := poseDeliveryIteration_flags t d
      obtain ⟨h1, h2, h3⟩ := h
      refine ⟨?_, ?_, ?_⟩
      · rw [f1, f2]; exact h1
      · rw [f1, f3]; exact h2
      · rw [f1, f4]; exact h3
    · exact h
  | «open» =>
    obtain ⟨cb, th, running, opened, last⟩ := t
    obtain ⟨h1, h2, h3⟩ := h
    cases opened <;> cases running <;>
      simp_all [TrackerCall.apply, QuestExternalTracker.open, Inv]
  | close =>
    obtain ⟨cb, th, running, opened, last⟩ := t
    obtain ⟨h1, h2, h3⟩ := h
    cases opened <;> cases running <;> simp_all [TrackerCall.apply, close, stop, Inv]
  | start cb1 anchorCb =>
    obtain ⟨cb, th, running, opened, last⟩ := t
    obtain ⟨h1, h2, h3⟩ := h
    cases opened <;> cases running <;> cases cb1 <;>
      simp_all [TrackerCall.apply, start, Inv]
  | stop =>
    obtain ⟨cb, th, running, opened, last⟩ := t
    obtain ⟨h1, h2, h3⟩ := h
    cases opened <;> cases running <;> simp_all [TrackerCall.apply, stop, Inv]
  | resetTracking =>
    obtain ⟨h1, h2, h3⟩ := h
    exact ⟨h1, h2, h3⟩

theorem tracker_inv_run {α : Type} [Add α] [Sub α] [Mul α] [Neg α] [OfNat α 1] [OfNat α 2]
    (calls : List (TrackerCall α)) :
    ∀ t : QuestExternalTracker, t.Inv → (t.run calls).Inv := by
  induction calls with
  | nil => intro t h; exact h
  | cons call rest ih =>
    intro t h
    exact ih _ (tracker_inv_apply t call h)

theorem tracker_inv_of_reachable {α : Type} [Add α] [Sub α] [Mul α] [Neg α] [OfNat α 1]
    [OfNat α 2] (t : QuestExternalTracker) (h : QuestExternalTracker.Reachable α t) :
    t.Inv := by
  obtain ⟨calls, rfl⟩ := h
  exact tracker_inv_run calls _ tracker_inv_new

end QuestExternalTracker

/-- C12: in every camera state reachable from the constructor by `open`,
`close`, `start`, `stop` and the exposure and focus setters, and in every
tracker state reachable from the constructor by `open`, `close`, `start`,
`stop`, `resetTracking` and passes of the delivery loop, the device runs only
if it is open; and the camera's working buffer is allocated if and only if the
camera is open. -/
theorem running_implies_open {α : Type} [Add α] [Sub α] [Mul α] [Neg α] [OfNat α 1]
    [OfNat α 2] (c : QuestExternalCamera) (t : QuestExternalTracker)
    (hc : c.Reachable) (ht : QuestExternalTracker.Reachable α t) :
    (c.isRunning_ = true → c.isOpen_ = true) ∧
    (t.isRunning_ = true → t.isOpen_ = true) ∧
    (c.frameBuffer_.isSome = true ↔ c.isOpen_ = true) := by
  obtain ⟨_, _, _, h4, h5, _, _⟩ := QuestExternalCamera.inv_of_reachable c hc
  obtain ⟨g1, _, _⟩ := QuestExternalTracker.tracker_inv_of_reachable t ht
  exact ⟨h4, g1, by rw [h5]⟩

/-- Witness for C12: a camera that was opened, started and closed again, and the
tracker `trackerAfterDelivery`, which is running. -/
theorem running_implies_open_witness :
    ((QuestExternalCamera.new.run [CameraCall.open, CameraCall.start supportedMode (some 1),
        CameraCall.close]).frameBuffer_.isSome = true ↔
      (QuestExternalCamera.new.run [CameraCall.open, CameraCall.start supportedMode (some 1),
        CameraCall.close]).isOpen_ = true) ∧
    (trackerAfterDelivery.isRunning_ = true → trackerAfterDelivery.isOpen_ = true) ∧
    trackerAfterDelivery.isRunning_ = true :=
  ⟨(running_implies_open (α := ℤ)
      (QuestExternalCamera.new.run [CameraCall.open, CameraCall.start supportedMode (some 1),
        CameraCall.close]) trackerAfterDelivery ⟨_, rfl⟩ ⟨_, rfl⟩).2.2,
   (running_implies_open (α := ℤ)
      (QuestExternalCamera.new.run [CameraCall.open, CameraCall.start supportedMode (some 1),
        CameraCall.close]) trackerAfterDelivery ⟨_, rfl⟩ ⟨_, rfl⟩).2.1,
   by decide⟩

namespace QuestExternalTracker

/-- C15: one pass of the tracker delivery loop with a callback registered. With
no latest frame, or a latest frame whose timestamp equals the marker, nothing is
delivered and the tracker is unchanged. Otherwise, if `acquirePoseForTimestamp`
of the frame's timestamp returns a pose, exactly one pose is delivered, to the
registered callback: the `transformOpenXRToCV` image of that pose, stamped with
the frame's timestamp, and the marker becomes the frame's timestamp; if it
returns none, nothing is delivered and the tracker is unchanged. Any number of
passes over an unchanged driver state deliver at most one pose. -/
theorem poseDeliveryIteration_spec {α : Type} [Add α] [Sub α] [Mul α] [Neg α] [OfNat α 1]
    [OfNat α 2] (t : QuestExternalTracker) (d : QuestVuforiaDriver α) (cb : Nat)
    (hcb : t.callback_ = some cb) :
    (d.acquireLatestFrame.1 = none → t.poseDeliveryIteration d = ([], t)) ∧
    (∀ f, d.acquireLatestFrame.1 = some f → f.timestamp = t.lastPoseTimestamp_ →
      t.poseDeliveryIteration d = ([], t)) ∧
    (∀ f p, d.acquireLatestFrame.1 = some f → f.timestamp ≠ t.lastPoseTimestamp_ →
      (d.acquirePoseForTimestamp f.timestamp).1 = some p →
      t.poseDeliveryIteration d =
        ([(cb, { timestamp := f.timestamp
                 translationData := (transformOpenXRToCV p.position p.rotation).1
                 rotationData := (transformOpenXRToCV p.position p.rotation).2
                 reason := PoseReason.VALID
                 coordinateSystem := PoseCoordSystem.CAMERA
                 validity := PoseValidity.VALID })],
         { t with lastPoseTimestamp_ := f.timestamp })) ∧
    (∀ f, d.acquireLatestFrame.1 = some f → f.timestamp ≠ t.lastPoseTimestamp_ →
      (d.acquirePoseForTimestamp f.timestamp).1 = none →
      t.poseDeliveryIteration d = ([], t)) ∧
    (∀ n, (poseDeliveryLoop d n t).1.length ≤ 1) := by
  refine ⟨?_, ?_, ?_, ?_, ?_⟩
  · intro h
    simp [poseDeliveryIteration, h]
  · intro f h1 h2
    simp [poseDeliveryIteration, h1, hcb, h2]
  · intro f p h1 h2 h3
    simp [poseDeliveryIteration, h1, hcb, h2, h3]
  · intro f h1 h2 h3
    simp [poseDeliveryIteration, h1, hcb, h2, h3]
  · intro n
    -- a pass that delivers sets the marker to the latest frame's timestamp,
    -- after which every pass is idle; an idle pass changes nothing
    have idle : ∀ (m : Nat) (s : QuestExternalTracker),
        s.poseDeliveryIteration d = ([], s) → (poseDeliveryLoop d m s).1 = [] := by
      intro m
      induction m with
      | zero => intro s _; rfl
      | succ k ih =>
        intro s hs
        unfold poseDeliveryLoop
        split
        · simp only [hs, List.nil_append]
          exact ih s hs
        · rfl
    cases n with
    | zero => simp [poseDeliveryLoop]
    | succ k =>
      unfold poseDeliveryLoop
      split
      · dsimp only
        cases hf : d.acquireLatestFrame.1 with
        | none =>
          have h0 : t.poseDeliveryIteration d = ([], t) := by
            simp [poseDeliveryIteration, hf]
          rw [h0]
          simp [idle k t h0]
        | some f =>
          by_cases hm : f.timestamp = t.lastPoseTimestamp_
          · have h0 : t.poseDeliveryIteration d = ([], t) := by
              simp [poseDeliveryIteration, hf, hcb, hm]
            rw [h0]
            simp [idle k t h0]
          · cases hp : (d.acquirePoseForTimestamp f.timestamp).1 with
            | none =>
              have h0 : t.poseDeliveryIteration d = ([], t) := by
                simp [poseDeliveryIteration, hf, hcb, hm, hp]
              rw [h0]
              simp [idle k t h0]
            | some p =>
              have h1 : t.poseDeliveryIteration d =
                  ([(cb, { timestamp := f.timestamp
                           translationData := (transformOpenXRToCV p.position p.rotation).1
                           rotationData := (transformOpenXRToCV p.position p.rotation).2
                           reason := PoseReason.VALID
                           coordinateSystem := PoseCoordSystem.CAMERA
                           validity := PoseValidity.VALID })],
                   { t with lastPoseTimestamp_ := f.timestamp }) := by
                simp [poseDeliveryIteration, hf, hcb, hm, hp]
              have h2 : ({ t with lastPoseTimestamp_ := f.timestamp } :
                  QuestExternalTracker).poseDeliveryIteration d =
                  ([], { t with lastPoseTimestamp_ := f.timestamp }) := by
                simp [poseDeliveryIteration, hf, hcb]
              rw [h1]
              simp [idle k _ h2]
      · simp

end QuestExternalTracker

namespace QuestExternalTracker

/-- Witness for C15: a started tracker with callback 1, on a driver holding a
frame and a pose both stamped 5, delivers one pose stamped 5 to callback 1 and
moves its marker to 5; three passes over that driver deliver at most one
pose. -/
theorem poseDeliveryIteration_spec_witness :
    (trackerStarted.poseDeliveryIteration driverWithFrameAndPose).1.map
        (fun x => (x.1, x.2.timestamp)) = [(1, 5)] ∧
    (trackerStarted.poseDeliveryIteration driverWithFrameAndPose).2.lastPoseTimestamp_ = 5 ∧
    (poseDeliveryLoop driverWithFrameAndPose 3 trackerStarted).1.length ≤ 1 := by
  have h := poseDeliveryIteration_spec trackerStarted driverWithFrameAndPose 1 rfl
  have h3 := h.2.2.1 ((frameArgsAt 5).frame (driverWithPoses [5]))
    { (PoseData.new : PoseData ℤ) with timestamp := 5 } rfl (by decide) rfl
  refine ⟨?_, ?_, h.2.2.2.2 3⟩
  · rw [h3]; rfl
  · rw [h3]; rfl

/-- C16 (as amended): a tracker `start` call that returns success on a tracker
that was not running leaves the last-delivered-timestamp marker at the sentinel
0, whatever the marker was before; a `start` call that returns success on a
running tracker leaves the whole tracker state, the marker included,
unchanged. -/
theorem start_resets_marker (t : QuestExternalTracker) (cb anchorCb : Option Nat)
    (hsucc : (t.start cb anchorCb).1 = true) :
    (t.isRunning_ = false → (t.start cb anchorCb).2.lastPoseTimestamp_ = 0) ∧
    (t.isRunning_ = true → (t.start cb anchorCb).2 = t) := by
  obtain ⟨cb0, th, running, opened, last⟩ := t
  cases opened <;> cases running <;> cases cb <;> simp_all [start]

/-- Witness for C16: a freshly opened tracker started with callback 1 has marker
0, and so has a tracker restarted after a delivery and a stop, whose marker was
5 before the call. -/
theorem start_resets_marker_witness :
    (QuestExternalTracker.new.open.2.start (some 1) none).2.lastPoseTimestamp_ = 0 ∧
    trackerAfterDelivery.stop.2.lastPoseTimestamp_ = 5 ∧
    (trackerAfterDelivery.stop.2.start (some 2) none).2.lastPoseTimestamp_ = 0 :=
  ⟨(start_resets_marker QuestExternalTracker.new.open.2 (some 1) none rfl).1 rfl,
   by decide,
   (start_resets_marker trackerAfterDelivery.stop.2 (some 2) none (by decide)).1 (by decide)⟩

/-- Counterexample to C16 as stated: the tracker `trackerAfterDelivery` is
running and its marker is 5 after a delivery; a `start` call on it returns
success and the marker is still 5, not the sentinel 0. -/
theorem start_resets_marker_counterexample :
    QuestExternalTracker.Reachable ℤ trackerAfterDelivery ∧
    (trackerAfterDelivery.start (some 2) none).1 = true ∧
    (trackerAfterDelivery.start (some 2) none).2.lastPoseTimestamp_ = 5 ∧
    (trackerAfterDelivery.start (some 2) none).2.lastPoseTimestamp_ ≠ 0 :=
  ⟨⟨_, rfl⟩, by decide, by decide, by decide⟩

/-- C17: in every tracker state `resetTracking` returns success, sets the
last-delivered-timestamp marker to the sentinel 0 and leaves the open flag, the
running flag, the registered callback and the thread handle unchanged. -/
theorem resetTracking_frame (t : QuestExternalTracker) :
    t.resetTracking.1 = true ∧
    t.resetTracking.2.lastPoseTimestamp_ = 0 ∧
    t.resetTracking.2.isOpen_ = t.isOpen_ ∧
    t.resetTracking.2.isRunning_ = t.isRunning_ ∧
    t.resetTracking.2.callback_ = t.callback_ ∧
    t.resetTracking.2.poseThread_ = t.poseThread_ ∧
    t.resetTracking.2 = { t with lastPoseTimestamp_ := 0 } :=
  ⟨rfl, rfl, rfl, rfl, rfl, rfl, rfl⟩

end QuestExternalTracker

namespace QuestExternalCamera

theorem modes_apply (c : QuestExternalCamera) (call : CameraCall)
    (h : c.exposureMode_ = ExposureMode.CONTINUOUS_AUTO ∧
      c.focusMode_ = FocusMode.CONTINUOUS_AUTO) :
    (call.apply c).2.exposureMode_ = ExposureMode.CONTINUOUS_AUTO ∧
      (call.apply c).2.focusMode_ = FocusMode.CONTINUOUS_AUTO := by
  obtain ⟨h1, h2⟩ := h
  cases call with
  | «open» =>
    simp only [CameraCall.apply, QuestExternalCamera.open]
    split_ifs <;> exact ⟨h1, h2⟩
  | close =>
    simp only [CameraCall.apply, close, stop]
    split_ifs <;> exact ⟨h1, h2⟩
  | start m callback =>
    simp only [CameraCall.apply, start]
    split_ifs <;> exact ⟨h1, h2⟩
  | stop =>
    simp only [CameraCall.apply, stop]
    split_ifs <;> exact ⟨h1, h2⟩
  | setExposureMode m =>
    simp only [CameraCall.apply, setExposureMode, supportsExposureMode]
    split_ifs with g
    · exact ⟨h1, h2⟩
    · simp at g
      exact ⟨g, h2⟩
  | setFocusMode m =>
    simp only [CameraCall.apply, setFocusMode, supportsFocusMode]
    split_ifs with g
    · exact ⟨h1, h2⟩
    · simp at g
      exact ⟨h1, g⟩
  | setExposureValue v => exact ⟨h1, h2⟩
  | setFocusValue => exact ⟨h1, h2⟩

theorem modes_run (calls : List CameraCall) :
    ∀ c : QuestExternalCamera,
      c.exposureMode_ = ExposureMode.CONTINUOUS_AUTO ∧ c.focusMode_ = FocusMode.CONTINUOUS_AUTO →
      (c.run calls).exposureMode_ = ExposureMode.CONTINUOUS_AUTO ∧
        (c.run calls).focusMode_ = FocusMode.CONTINUOUS_AUTO := by
  induction calls with
  | nil => intro c h; exact h
  | cons call rest ih => intro c h; exact ih _ (modes_apply c call h)

/-- C19: `setExposureMode(m)` and `setFocusMode(m)` return true exactly when `m`
is the continuous automatic mode, and a rejected call returns the state
unchanged; in every reachable camera state `getExposureMode` and `getFocusMode`
return the continuous automatic mode; `setExposureValue` and `setFocusValue`
return false for every argument and return the state unchanged. -/
theorem exposure_focus_modes {β : Type} (c : QuestExternalCamera) (em : ExposureMode)
    (fm : FocusMode) (exposureTime : Nat) (focusValue : β) (hreach : c.Reachable) :
    ((c.setExposureMode em).1 = true ↔ em = ExposureMode.CONTINUOUS_AUTO) ∧
    ((c.setExposureMode em).1 = false → (c.setExposureMode em).2 = c) ∧
    ((c.setFocusMode fm).1 = true ↔ fm = FocusMode.CONTINUOUS_AUTO) ∧
    ((c.setFocusMode fm).1 = false → (c.setFocusMode fm).2 = c) ∧
    c.getExposureMode = ExposureMode.CONTINUOUS_AUTO ∧
    c.getFocusMode = FocusMode.CONTINUOUS_AUTO ∧
    c.setExposureValue exposureTime = (false, c) ∧
    c.setFocusValue focusValue = (false, c) := by
  obtain ⟨calls, rfl⟩ := hreach
  obtain ⟨m1, m2⟩ := modes_run calls QuestExternalCamera.new ⟨rfl, rfl⟩
  refine ⟨?_, ?_, ?_, ?_, m1, m2, rfl, rfl⟩
  · by_cases h : em = ExposureMode.CONTINUOUS_AUTO <;>
      simp [setExposureMode, supportsExposureMode, h]
  · by_cases h : em = ExposureMode.CONTINUOUS_AUTO <;>
      simp [setExposureMode, supportsExposureMode, h]
  · by_cases h : fm = FocusMode.CONTINUOUS_AUTO <;>
      simp [setFocusMode, supportsFocusMode, h]
  · by_cases h : fm = FocusMode.CONTINUOUS_AUTO <;>
      simp [setFocusMode, supportsFocusMode, h]

/-- Witness for C19: on a camera that was opened and then asked for two
unsupported modes, a further unsupported exposure mode is refused and the mode
read back is the continuous automatic one. -/
theorem exposure_focus_modes_witness :
    ((QuestExternalCamera.new.run [CameraCall.open,
        CameraCall.setExposureMode (ExposureMode.other 3),
        CameraCall.setFocusMode (FocusMode.other 1)]).setExposureMode
          (ExposureMode.other 2)).1 = false ∧
    (QuestExternalCamera.new.run [CameraCall.open,
        CameraCall.setExposureMode (ExposureMode.other 3),
        CameraCall.setFocusMode (FocusMode.other 1)]).getExposureMode =
      ExposureMode.CONTINUOUS_AUTO := by
  have h := exposure_focus_modes
    (QuestExternalCamera.new.run [CameraCall.open,
        CameraCall.setExposureMode (ExposureMode.other 3),
        CameraCall.setFocusMode (FocusMode.other 1)])
    (ExposureMode.other 2) FocusMode.CONTINUOUS_AUTO 0 () ⟨_, rfl⟩
  refine ⟨?_, h.2.2.2.2.1⟩
  cases hb : ((QuestExternalCamera.new.run [CameraCall.open,
        CameraCall.setExposureMode (ExposureMode.other 3),
        CameraCall.setFocusMode (FocusMode.other 1)]).setExposureMode
          (ExposureMode.other 2)).1 with
  | false => rfl
  | true => exact absurd (h.1.mp hb) (by decide)

end QuestExternalCamera

/-! ## Theorems: tie-break and pose queue -/

namespace QuestVuforiaDriver

variable {α : Type}

theorem scan_first (T : Int) (l : List (PoseData α))
    (hrange : ∀ p ∈ l, -9223372036854775808 < p.timestamp - T ∧
      p.timestamp - T < 9223372036854775808) :
    ∀ q, (l.foldl (scanStep T) (none, INT64_MAX)).1 = some q →
      ∃ before after, l = before ++ q :: after ∧
        (∀ p ∈ before, |q.timestamp - T| < |p.timestamp - T|) ∧
        (∀ p ∈ after, |q.timestamp - T| ≤ |p.timestamp - T|) := by
  induction l using List.reverseRecOn with
  | nil => intro q hq; simp at hq
  | append_singleton l p ih =>
    have hl : ∀ p ∈ l, -9223372036854775808 < p.timestamp - T ∧
        p.timestamp - T < 9223372036854775808 :=
      fun x hx => hrange x (List.mem_append_left _ hx)
    obtain ⟨_, h2, _, h4⟩ := scan_invariant T l hl
    have ih1 := ih hl
    have hp := hrange p (by simp)
    have habs := abs64_sub64_of_inRange p.timestamp T hp.1 hp.2
    rw [List.foldl_append, List.foldl_cons, List.foldl_nil]
    generalize l.foldl (scanStep T) (none, INT64_MAX) = acc at h2 h4 ih1 ⊢
    unfold scanStep
    simp only [habs]
    by_cases hlt : |p.timestamp - T| < acc.2
    · simp only [if_pos hlt]
      intro q hq
      simp only [Option.some.injEq] at hq
      subst hq
      refine ⟨l, [], rfl, ?_, ?_⟩
      · intro x hx
        exact lt_of_lt_of_le hlt (h2 x hx)
      · intro x hx; simp at hx
    · simp only [if_neg hlt]
      intro q hq
      obtain ⟨before, after, hl1, hb, ha⟩ := ih1 q hq
      obtain ⟨_, he⟩ := h4 q hq
      refine ⟨before, after ++ [p], by rw [hl1]; simp, hb, ?_⟩
      intro x hx
      rcases List.mem_append.mp hx with hx | hx
      · exact ha x hx
      · simp at hx
        subst hx
        rw [← he]
        exact not_lt.mp hlt

theorem acquirePoseForTimestamp_of_nonempty (d : QuestVuforiaDriver α) (T : Int)
    (hne : d.poseQueue_ ≠ []) :
    (d.acquirePoseForTimestamp T).1 =
      if (d.poseQueue_.foldl (scanStep T) (none, INT64_MAX)).1.isSome = true ∧
          (d.poseQueue_.foldl (scanStep T) (none, INT64_MAX)).2 < 50000000
      then (d.poseQueue_.foldl (scanStep T) (none, INT64_MAX)).1 else none := by
  unfold acquirePoseForTimestamp
  have he : d.poseQueue_.isEmpty = false := by
    cases hq : d.poseQueue_ with
    | nil => exact absurd hq hne
    | cons x xs => rfl
  simp only [he, Bool.false_eq_true, if_false]
  split_ifs <;> rfl

/-- C13 (evaluation at the failing input, and the inputs on which the claim
holds): with poses at `INT64_MAX - 5` (twice) and `INT64_MIN` and the target
`INT64_MAX`, every buffered pose is at least 5 ns away from the target and the
first pose of the queue is exactly 5 ns away, yet the third pose is returned,
which is `2^64 - 1` ns away, because its 64-bit difference wraps to 1. With
poses at 190, 200, 220 and 500 ns and the target 210, where the poses at 200 and
220 are both 10 ns away, the 200-pose is returned. Whenever every buffered
pose's difference `pose.timestamp - T` lies strictly between `-2^63` and `2^63`
and some buffered pose is less than 50,000,000 ns away from `T`,
`acquirePoseForTimestamp T` returns a pose at a position of the queue such that
every pose before it is strictly farther from `T` and every pose after it is at
least as far: among the poses that attain the minimal distance it is the one
inserted earliest. -/
theorem acquirePoseForTimestamp_tie_break_overflow :
    (∀ p ∈ (driverWithPoses [9223372036854775802, 9223372036854775802,
        -9223372036854775808]).poseQueue_, 5 ≤ |p.timestamp - 9223372036854775807|) ∧
    ((driverWithPoses [9223372036854775802, 9223372036854775802,
        -9223372036854775808]).poseQueue_.head?.map
          fun p => |p.timestamp - 9223372036854775807|) = some 5 ∧
    ((driverWithPoses [9223372036854775802, 9223372036854775802,
        -9223372036854775808]).acquirePoseForTimestamp 9223372036854775807).1.map
          PoseData.timestamp = some (-9223372036854775808) ∧
    |(-9223372036854775808 : Int) - 9223372036854775807| = 18446744073709551615 ∧
    ((driverWithPoses [190, 200, 220, 500]).acquirePoseForTimestamp 210).1.map
      PoseData.timestamp = some 200 ∧
    (∀ (α : Type) (d : QuestVuforiaDriver α) (T : Int) (m : PoseData α),
      (∀ p ∈ d.poseQueue_, -9223372036854775808 < p.timestamp - T ∧
        p.timestamp - T < 9223372036854775808) →
      m ∈ d.poseQueue_ → |m.timestamp - T| < 50000000 →
      ∃ r before after, (d.acquirePoseForTimestamp T).1 = some r ∧
        d.poseQueue_ = before ++ r :: after ∧
        (∀ p ∈ before, |r.timestamp - T| < |p.timestamp - T|) ∧
        (∀ p ∈ after, |r.timestamp - T| ≤ |p.timestamp - T|)) := by
  refine ⟨?_, ?_, by decide, by norm_num, by decide, ?_⟩
  · intro p hp
    simp [driverWithPoses, PoseData.new] at hp
    rcases hp with rfl | rfl <;> norm_num
  · simp [driverWithPoses, PoseData.new]
  intro α d T m hrange hm hwin
  have hne : d.poseQueue_ ≠ [] := List.ne_nil_of_mem hm
  obtain ⟨_, h2, h3, _⟩ := scan_invariant T d.poseQueue_ hrange
  have hfirst := scan_first T d.poseQueue_ hrange
  rw [acquirePoseForTimestamp_of_nonempty d T hne]
  generalize d.poseQueue_.foldl (scanStep T) (none, INT64_MAX) = acc at h2 h3 hfirst ⊢
  have hlt : acc.2 < 50000000 := lt_of_le_of_lt (h2 m hm) hwin
  cases hs : acc.1 with
  | none =>
    have := h3 hs
    unfold INT64_MAX at this
    omega
  | some r =>
    obtain ⟨before, after, hq, hb, ha⟩ := hfirst r hs
    refine ⟨r, before, after, ?_, hq, hb, ha⟩
    simp [hlt]

end QuestVuforiaDriver

namespace QuestVuforiaDriver

variable {α : Type}

theorem apply_poseQueue [OfNat α 0] [OfNat α 1] (d : QuestVuforiaDriver α) (c : DriverCall α)
    (hret : c.returns) (hlen : d.poseQueue_.length ≤ 90) :
    ∃ d1, c.apply d = some d1 ∧
      d1.poseQueue_ = (d.poseQueue_ ++ c.pushedPose.toList).drop
        ((d.poseQueue_ ++ c.pushedPose.toList).length - 90) := by
  have hkeep : d.poseQueue_ = (d.poseQueue_ ++ []).drop ((d.poseQueue_ ++ []).length - 90) := by
    have e : (d.poseQueue_ ++ []).length - 90 = 0 := by
      simp only [List.append_nil]; omega
    rw [e]; simp
  cases c with
  | feedCameraFrame img w h i ts =>
    obtain ⟨d1, h1, _, _, _, hp, _, _⟩ := feedCameraFrame_of_valid d ⟨img, w, h, i, ts⟩ hret
    refine ⟨d1, h1, ?_⟩
    rw [hp]
    exact hkeep
  | feedDevicePose p r ts =>
    refine ⟨_, rfl, ?_⟩
    simp only [feedDevicePose, popWhileOver_eq_drop, MAX_POSE_QUEUE_SIZE, DriverCall.pushedPose,
      Option.toList, makePose]
  | setCameraIntrinsics i =>
    cases i with
    | none => exact ⟨_, rfl, hkeep⟩
    | some a => exact ⟨_, rfl, hkeep⟩
  | acquireLatestFrame =>
    refine ⟨_, rfl, ?_⟩
    rw [acquireLatestFrame_snd]
    exact hkeep
  | acquirePoseForTimestamp ts =>
    refine ⟨_, rfl, ?_⟩
    have e : (d.acquirePoseForTimestamp ts).2 = d := by
      unfold acquirePoseForTimestamp
      dsimp only
      split_ifs <;> rfl
    rw [e]
    exact hkeep
  | getCapabilities => exact ⟨_, rfl, hkeep⟩
  | createExternalCamera alloc =>
    refine ⟨_, rfl, ?_⟩
    have e : (d.createExternalCamera alloc).2.poseQueue_ = d.poseQueue_ := by
      unfold createExternalCamera
      split
      · rfl
      · split <;> rfl
    rw [e]
    exact hkeep
  | destroyExternalCamera instancePtr =>
    refine ⟨_, rfl, ?_⟩
    have e : (d.destroyExternalCamera instancePtr).poseQueue_ = d.poseQueue_ := by
      unfold destroyExternalCamera
      split <;> rfl
    rw [e]
    exact hkeep
  | createExternalPositionalDeviceTracker alloc =>
    refine ⟨_, rfl, ?_⟩
    have e : (d.createExternalPositionalDeviceTracker alloc).2.poseQueue_ = d.poseQueue_ := by
      unfold createExternalPositionalDeviceTracker
      split
      · rfl
      · split <;> rfl
    rw [e]
    exact hkeep
  | destroyExternalPositionalDeviceTracker instancePtr =>
    refine ⟨_, rfl, ?_⟩
    have e : (d.destroyExternalPositionalDeviceTracker instancePtr).poseQueue_ =
        d.poseQueue_ := by
      unfold destroyExternalPositionalDeviceTracker
      split <;> rfl
    rw [e]
    exact hkeep

theorem run_poseQueue [OfNat α 0] [OfNat α 1] (calls : List (DriverCall α)) :
    ∀ d : QuestVuforiaDriver α, (∀ c ∈ calls, c.returns) → d.poseQueue_.length ≤ 90 →
      ∃ d1, d.run calls = some d1 ∧
        d1.poseQueue_ = (d.poseQueue_ ++ pushedPoses calls).drop
          ((d.poseQueue_ ++ pushedPoses calls).length - 90) := by
  induction calls with
  | nil =>
    intro d _ hlen
    refine ⟨d, rfl, ?_⟩
    have e : d.poseQueue_.length - 90 = 0 := by omega
    simp [pushedPoses, e]
  | cons c rest ih =>
    intro d hret hlen
    obtain ⟨d0, h0, hq0⟩ := apply_poseQueue d c (hret c (by simp)) hlen
    obtain ⟨d1, h1, hq1⟩ := ih d0 (fun x hx => hret x (by simp [hx]))
      (by rw [hq0]; simp only [List.length_drop]; omega)
    refine ⟨d1, by simp only [run, h0]; exact h1, ?_⟩
    rw [hq1, hq0, drop_length_sub_append 90 (d.poseQueue_ ++ c.pushedPose.toList)
      (pushedPoses rest)]
    have e : pushedPoses (c :: rest) = c.pushedPose.toList ++ pushedPoses rest := by
      unfold pushedPoses
      cases hc : c.pushedPose with
      | none => simp [List.filterMap_cons, hc]
      | some x => simp [List.filterMap_cons, hc]
    rw [e]
    simp

/-- C14: starting from an empty pose queue, any sequence of driver calls that
return (`feedDevicePose` calls interleaved with any other driver methods) runs
to a state whose pose queue is exactly the last `min n 90` poses pushed by the
`n` `feedDevicePose` calls of the sequence, in push order; its length is
`min n 90`, hence at most 90. -/
theorem feedDevicePose_queue_bound [OfNat α 0] [OfNat α 1] (d : QuestVuforiaDriver α)
    (calls : List (DriverCall α)) (hempty : d.poseQueue_ = [])
    (hret : ∀ c ∈ calls, c.returns) :
    ∃ d1, d.run calls = some d1 ∧
      d1.poseQueue_ = (pushedPoses calls).drop ((pushedPoses calls).length - 90) ∧
      d1.poseQueue_.length = min (pushedPoses calls).length 90 ∧
      d1.poseQueue_.length ≤ MAX_POSE_QUEUE_SIZE := by
  obtain ⟨d1, hrun, hq⟩ := run_poseQueue calls d hret (by simp [hempty])
  have hq1 : d1.poseQueue_ = (pushedPoses calls).drop ((pushedPoses calls).length - 90) := by
    rw [hq, hempty]; simp
  refine ⟨d1, hrun, hq1, ?_, ?_⟩
  · rw [hq1]; simp only [List.length_drop]; omega
  · rw [hq1]; simp only [List.length_drop, MAX_POSE_QUEUE_SIZE]; omega

end QuestVuforiaDriver

/-- Witness for C14: after a camera creation, a frame and 92 poses stamped 0 to
91, fed to a fresh driver, the pose queue holds 90 poses, the oldest of which is
stamped 2. -/
theorem feedDevicePose_queue_bound_witness :
    ∃ d1, (QuestVuforiaDriver.new : QuestVuforiaDriver ℤ).run ninetyTwoPoses = some d1 ∧
      d1.poseQueue_.length = 90 ∧
      d1.poseQueue_.head?.map PoseData.timestamp = some 2 := by
  have hret : ∀ c ∈ ninetyTwoPoses, c.returns := by
    intro c hc
    simp only [ninetyTwoPoses, List.cons_append, List.nil_append, List.mem_cons,
      List.mem_map] at hc
    rcases hc with rfl | rfl | ⟨i, _, rfl⟩
    · trivial
    · simp only [FrameArgs.toCall, DriverCall.returns, frameArgsAt]; decide
    · trivial
  obtain ⟨d1, h1, h2, h3, _⟩ := QuestVuforiaDriver.feedDevicePose_queue_bound
    (QuestVuforiaDriver.new : QuestVuforiaDriver ℤ) ninetyTwoPoses rfl hret
  refine ⟨d1, h1, ?_, ?_⟩
  · rw [h3]; rfl
  · rw [h2]; rfl

/-! ## Theorems: device and driver instances -/

namespace QuestVuforiaDriver

variable {α : Type}

theorem apply_devices [OfNat α 0] [OfNat α 1] (d d1 : QuestVuforiaDriver α) (c : DriverCall α)
    (h : c.apply d = some d1) :
    c.camerasAfter d d.camera_.toList = d1.camera_.toList ∧
      c.trackersAfter d d.tracker_.toList = d1.tracker_.toList := by
  cases c with
  | feedCameraFrame img w hh i ts =>
    simp only [DriverCall.apply, feedCameraFrame] at h
    split at h
    · cases h
    · simp only [Option.some.injEq] at h
      subst h
      exact ⟨rfl, rfl⟩
  | feedDevicePose p r ts =>
    simp only [DriverCall.apply, Option.some.injEq] at h
    subst h
    exact ⟨rfl, rfl⟩
  | setCameraIntrinsics i =>
    simp only [DriverCall.apply, Option.some.injEq] at h
    subst h
    cases i <;> exact ⟨rfl, rfl⟩
  | acquireLatestFrame =>
    simp only [DriverCall.apply, Option.some.injEq] at h
    subst h
    rw [acquireLatestFrame_snd]
    exact ⟨rfl, rfl⟩
  | acquirePoseForTimestamp ts =>
    simp only [DriverCall.apply, Option.some.injEq] at h
    subst h
    have e : (d.acquirePoseForTimestamp ts).2 = d := by
      unfold acquirePoseForTimestamp
      dsimp only
      split_ifs <;> rfl
    rw [e]
    exact ⟨rfl, rfl⟩
  | getCapabilities =>
    simp only [DriverCall.apply, Option.some.injEq] at h
    subst h
    exact ⟨rfl, rfl⟩
  | createExternalCamera alloc =>
    simp only [DriverCall.apply, Option.some.injEq] at h
    subst h
    cases hc : d.camera_ <;> cases alloc <;>
      simp [DriverCall.camerasAfter, DriverCall.trackersAfter, heapAfterCreate,
        createExternalCamera, hc]
  | destroyExternalCamera instancePtr =>
    simp only [DriverCall.apply, Option.some.injEq] at h
    subst h
    cases hc : d.camera_ <;> by_cases he : instancePtr = d.camera_ <;>
      simp_all [DriverCall.camerasAfter, DriverCall.trackersAfter, heapAfterDestroy,
        destroyExternalCamera]
  | createExternalPositionalDeviceTracker alloc =>
    simp only [DriverCall.apply, Option.some.injEq] at h
    subst h
    cases hc : d.tracker_ <;> cases alloc <;>
      simp [DriverCall.camerasAfter, DriverCall.trackersAfter, heapAfterCreate,
        createExternalPositionalDeviceTracker, hc]
  | destroyExternalPositionalDeviceTracker instancePtr =>
    simp only [DriverCall.apply, Option.some.injEq] at h
    subst h
    cases hc : d.tracker_ <;> by_cases he : instancePtr = d.tracker_ <;>
      simp_all [DriverCall.camerasAfter, DriverCall.trackersAfter, heapAfterDestroy,
        destroyExternalPositionalDeviceTracker]

end QuestVuforiaDriver

namespace Process

variable {α : Type}

theorem census_initial : (Process.initial : Process α).Census := ⟨rfl, rfl, rfl⟩

theorem census_apply [OfNat α 0] [OfNat α 1] (p p1 : Process α) (call : ProcessCall α)
    (hc : p.Census) (h : call.apply p = some p1) : p1.Census := by
  obtain ⟨g0, drivers, cameras, trackers⟩ := p
  obtain ⟨c1, c2, c3⟩ := hc
  simp only at c1 c2 c3
  subst c1 c2 c3
  cases call with
  | vuforiaDriver_init alloc =>
    simp only [ProcessCall.apply, Option.some.injEq] at h
    subst h
    cases g0 with
    | some gd => exact ⟨rfl, rfl, rfl⟩
    | none =>
      cases alloc with
      | none => exact ⟨rfl, rfl, rfl⟩
      | some a => exact ⟨rfl, rfl, rfl⟩
  | vuforiaDriver_deinit driver =>
    simp only [ProcessCall.apply, Option.some.injEq] at h
    subst h
    cases driver with
    | none => exact ⟨rfl, rfl, rfl⟩
    | some a =>
      cases g0 with
      | none => exact ⟨rfl, rfl, rfl⟩
      | some gd =>
        obtain ⟨g, d⟩ := gd
        by_cases e : a = g
        · subst e
          refine ⟨?_, ?_, ?_⟩
          · simp [vuforiaDriver_deinit]
          · cases hcam : d.camera_ <;> simp [vuforiaDriver_deinit, hcam]
          · cases htr : d.tracker_ <;> simp [vuforiaDriver_deinit, htr]
        · simp only [vuforiaDriver_deinit, if_neg e]
          exact ⟨rfl, rfl, rfl⟩
  | driverCall c =>
    simp only [ProcessCall.apply, driverCall] at h
    cases g0 with
    | none =>
      simp only [Option.some.injEq] at h
      subst h
      exact ⟨rfl, rfl, rfl⟩
    | some gd =>
      obtain ⟨g, d⟩ := gd
      simp only at h
      cases ha : c.apply d with
      | none => rw [ha] at h; cases h
      | some d1 =>
        rw [ha] at h
        simp only [Option.some.injEq] at h
        subst h
        obtain ⟨e1, e2⟩ := QuestVuforiaDriver.apply_devices d d1 c ha
        exact ⟨rfl, e1, e2⟩
  | nativeSetCameraIntrinsics intrinsics length =>
    simp only [ProcessCall.apply, Option.some.injEq] at h
    subst h
    cases g0 with
    | none => exact ⟨rfl, rfl, rfl⟩
    | some gd =>
      obtain ⟨g, d⟩ := gd
      simp only [nativeSetCameraIntrinsics]
      split_ifs
      · exact ⟨rfl, rfl, rfl⟩
      · cases intrinsics <;> exact ⟨rfl, rfl, rfl⟩
  | nativeFeedDevicePose position rotation timestamp =>
    simp only [ProcessCall.apply, Option.some.injEq] at h
    subst h
    cases g0 with
    | none => exact ⟨rfl, rfl, rfl⟩
    | some gd =>
      obtain ⟨g, d⟩ := gd
      simp only [nativeFeedDevicePose]
      split_ifs <;> exact ⟨rfl, rfl, rfl⟩
  | nativeFeedCameraFrame imageData width height intrinsics intrinsicsLength timestamp =>
    simp only [ProcessCall.apply, nativeFeedCameraFrame] at h
    cases g0 with
    | none =>
      simp only [Option.map_some', Option.some.injEq] at h
      subst h
      exact ⟨rfl, rfl, rfl⟩
    | some gd =>
      obtain ⟨g, d⟩ := gd
      cases imageData with
      | none =>
        simp only [Option.map_some', Option.some.injEq] at h
        subst h
        exact ⟨rfl, rfl, rfl⟩
      | some img =>
        simp only at h
        cases hf : d.feedCameraFrame img width height intrinsics timestamp with
        | none => rw [hf] at h; cases h
        | some d1 =>
          rw [hf] at h
          simp only [Option.map_some', Option.some.injEq] at h
          subst h
          obtain ⟨e1, e2⟩ := QuestVuforiaDriver.apply_devices d d1
            (DriverCall.feedCameraFrame img width height intrinsics timestamp) hf
          exact ⟨rfl, e1, e2⟩

theorem census_run [OfNat α 0] [OfNat α 1] (calls : List (ProcessCall α)) :
    ∀ p p1 : Process α, p.Census → p.run calls = some p1 → p1.Census := by
  induction calls with
  | nil =>
    intro p p1 hc h
    simp only [run, Option.some.injEq] at h
    subst h
    exact hc
  | cons call rest ih =>
    intro p p1 hc h
    simp only [run] at h
    cases ha : call.apply p with
    | none => rw [ha] at h; cases h
    | some p0 =>
      rw [ha] at h
      exact ih p0 p1 (census_apply p p0 call hc ha) h

end Process

/-- C20: in every driver state, `createExternalCamera` called while the camera
pointer is set returns that pointer, leaves the driver unchanged and allocates
nothing, and likewise `createExternalPositionalDeviceTracker`; in every process
state `vuforiaDriver_init` called while the global driver pointer is set returns
that pointer and leaves the process unchanged; a destroy call given a pointer
other than the current one leaves driver, process and heap unchanged; and in
every process state reached from process start at most one driver, one camera
and one tracker object exist. -/
theorem singleton_instances {α : Type} [OfNat α 0] [OfNat α 1] (d : QuestVuforiaDriver α)
    (p q : Process α) (alloc ptr : Option Nat) (live : List Nat)
    (calls : List (ProcessCall α))
    (hrun : (Process.initial : Process α).run calls = some q) :
    (d.camera_.isSome = true →
      d.createExternalCamera alloc = (d.camera_, d) ∧
        heapAfterCreate d.camera_ alloc live = live) ∧
    (d.tracker_.isSome = true →
      d.createExternalPositionalDeviceTracker alloc = (d.tracker_, d) ∧
        heapAfterCreate d.tracker_ alloc live = live) ∧
    (p.g_driverInstance.isSome = true →
      p.vuforiaDriver_init alloc = (p.g_driverInstance.map Prod.fst, p)) ∧
    (ptr ≠ d.camera_ →
      d.destroyExternalCamera ptr = d ∧ heapAfterDestroy d.camera_ ptr live = live) ∧
    (ptr ≠ d.tracker_ →
      d.destroyExternalPositionalDeviceTracker ptr = d ∧
        heapAfterDestroy d.tracker_ ptr live = live) ∧
    (ptr ≠ p.g_driverInstance.map Prod.fst → p.vuforiaDriver_deinit ptr = p) ∧
    q.drivers.length ≤ 1 ∧ q.cameras.length ≤ 1 ∧ q.trackers.length ≤ 1 := by
  obtain ⟨c1, c2, c3⟩ := Process.census_run calls _ q Process.census_initial hrun
  refine ⟨?_, ?_, ?_, ?_, ?_, ?_, ?_, ?_, ?_⟩
  · intro h
    simp [QuestVuforiaDriver.createExternalCamera, heapAfterCreate, h]
  · intro h
    simp [QuestVuforiaDriver.createExternalPositionalDeviceTracker, heapAfterCreate, h]
  · intro h
    cases hg : p.g_driverInstance with
    | none => rw [hg] at h; cases h
    | some gd => simp [Process.vuforiaDriver_init, hg]
  · intro h
    simp [QuestVuforiaDriver.destroyExternalCamera, heapAfterDestroy, h]
  · intro h
    simp [QuestVuforiaDriver.destroyExternalPositionalDeviceTracker, heapAfterDestroy, h]
  · intro h
    cases ptr with
    | none => rfl
    | some a =>
      cases hg : p.g_driverInstance with
      | none => simp [Process.vuforiaDriver_deinit, hg]
      | some gd =>
        obtain ⟨g, d0⟩ := gd
        have hne : a ≠ g := by
          intro e
          apply h
          rw [hg, e]
          rfl
        simp [Process.vuforiaDriver_deinit, hg, hne]
  · rw [c1]; cases q.g_driverInstance <;> simp
  · rw [c2]; cases (q.g_driverInstance.bind fun x => x.2.camera_) <;> simp
  · rw [c3]; cases (q.g_driverInstance.bind fun x => x.2.tracker_) <;> simp

/-- Witness for C20: after `singletonHistory` the process still has the driver
created first (address 1), its first camera (10) and first tracker (20), and
exactly these three objects exist. -/
theorem singleton_instances_witness :
    ∃ q, (Process.initial : Process ℤ).run singletonHistory = some q ∧
      q.g_driverInstance.map Prod.fst = some 1 ∧
      (q.g_driverInstance.bind fun x => x.2.camera_) = some 10 ∧
      (q.g_driverInstance.bind fun x => x.2.tracker_) = some 20 ∧
      q.drivers.length ≤ 1 ∧ q.cameras.length ≤ 1 ∧ q.trackers.length ≤ 1 ∧
      q.drivers = [1] ∧ q.cameras = [10] ∧ q.trackers = [20] := by
  have hrun : ∃ q, (Process.initial : Process ℤ).run singletonHistory = some q := ⟨_, rfl⟩
  obtain ⟨q, hq⟩ := hrun
  have h := singleton_instances (QuestVuforiaDriver.new : QuestVuforiaDriver ℤ)
    Process.initial q none none [] singletonHistory hq
  have hq1 := hq
  simp only [singletonHistory, Process.run, ProcessCall.apply, Process.vuforiaDriver_init,
    Process.initial, Process.driverCall, DriverCall.apply,
    QuestVuforiaDriver.createExternalCamera,
    QuestVuforiaDriver.createExternalPositionalDeviceTracker,
    QuestVuforiaDriver.destroyExternalCamera,
    QuestVuforiaDriver.destroyExternalPositionalDeviceTracker,
    Process.vuforiaDriver_deinit, QuestVuforiaDriver.new, DriverCall.camerasAfter,
    DriverCall.trackersAfter, heapAfterCreate, heapAfterDestroy] at hq1
  simp at hq1
  subst hq1
  exact ⟨_, hq, rfl, rfl, rfl, h.2.2.2.2.2.2.1, h.2.2.2.2.2.2.2.1, h.2.2.2.2.2.2.2.2,
    rfl, rfl, rfl⟩

/-! ## Theorems: ingestion bridge -/

namespace Process

variable {α : Type}

/-- C18 (evaluation at the failing inputs, and the inputs on which the claim
holds): with a driver present and a non-null pixel buffer,
`nativeFeedCameraFrame` with `width = -1`, `height = 1` computes the byte count
-3, and with `width = height = 30000` a byte count that does not fit in `int`
(it wraps to -1594967296); the allocation in `feedCameraFrame` then throws and
the call returns neither success nor failure. A 2x1 frame is accepted and a null
pixel buffer refused. In every process state, `nativeSetCameraIntrinsics`
returns failure exactly when no driver exists, the array is null or fewer than 6
values are supplied; `nativeFeedDevicePose` returns failure exactly when no
driver exists or position or rotation is null; a failing call leaves the whole
process state (queues and intrinsics cache included) unchanged, and a succeeding
call has performed `setCameraIntrinsics`, respectively `feedDevicePose`, on the
driver; and `nativeFeedCameraFrame` called with a byte count `width * height * 3`
that is not negative returns, with failure exactly when no driver exists or the
pixel buffer is null, leaving the state unchanged, and otherwise with success
after `feedCameraFrame` has pushed the frame. -/
theorem nativeFeedCameraFrame_throws :
    processWithDriver.nativeIsDriverInitialized = true ∧
    mul32 (mul32 (-1) 1) 3 = -3 ∧
    processWithDriver.nativeFeedCameraFrame (some fun _ => 0) (-1) 1 none 0 7 = none ∧
    (30000 : Int) * 30000 * 3 = 2700000000 ∧
    mul32 (mul32 30000 30000) 3 = -1594967296 ∧
    processWithDriver.nativeFeedCameraFrame (some fun _ => 0) 30000 30000 none 0 7 = none ∧
    (∃ p1, processWithDriver.nativeFeedCameraFrame (some fun _ => 0) 2 1 none 0 7 =
        some (true, p1)) ∧
    processWithDriver.nativeFeedCameraFrame none 2 1 none 0 7 =
        some (false, processWithDriver) ∧
    (∀ (α : Type) [OfNat α 0] [OfNat α 1] (p : Process α)
      (intrinsics : Option (Nat → α)) (length : Int) (position : Option (Fin 3 → α))
      (rotation : Option (Fin 4 → α)) (imageData : Option (Nat → UInt8)) (width height : Int)
      (intrinsicsLength timestamp : Int), 0 ≤ mul32 (mul32 width height) 3 →
      (((p.nativeSetCameraIntrinsics intrinsics length).1 = false ↔
          (p.g_driverInstance = none ∨ intrinsics = none ∨ length < 6)) ∧
        ((p.nativeSetCameraIntrinsics intrinsics length).1 = false →
          (p.nativeSetCameraIntrinsics intrinsics length).2 = p) ∧
        ((p.nativeSetCameraIntrinsics intrinsics length).1 = true →
          ∃ g d, p.g_driverInstance = some (g, d) ∧
            (p.nativeSetCameraIntrinsics intrinsics length).2 =
              { p with g_driverInstance := some (g, d.setCameraIntrinsics intrinsics) })) ∧
      (((p.nativeFeedDevicePose position rotation timestamp).1 = false ↔
          (p.g_driverInstance = none ∨ position = none ∨ rotation = none)) ∧
        ((p.nativeFeedDevicePose position rotation timestamp).1 = false →
          (p.nativeFeedDevicePose position rotation timestamp).2 = p) ∧
        ((p.nativeFeedDevicePose position rotation timestamp).1 = true →
          ∃ g d, p.g_driverInstance = some (g, d) ∧
            (p.nativeFeedDevicePose position rotation timestamp).2 =
              { p with g_driverInstance := some (g, d.feedDevicePose position rotation timestamp) })) ∧
      (∃ b p1,
        p.nativeFeedCameraFrame imageData width height intrinsics intrinsicsLength timestamp =
          some (b, p1) ∧
        (b = false ↔ (p.g_driverInstance = none ∨ imageData = none)) ∧
        (b = false → p1 = p) ∧
        (b = true → ∃ g d img d1, p.g_driverInstance = some (g, d) ∧ imageData = some img ∧
          d.feedCameraFrame img width height intrinsics timestamp = some d1 ∧
          d1.frameQueue_.getLast? = some (d.makeFrame img width height intrinsics timestamp) ∧
          p1 = { p with g_driverInstance := some (g, d1) }))) := by
  refine ⟨rfl, by decide, rfl, by decide, by decide, rfl, ⟨_, rfl⟩, rfl, ?_⟩
  intro α _ _ p intrinsics length position rotation imageData width height intrinsicsLength
    timestamp hvalid
  refine ⟨?_, ?_, ?_⟩
  · cases hg : p.g_driverInstance with
    | none => simp [nativeSetCameraIntrinsics, hg]
    | some gd =>
      obtain ⟨g, d⟩ := gd
      cases intrinsics with
      | none => simp [nativeSetCameraIntrinsics, hg]
      | some a =>
        by_cases hl : length < 6
        · simp [nativeSetCameraIntrinsics, hg, hl]
        · simp [nativeSetCameraIntrinsics, hg, hl]
          exact ⟨g, d, ⟨rfl, rfl⟩, rfl, rfl⟩
  · cases hg : p.g_driverInstance with
    | none => simp [nativeFeedDevicePose, hg]
    | some gd =>
      obtain ⟨g, d⟩ := gd
      cases position <;> cases rotation <;> simp [nativeFeedDevicePose, hg]
      exact ⟨g, d, ⟨rfl, rfl⟩, rfl, rfl⟩
  · cases hg : p.g_driverInstance with
    | none => exact ⟨false, p, by simp [nativeFeedCameraFrame, hg], by simp, fun _ => rfl,
        fun h => (by cases h)⟩
    | some gd =>
      obtain ⟨g, d⟩ := gd
      cases imageData with
      | none => exact ⟨false, p, by simp [nativeFeedCameraFrame, hg], by simp, fun _ => rfl,
          fun h => (by cases h)⟩
      | some img =>
        obtain ⟨d1, h1, hq1, _⟩ :=
          QuestVuforiaDriver.feedCameraFrame_of_valid d ⟨img, width, height, intrinsics, timestamp⟩
            hvalid
        have hk : (d.frameQueue_ ++
            [FrameArgs.frame d ⟨img, width, height, intrinsics, timestamp⟩]).length - 3 ≤
            d.frameQueue_.length := by
          simp only [List.length_append, List.length_singleton]; omega
        have hlast : d1.frameQueue_.getLast? =
            some (d.makeFrame img width height intrinsics timestamp) := by
          rw [hq1, List.drop_append_of_le_length hk, List.getLast?_append,
            List.getLast?_singleton]
          rfl
        refine ⟨true, { p with g_driverInstance := some (g, d1) }, ?_, by simp [hg],
          fun h => (by cases h), fun _ => ⟨g, d, img, d1, rfl, rfl, h1, hlast, rfl⟩⟩
        simp only at h1
        simp [nativeFeedCameraFrame, hg, h1]

end Process

/-! ## Theorems: rotation matrix -/

namespace QuestExternalTracker

/-- C23: for every input quaternion `(x, y, z, w)` the matrix written by
`transformOpenXRToCV` is the row-major quaternion-to-matrix expansion of the
permuted quaternion `(x', y', z', w') = (w, -z, -y, x)`, entry by entry as the
formulas state, with no normalisation (for every scalar type, `float`
included); and for the input `(0, 0, 0, 1)` the permuted quaternion is
`(1, 0, 0, 0)`. -/
theorem transformOpenXRToCV_matrix_expansion {α : Type} [Add α] [Sub α] [Mul α] [Neg α]
    [OfNat α 1] [OfNat α 2] (positionIn : Fin 3 → α) (x y z w : α) :
    transformedQuat ![x, y, z, w] = ![w, -z, -y, x] ∧
    (transformOpenXRToCV positionIn ![x, y, z, w]).2 =
      ![1 - 2 * ((-z) * (-z) + (-y) * (-y)), 2 * (w * (-z) - (-y) * x),
        2 * (w * (-y) + (-z) * x),
        2 * (w * (-z) + (-y) * x), 1 - 2 * (w * w + (-y) * (-y)),
        2 * ((-z) * (-y) - w * x),
        2 * (w * (-y) - (-z) * x), 2 * ((-z) * (-y) + w * x),
        1 - 2 * (w * w + (-z) * (-z))] ∧
    (transformOpenXRToCV positionIn ![x, y, z, w]).2 =
      quaternionToMatrix ![w, -z, -y, x] ∧
    transformedQuat (![0, 0, 0, 1] : Fin 4 → ℤ) = ![1, 0, 0, 0] :=
  ⟨rfl, rfl, rfl, by decide⟩

theorem rotation_entries {α : Type} [CommRing α] (positionIn : Fin 3 → α) (x y z w : α) :
    rowMajor (transformOpenXRToCV positionIn ![x, y, z, w]).2 0 0 =
        1 - 2 * ((-z) * (-z) + (-y) * (-y)) ∧
      rowMajor (transformOpenXRToCV positionIn ![x, y, z, w]).2 0 1 =
        2 * (w * (-z) - (-y) * x) ∧
      rowMajor (transformOpenXRToCV positionIn ![x, y, z, w]).2 0 2 =
        2 * (w * (-y) + (-z) * x) ∧
      rowMajor (transformOpenXRToCV positionIn ![x, y, z, w]).2 1 0 =
        2 * (w * (-z) + (-y) * x) ∧
      rowMajor (transformOpenXRToCV positionIn ![x, y, z, w]).2 1 1 =
        1 - 2 * (w * w + (-y) * (-y)) ∧
      rowMajor (transformOpenXRToCV positionIn ![x, y, z, w]).2 1 2 =
        2 * ((-z) * (-y) - w * x) ∧
      rowMajor (transformOpenXRToCV positionIn ![x, y, z, w]).2 2 0 =
        2 * (w * (-y) - (-z) * x) ∧
      rowMajor (transformOpenXRToCV positionIn ![x, y, z, w]).2 2 1 =
        2 * ((-z) * (-y) + w * x) ∧
      rowMajor (transformOpenXRToCV positionIn ![x, y, z, w]).2 2 2 =
        1 - 2 * (w * w + (-z) * (-z)) :=
  ⟨rfl, rfl, rfl, rfl, rfl, rfl, rfl, rfl, rfl⟩

/-- C28: for every unit input quaternion (`x^2 + y^2 + z^2 + w^2 = 1`, over any
commutative ring, the real numbers in particular) the 3x3 matrix `R` written by
`transformOpenXRToCV` is a proper rotation matrix: `R` times its transpose is
the identity and `det R = 1`. -/
theorem transformOpenXRToCV_proper_rotation {α : Type} [CommRing α] (positionIn : Fin 3 → α)
    (x y z w : α) (hunit : x ^ 2 + y ^ 2 + z ^ 2 + w ^ 2 = 1) :
    rowMajor (transformOpenXRToCV positionIn ![x, y, z, w]).2 *
        (rowMajor (transformOpenXRToCV positionIn ![x, y, z, w]).2).transpose = 1 ∧
      (rowMajor (transformOpenXRToCV positionIn ![x, y, z, w]).2).det = 1 := by
  obtain ⟨e00, e01, e02, e10, e11, e12, e20, e21, e22⟩ := rotation_entries positionIn x y z w
  constructor
  · ext i j
    rw [Matrix.mul_apply, Fin.sum_univ_three]
    simp only [Matrix.transpose_apply]
    fin_cases i <;> fin_cases j <;>
      simp only [Fin.zero_eta, Fin.mk_one, Fin.reduceFinMk, e00, e01, e02, e10, e11, e12, e20,
        e21, e22, Matrix.one_apply_eq, Matrix.one_apply_ne, ne_eq, not_false_eq_true,
        Fin.isValue, Fin.reduceEq] <;>
      first
        | linear_combination (4 * (y ^ 2 + z ^ 2)) * hunit
        | linear_combination (4 * (w ^ 2 + y ^ 2)) * hunit
        | linear_combination (4 * (w ^ 2 + z ^ 2)) * hunit
        | linear_combination (4 * w * z) * hunit
        | linear_combination (4 * w * y) * hunit
        | linear_combination (-4 * y * z) * hunit
  · rw [Matrix.det_fin_three]
    simp only [e00, e01, e02, e10, e11, e12, e20, e21, e22]
    linear_combination (4 * (w ^ 2 + y ^ 2 + z ^ 2)) * hunit

/-- Witness for C28: the unit quaternion `(1/2, 1/2, 1/2, 1/2)` over `ℚ`. -/
theorem transformOpenXRToCV_proper_rotation_witness :
    rowMajor (transformOpenXRToCV (![0, 0, 0] : Fin 3 → ℚ) ![1/2, 1/2, 1/2, 1/2]).2 *
        (rowMajor (transformOpenXRToCV (![0, 0, 0] : Fin 3 → ℚ)
          ![1/2, 1/2, 1/2, 1/2]).2).transpose = 1 ∧
      (rowMajor (transformOpenXRToCV (![0, 0, 0] : Fin 3 → ℚ)
        ![1/2, 1/2, 1/2, 1/2]).2).det = 1 :=
  transformOpenXRToCV_proper_rotation ![0, 0, 0] (1/2) (1/2) (1/2) (1/2) (by norm_num)

end QuestExternalTracker

/-! ## Theorems: arithmetic of the entry points -/

/-- C27 (evaluation at the failing inputs): for the pose timestamp `INT64_MIN`
and the target `INT64_MAX` the 64-bit `abs(p - T)` is 1 while `|p - T|` is
`2^64 - 1`, and the pose is returned as a match; for the pose timestamp 0 and
the target `INT64_MIN` the 64-bit `abs(p - T)` is negative (`INT64_MIN`). For
pairs whose difference lies strictly between `-2^63` and `2^63` the computed
value is non-negative and equals `|p - T|`. -/
theorem abs64_sub64_wraps :
    abs64 (sub64 (-9223372036854775808) 9223372036854775807) = 1 ∧
    |(-9223372036854775808 : Int) - 9223372036854775807| = 18446744073709551615 ∧
    ((driverWithPoses [-9223372036854775808]).acquirePoseForTimestamp
      9223372036854775807).1.map PoseData.timestamp = some (-9223372036854775808) ∧
    abs64 (sub64 0 (-9223372036854775808)) = -9223372036854775808 ∧
    abs64 (sub64 0 (-9223372036854775808)) < 0 ∧
    (∀ p T : Int, -9223372036854775808 < p - T → p - T < 9223372036854775808 →
      0 ≤ abs64 (sub64 p T) ∧ abs64 (sub64 p T) = |p - T|) := by
  refine ⟨by decide, by norm_num, by decide, by decide, by decide, ?_⟩
  intro p T h1 h2
  rw [abs64_sub64_of_inRange p T h1 h2]
  exact ⟨abs_nonneg _, rfl⟩

theorem libraryVersion_length : libraryVersion.length = 24 := by decide

theorem strncpy_length (src : List Char) (n : Nat) : (strncpy src n).length = n := by
  simp only [strncpy, List.length_append, List.length_take, List.length_replicate]
  omega

theorem getLibraryVersion_fst (maxLen : Nat) :
    (vuforiaDriver_getLibraryVersion maxLen).1 =
      if 24 ≥ maxLen then (maxLen + 4294967296 - 1) % 4294967296 else 24 := by
  simp only [vuforiaDriver_getLibraryVersion, libraryVersion_length]

theorem getLibraryVersion_snd (maxLen : Nat) :
    (vuforiaDriver_getLibraryVersion maxLen).2 =
      strncpy libraryVersion (vuforiaDriver_getLibraryVersion maxLen).1 ++ [Char.ofNat 0] := rfl

theorem getLibraryVersion_snd_length (maxLen : Nat) :
    (vuforiaDriver_getLibraryVersion maxLen).2.length =
      (vuforiaDriver_getLibraryVersion maxLen).1 + 1 := by
  rw [getLibraryVersion_snd, List.length_append, strncpy_length, List.length_singleton]

/-- C29 (evaluation at the failing input, and the case that holds): for
`maxLen = 0` the subtraction `maxLen - 1` wraps, the returned length is
`2^32 - 1` and `2^32` characters are stored, more than `maxLen`. For every
`maxLen` from 1 to `2^32 - 1` the returned length is `min(24, maxLen - 1)`,
`len + 1 <= maxLen` characters are stored, the first `len` of them are a prefix
of the version string and the last one is the terminating zero. -/
theorem vuforiaDriver_getLibraryVersion_bound :
    (vuforiaDriver_getLibraryVersion 0).1 = 4294967295 ∧
    (vuforiaDriver_getLibraryVersion 0).2.length = 4294967296 ∧
    ¬ ((vuforiaDriver_getLibraryVersion 0).2.length ≤ 0) ∧
    ¬ ((vuforiaDriver_getLibraryVersion 0).1 + 1 ≤ 0) ∧
    (∀ maxLen : Nat, 1 ≤ maxLen → maxLen < 4294967296 →
      (vuforiaDriver_getLibraryVersion maxLen).1 = min 24 (maxLen - 1) ∧
      (vuforiaDriver_getLibraryVersion maxLen).1 + 1 ≤ maxLen ∧
      (vuforiaDriver_getLibraryVersion maxLen).2.length =
        (vuforiaDriver_getLibraryVersion maxLen).1 + 1 ∧
      (vuforiaDriver_getLibraryVersion maxLen).2 =
        libraryVersion.take (vuforiaDriver_getLibraryVersion maxLen).1 ++ [Char.ofNat 0]) := by
  have h0 : (vuforiaDriver_getLibraryVersion 0).1 = 4294967295 := by
    rw [getLibraryVersion_fst, if_pos (by omega)]
  have hl : (vuforiaDriver_getLibraryVersion 0).2.length = 4294967296 := by
    rw [getLibraryVersion_snd_length, h0]
  refine ⟨h0, hl, by rw [hl]; omega, by rw [h0]; omega, ?_⟩
  intro maxLen h1 h2
  have hlen : (vuforiaDriver_getLibraryVersion maxLen).1 = min 24 (maxLen - 1) := by
    rw [getLibraryVersion_fst]
    split_ifs <;> omega
  have hrep : min 24 (maxLen - 1) - libraryVersion.length = 0 := by
    rw [libraryVersion_length]; omega
  refine ⟨hlen, by rw [hlen]; omega, getLibraryVersion_snd_length maxLen, ?_⟩
  rw [getLibraryVersion_snd, hlen]
  simp only [strncpy, hrep, List.replicate_zero, List.append_nil]

namespace QuestExternalCamera

/-- C26 (evaluation at the failing input): an opened camera accepts the mode
1280x960 RGB888 with `fps = 0`: `start` returns true and records the mode, the
recorded frame rate is 0, and the frame period `1000 / fps` of the delivery
loop is a division by zero. With the supported mode of 30 fps the period is
33 ms. -/
theorem start_accepts_zero_fps :
    ((QuestExternalCamera.new.run [CameraCall.open]).start
        { width := 1280, height := 960, fps := 0, format := PixelFormat.RGB888 } (some 1)).1
      = true ∧
    ((QuestExternalCamera.new.run [CameraCall.open]).start
        { width := 1280, height := 960, fps := 0, format := PixelFormat.RGB888 }
        (some 1)).2.currentMode_ =
      { width := 1280, height := 960, fps := 0, format := PixelFormat.RGB888 } ∧
    ((QuestExternalCamera.new.run [CameraCall.open]).start
        { width := 1280, height := 960, fps := 0, format := PixelFormat.RGB888 }
        (some 1)).2.currentMode_.fps = 0 ∧
    ((QuestExternalCamera.new.run [CameraCall.open]).start
        { width := 1280, height := 960, fps := 0, format := PixelFormat.RGB888 }
        (some 1)).2.frameDuration = none ∧
    ((QuestExternalCamera.new.run [CameraCall.open]).start supportedMode
        (some 1)).2.frameDuration = some 33 := by
  decide

end QuestExternalCamera

/-! ## Theorems: first pass of the tracker loop -/

namespace QuestVuforiaDriver

variable {α : Type}

theorem scan_computed (T : Int) (l : List (PoseData α)) :
    (∀ p ∈ l, (l.foldl (scanStep T) (none, INT64_MAX)).2 ≤ abs64 (sub64 p.timestamp T)) ∧
    ((l.foldl (scanStep T) (none, INT64_MAX)).1 = none →
      (l.foldl (scanStep T) (none, INT64_MAX)).2 = INT64_MAX) := by
  induction l using List.reverseRecOn with
  | nil => simp
  | append_singleton l p ih =>
    obtain ⟨h1, h2⟩ := ih
    rw [List.foldl_append, List.foldl_cons, List.foldl_nil]
    generalize l.foldl (scanStep T) (none, INT64_MAX) = acc at h1 h2 ⊢
    unfold scanStep
    by_cases hlt : abs64 (sub64 p.timestamp T) < acc.2
    · simp only [if_pos hlt]
      refine ⟨?_, fun h => (by cases h)⟩
      intro x hx
      rcases List.mem_append.mp hx with hx | hx
      · exact le_trans (le_of_lt hlt) (h1 x hx)
      · simp at hx; subst hx; exact le_refl _
    · simp only [if_neg hlt]
      refine ⟨?_, h2⟩
      intro x hx
      rcases List.mem_append.mp hx with hx | hx
      · exact h1 x hx
      · simp at hx; subst hx; exact not_lt.mp hlt

theorem acquirePoseForTimestamp_isSome_of_near (d : QuestVuforiaDriver α) (T : Int)
    (m : PoseData α) (hm : m ∈ d.poseQueue_) (hwin : |m.timestamp - T| < 50000000) :
    ∃ r, (d.acquirePoseForTimestamp T).1 = some r := by
  have hne : d.poseQueue_ ≠ [] := List.ne_nil_of_mem hm
  obtain ⟨h1, h2⟩ := scan_computed T d.poseQueue_
  have hb := abs_lt.mp hwin
  have hcomp : abs64 (sub64 m.timestamp T) = |m.timestamp - T| :=
    abs64_sub64_of_inRange m.timestamp T (by omega) (by omega)
  rw [acquirePoseForTimestamp_of_nonempty d T hne]
  generalize d.poseQueue_.foldl (scanStep T) (none, INT64_MAX) = acc at h1 h2 ⊢
  have hlt : acc.2 < 50000000 := by
    have := h1 m hm
    rw [hcomp] at this
    exact lt_of_le_of_lt this hwin
  cases hs : acc.1 with
  | none =>
    have := h2 hs
    unfold INT64_MAX at this
    omega
  | some r => exact ⟨r, by simp [hlt]⟩

end QuestVuforiaDriver

namespace QuestExternalTracker

/-- C22 (evaluation at the failing input, and the inputs on which the claim
holds): a freshly opened tracker is started with callback 1 on a driver whose
latest frame and only buffered pose are both stamped 0, so the pose lies within
the window of the frame (`acquirePoseForTimestamp 0` returns it); the first pass
of the delivery loop delivers nothing, because the frame's timestamp equals the
value 0 that `start` gives the marker. With the frame and the pose stamped 5,
one pose stamped 5 is delivered and the marker becomes 5. For every tracker that
is open and not running and is started with a callback, and every latest frame
whose timestamp is not 0 and for which some buffered pose lies less than
50,000,000 ns from the frame's timestamp, the first pass delivers exactly one
pose to that callback, stamped with the frame's timestamp, and the marker
becomes the frame's timestamp. -/
theorem first_iteration_timestamp_zero :
    (QuestExternalTracker.new.open.2.start (some 1) none).1 = true ∧
    (QuestExternalTracker.new.open.2.start (some 1) none).2.lastPoseTimestamp_ = 0 ∧
    ((driverWithFrameAndPoseAt 0).acquireLatestFrame.1.map CameraFrameData.timestamp) = some 0 ∧
    ((driverWithFrameAndPoseAt 0).acquirePoseForTimestamp 0).1.map PoseData.timestamp =
      some 0 ∧
    ((QuestExternalTracker.new.open.2.start (some 1) none).2.poseDeliveryIteration
      (driverWithFrameAndPoseAt 0)).1 = [] ∧
    ((QuestExternalTracker.new.open.2.start (some 1) none).2.poseDeliveryIteration
      (driverWithFrameAndPoseAt 5)).1.map (fun x => (x.1, x.2.timestamp)) = [(1, 5)] ∧
    ((QuestExternalTracker.new.open.2.start (some 1) none).2.poseDeliveryIteration
      (driverWithFrameAndPoseAt 5)).2.lastPoseTimestamp_ = 5 ∧
    (∀ (α : Type) [Add α] [Sub α] [Mul α] [Neg α] [OfNat α 1] [OfNat α 2]
      (t : QuestExternalTracker) (cb : Nat) (anchorCb : Option Nat)
      (d : QuestVuforiaDriver α) (f : CameraFrameData α) (m : PoseData α),
      t.isOpen_ = true → t.isRunning_ = false →
      d.acquireLatestFrame.1 = some f → f.timestamp ≠ 0 →
      m ∈ d.poseQueue_ → |m.timestamp - f.timestamp| < 50000000 →
      (t.start (some cb) anchorCb).1 = true ∧
      (t.start (some cb) anchorCb).2.lastPoseTimestamp_ = 0 ∧
      ∃ pose, ((t.start (some cb) anchorCb).2.poseDeliveryIteration d).1 = [(cb, pose)] ∧
        pose.timestamp = f.timestamp ∧
        ((t.start (some cb) anchorCb).2.poseDeliveryIteration d).2.lastPoseTimestamp_ =
          f.timestamp) := by
  refine ⟨by decide, by decide, by decide, by decide, rfl, rfl, rfl, ?_⟩
  intro α _ _ _ _ _ _ t cb anchorCb d f m hopen hnot hf hts hm hwin
  obtain ⟨r, hr⟩ := QuestVuforiaDriver.acquirePoseForTimestamp_isSome_of_near d f.timestamp m
    hm hwin
  have hs : t.start (some cb) anchorCb =
      (true, { t with callback_ := some cb, isRunning_ := true, lastPoseTimestamp_ := 0,
                      poseThread_ := true }) := by
    simp [start, hopen, hnot]
  rw [hs]
  refine ⟨rfl, rfl, ?_⟩
  simp [poseDeliveryIteration, hf, hts, hr]

end QuestExternalTracker

/-! ## Theorems: camera frame descriptor -/

theorem wrap32_add_mul (a k : Int) : wrap32 (a + 4294967296 * k) = wrap32 a := by
  unfold wrap32
  omega

theorem wrap32_of_inRange (a : Int) (h1 : -2147483648 ≤ a) (h2 : a < 2147483648) :
    wrap32 a = a := by
  unfold wrap32
  omega

theorem mul32_wrap32_left (x y : Int) : mul32 (wrap32 x) y = wrap32 (x * y) := by
  have hk : ∃ k : Int, wrap32 x = x + 4294967296 * k :=
    ⟨-((x + 2147483648) / 4294967296), by unfold wrap32; omega⟩
  obtain ⟨k, hk⟩ := hk
  unfold mul32
  rw [hk]
  have e : (x + 4294967296 * k) * y = x * y + 4294967296 * (k * y) := by ring
  rw [e, wrap32_add_mul]

theorem mul32_stride_height (w h : Int) : mul32 (mul32 w 3) h = mul32 (mul32 w h) 3 := by
  have e1 : mul32 (mul32 w 3) h = wrap32 (w * 3 * h) := by
    unfold mul32
    exact mul32_wrap32_left (w * 3) h
  have e2 : mul32 (mul32 w h) 3 = wrap32 (w * h * 3) := by
    unfold mul32
    exact mul32_wrap32_left (w * h) 3
  rw [e1, e2]
  congr 1
  ring

namespace QuestExternalCamera

theorem frameDeliveryIteration_of_valid {α : Type} [OfNat α 0] [OfNat α 1]
    (c : QuestExternalCamera) (cb : Nat) (d : QuestVuforiaDriver α) (a : FrameArgs α)
    (later : List (DriverCall α)) (hcb : c.callback_ = some cb) (hvalid : 0 ≤ a.dataSize)
    (hlater : ∀ call ∈ later, call.isFeedCameraFrame = false) :
    ∃ d1 d2 desc,
      d.feedCameraFrame a.imageData a.width a.height a.intrinsics a.timestamp = some d1 ∧
      d1.run later = some d2 ∧
      c.frameDeliveryIteration d2 = [(cb, desc)] ∧
      desc.width = a.width ∧ desc.height = a.height ∧
      desc.stride = mul32 a.width 3 ∧
      desc.bufferSize = mul32 desc.stride a.height ∧
      desc.buffer = (a.frame d).imageData ∧
      (desc.buffer.length : Int) = a.dataSize ∧
      desc.bufferSize = (desc.buffer.length : Int) ∧
      desc.format = PixelFormat.RGB888 ∧
      desc.timestamp = a.timestamp ∧
      desc.exposureTime = 33333333 ∧
      desc.intrinsics = (a.frame d).intrinsics ∧
      (0 ≤ a.width → 0 ≤ a.height → a.width * 3 < 2147483648 →
        a.width * a.height * 3 < 2147483648 →
        desc.stride = a.width * 3 ∧ desc.bufferSize = desc.stride * a.height ∧
          desc.bufferSize = a.width * a.height * 3) := by
  obtain ⟨d1, h1, hq1, _⟩ := QuestVuforiaDriver.feedCameraFrame_of_valid d a hvalid
  obtain ⟨d2, h2, hq2⟩ := QuestVuforiaDriver.run_frameQueue_of_not_feed later d1 hlater
  have hk : (d.frameQueue_ ++ [a.frame d]).length - 3 ≤ d.frameQueue_.length := by
    simp only [List.length_append, List.length_singleton]; omega
  have hlatest : d2.acquireLatestFrame.1 = some (a.frame d) := by
    rw [QuestVuforiaDriver.acquireLatestFrame_fst, hq2, hq1,
      List.drop_append_of_le_length hk, List.getLast?_append, List.getLast?_singleton]
    rfl
  have hlen : (((a.frame d).imageData.length : Nat) : Int) = a.dataSize := by
    simp only [FrameArgs.frame, QuestVuforiaDriver.makeFrame, List.length_map,
      List.length_range]
    exact Int.toNat_of_nonneg hvalid
  have hsize : mul32 (mul32 a.width 3) a.height = a.dataSize := by
    rw [mul32_stride_height]
    rfl
  have hiter : c.frameDeliveryIteration d2 =
      [(cb, { buffer := (a.frame d).imageData
              width := (a.frame d).width
              height := (a.frame d).height
              stride := mul32 (a.frame d).width 3
              bufferSize := mul32 (mul32 (a.frame d).width 3) (a.frame d).height
              format := PixelFormat.RGB888
              timestamp := (a.frame d).timestamp
              exposureTime := 33333333
              intrinsics := (a.frame d).intrinsics })] := by
    simp only [frameDeliveryIteration, hlatest, hcb]
  refine ⟨d1, d2, _, h1, h2, hiter, rfl, rfl, rfl, rfl, rfl, hlen, ?_, rfl, rfl, rfl, rfl, ?_⟩
  · show mul32 (mul32 (a.frame d).width 3) (a.frame d).height = _
    rw [hlen]
    exact hsize
  · intro hw hh hs hp
    have e1 : mul32 a.width 3 = a.width * 3 := by
      unfold mul32
      exact wrap32_of_inRange _ (by omega) hs
    have hnn : 0 ≤ a.width * a.height * 3 := by positivity
    have e2 : mul32 (a.width * 3) a.height = a.width * 3 * a.height := by
      unfold mul32
      have e : a.width * 3 * a.height = a.width * a.height * 3 := by ring
      rw [e]
      exact wrap32_of_inRange _ (by omega) hp
    refine ⟨e1, ?_, ?_⟩
    · show mul32 (mul32 (a.frame d).width 3) (a.frame d).height = _
      show mul32 (mul32 a.width 3) a.height = mul32 a.width 3 * a.height
      rw [e1, e2]
    · show mul32 (mul32 a.width 3) a.height = a.width * a.height * 3
      rw [e1, e2]
      ring

/-- C24 (evaluation at the failing input, and the inputs on which the claim
holds): `feedCameraFrame` accepts a frame of width `2^30` and height 4, for
which `width * 3` and `width * height * 3` exceed the largest `int`, so the
products the code computes in `int` overflow; with wrap-around the byte count is
0, nothing is copied, and the camera loop delivers a descriptor with stride
-1073741824, bufferSize 0 and an empty buffer, none of which is `width * 3`,
`stride * height` or `width * height * 3`. For a 2x1 frame the descriptor has
stride 6, bufferSize 6 and a buffer of 6 bytes. For every frame fed with
`width` and `height` not negative and `width * 3` and `width * height * 3` below
`2^31`, after any calls other than `feedCameraFrame`, the camera loop with a
callback registered delivers exactly one descriptor, to that callback, with
width, height, timestamp and intrinsics equal to the record's, the record's
pixel copy as buffer, stride `width * 3`, bufferSize `stride * height`, which is
`width * height * 3` and the number of bytes copied at ingestion, pixel format
RGB888 and exposure time 33,333,333 ns. -/
theorem frameDeliveryIteration_descriptor_overflow :
    ((QuestVuforiaDriver.new : QuestVuforiaDriver ℤ).feedCameraFrame largeFrameArgs.imageData
      1073741824 4 none 1).isSome = true ∧
    (2147483647 : Int) < 1073741824 * 3 ∧
    (2147483647 : Int) < 1073741824 * 4 * 3 ∧
    largeFrameArgs.dataSize = 0 ∧
    (cameraStarted.frameDeliveryIteration driverWithLargeFrame).map
        (fun x => (x.1, x.2.width, x.2.height, x.2.stride, x.2.bufferSize, x.2.buffer.length)) =
      [(1, 1073741824, 4, -1073741824, 0, 0)] ∧
    (-1073741824 : Int) ≠ 1073741824 * 3 ∧
    (0 : Int) ≠ -1073741824 * 4 ∧
    (0 : Int) ≠ 1073741824 * 4 * 3 ∧
    (cameraStarted.frameDeliveryIteration (driverWithFrameAndPoseAt 7)).map
        (fun x => (x.1, x.2.width, x.2.height, x.2.stride, x.2.bufferSize, x.2.buffer.length,
          x.2.timestamp, x.2.exposureTime)) =
      [(1, 2, 1, 6, 6, 6, 7, 33333333)] ∧
    (∀ (α : Type) [OfNat α 0] [OfNat α 1] (c : QuestExternalCamera) (cb : Nat)
      (d : QuestVuforiaDriver α) (a : FrameArgs α) (later : List (DriverCall α)),
      c.callback_ = some cb → (∀ call ∈ later, call.isFeedCameraFrame = false) →
      0 ≤ a.width → 0 ≤ a.height → a.width * 3 < 2147483648 →
      a.width * a.height * 3 < 2147483648 →
      ∃ d1 d2 desc,
        d.feedCameraFrame a.imageData a.width a.height a.intrinsics a.timestamp = some d1 ∧
        d1.run later = some d2 ∧
        c.frameDeliveryIteration d2 = [(cb, desc)] ∧
        desc.width = a.width ∧ desc.height = a.height ∧
        desc.stride = a.width * 3 ∧
        desc.bufferSize = desc.stride * a.height ∧
        desc.bufferSize = a.width * a.height * 3 ∧
        desc.buffer = (a.frame d).imageData ∧
        (desc.buffer.length : Int) = a.width * a.height * 3 ∧
        desc.format = PixelFormat.RGB888 ∧
        desc.timestamp = a.timestamp ∧
        desc.exposureTime = 33333333 ∧
        desc.intrinsics = (a.frame d).intrinsics) := by
  refine ⟨by decide, by decide, by decide, by decide, by decide, by decide, by decide,
    by decide, rfl, ?_⟩
  intro α _ _ c cb d a later hcb hlater hw hh hs hp
  have hwh : 0 ≤ a.width * a.height := mul_nonneg hw hh
  have hds : a.dataSize = a.width * a.height * 3 := by
    unfold FrameArgs.dataSize mul32
    rw [wrap32_of_inRange (a.width * a.height) (by linarith) (by linarith)]
    exact wrap32_of_inRange _ (by linarith) hp
  have hvalid : 0 ≤ a.dataSize := by rw [hds]; linarith
  obtain ⟨d1, d2, desc, h1, h2, h3, h4, h5, _, _, h8, h9, _, h11, h12, h13, h14, h15⟩ :=
    frameDeliveryIteration_of_valid c cb d a later hcb hvalid hlater
  obtain ⟨e1, e2, e3⟩ := h15 hw hh hs hp
  exact ⟨d1, d2, desc, h1, h2, h3, h4, h5, e1, e2, e3, h8, by rw [h9, hds], h11, h12, h13, h14⟩

end QuestExternalCamera

/-! ## Theorems: array reads and lock scopes -/

theorem assignFromArray_reads_sound {α : Type} (target : CameraIntrinsics α) (a b : Nat → α)
    (h : ∀ i ∈ CameraIntrinsics.assignFromArrayReads, a i = b i) :
    target.assignFromArray a = target.assignFromArray b := by
  have hd : ∀ i : Fin 8, a (i.val + 6) = b (i.val + 6) := by
    intro i
    apply h
    simp only [CameraIntrinsics.assignFromArrayReads, List.mem_append, List.mem_map,
      List.mem_range]
    exact Or.inr ⟨i.val, i.isLt, rfl⟩
  have h2 := h 2 (by decide)
  have h3 := h 3 (by decide)
  have h4 := h 4 (by decide)
  have h5 := h 5 (by decide)
  simp only [CameraIntrinsics.assignFromArray, h2, h3, h4, h5, hd]

namespace Process

/-- C25 (evaluation at the failing inputs): `nativeSetCameraIntrinsics` accepts
an array with the supplied length 6 and reads index 13 of it: two arrays that
agree on every index below 6 and differ at index 13 leave different cached
distortion coefficients. `nativeFeedCameraFrame` accepts an intrinsics array
with the supplied length 0 and reads indices 2 to 13 of it: the focal length
stored in the frame is the value at index 2. When the supplied length is at
least 14, every index `nativeSetCameraIntrinsics` reads is below it. -/
theorem intrinsics_reads_beyond_length :
    (processWithDriver.nativeSetCameraIntrinsics (some fun _ => 0) 6).1 = true ∧
    processWithDriver.nativeSetCameraIntrinsicsReads (some fun _ => (0 : ℤ)) 6 =
      [2, 3, 4, 5, 6, 7, 8, 9, 10, 11, 12, 13, 0, 1, 0, 1, 2, 3, 4, 5] ∧
    (∃ i ∈ processWithDriver.nativeSetCameraIntrinsicsReads (some fun _ => (0 : ℤ)) 6,
      ¬ ((i : Int) < 6)) ∧
    (∀ i : Nat, (i : Int) < 6 →
      (fun _ => (0 : ℤ)) i = (fun j : Nat => if j = 13 then (1 : ℤ) else 0) i) ∧
    (processWithDriver.nativeSetCameraIntrinsics (some fun _ => 0) 6).2.g_driverInstance.map
        (fun x => x.2.cachedIntrinsics_.distortionCoefficients 7) = some 0 ∧
    (processWithDriver.nativeSetCameraIntrinsics
        (some fun j => if j = 13 then 1 else 0) 6).2.g_driverInstance.map
        (fun x => x.2.cachedIntrinsics_.distortionCoefficients 7) = some 1 ∧
    (processWithDriver.nativeFeedCameraFrame (some fun _ => 0) 2 1
        (some fun j => (j : ℤ) + 100) 0 7).map Prod.fst = some true ∧
    processWithDriver.nativeFeedCameraFrameReads (some fun _ => 0)
        (some fun j => (j : ℤ) + 100) = [2, 3, 4, 5, 6, 7, 8, 9, 10, 11, 12, 13] ∧
    ((processWithDriver.nativeFeedCameraFrame (some fun _ => 0) 2 1
        (some fun j => (j : ℤ) + 100) 0 7).bind fun r =>
          (r.2.g_driverInstance.bind fun x => x.2.acquireLatestFrame.1).map
            fun f => f.intrinsics.focalLengthX) = some 102 ∧
    (∀ (p : Process ℤ) (a : Nat → ℤ) (length : Int), 14 ≤ length →
      ∀ i ∈ p.nativeSetCameraIntrinsicsReads (some a) length, (i : Int) < length) := by
  refine ⟨by decide, by decide, ⟨13, by decide, by decide⟩, ?_, by decide, by decide,
    by decide, by decide, by decide, ?_⟩
  · intro i hi
    have : i ≠ 13 := by omega
    simp [this]
  · intro p a length hlen i hi
    have hsub : i ∈ [2, 3, 4, 5, 6, 7, 8, 9, 10, 11, 12, 13, 0, 1, 0, 1, 2, 3, 4, 5] := by
      unfold nativeSetCameraIntrinsicsReads at hi
      cases hg : p.g_driverInstance with
      | none => rw [hg] at hi; simp at hi
      | some gd =>
        rw [hg] at hi
        simp only at hi
        split at hi
        · simp at hi
        · exact hi
    simp only [List.mem_cons, List.mem_singleton, List.not_mem_nil, or_false] at hsub
    omega

end Process

theorem feedCameraFrameLocked_fst {α : Type} [OfNat α 0] (d : QuestVuforiaDriver α)
    (imageData : Nat → UInt8) (width height : Int) (intrinsics : Option (Nat → α))
    (timestamp : Int) :
    (d.feedCameraFrameLocked imageData width height intrinsics timestamp).1 =
      d.feedCameraFrame imageData width height intrinsics timestamp := by
  unfold QuestVuforiaDriver.feedCameraFrameLocked QuestVuforiaDriver.feedCameraFrame
  split_ifs <;> rfl

theorem applyLocked_fst {α : Type} [OfNat α 0] [OfNat α 1] (d : QuestVuforiaDriver α)
    (c : DriverCall α) : (c.applyLocked d).1 = c.apply d := by
  cases c with
  | feedCameraFrame img w h i ts => exact feedCameraFrameLocked_fst d img w h i ts
  | setCameraIntrinsics i => cases i <;> rfl
  | _ => rfl

/-- C21 (as amended): the lock events of every driver call are those of the
embedded call (the state it returns is the one `DriverCall.apply` gives). Every
call holds at most two of the three locks at a time; every call other than
`feedCameraFrame` holds at most one and nests none; a `feedCameraFrame` call
that returns holds two, acquiring the intrinsics lock while it holds the frame
lock; a `feedCameraFrame` call whose allocation throws holds the frame lock
only; in every nested acquisition the lock already held is the frame lock and
the lock acquired is not the frame lock; and the destructor holds two locks,
acquiring the pose lock while it holds the frame lock. -/
theorem lock_nesting {α : Type} [OfNat α 0] [OfNat α 1] (d : QuestVuforiaDriver α)
    (c : DriverCall α) :
    (c.applyLocked d).1 = c.apply d ∧
    maxHeld [] (c.lockTrace d) ≤ 2 ∧
    (c.isFeedCameraFrame = false →
      maxHeld [] (c.lockTrace d) ≤ 1 ∧ nestedAcquisitions [] (c.lockTrace d) = []) ∧
    (c.isFeedCameraFrame = true → (c.apply d).isSome = true →
      maxHeld [] (c.lockTrace d) = 2 ∧
      nestedAcquisitions [] (c.lockTrace d) =
        [(LockDomain.frameMutex_, LockDomain.intrinsicsMutex_)]) ∧
    (c.isFeedCameraFrame = true → c.apply d = none →
      maxHeld [] (c.lockTrace d) = 1 ∧ nestedAcquisitions [] (c.lockTrace d) = []) ∧
    (∀ pair ∈ nestedAcquisitions [] (c.lockTrace d),
      pair.1 = LockDomain.frameMutex_ ∧ pair.2 ≠ LockDomain.frameMutex_) ∧
    maxHeld [] d.destructorLocked.2 = 2 ∧
    nestedAcquisitions [] d.destructorLocked.2 =
      [(LockDomain.frameMutex_, LockDomain.poseMutex_)] := by
  have hd1 : maxHeld [] d.destructorLocked.2 = 2 := by
    simp [QuestVuforiaDriver.destructorLocked, maxHeld, heldAfter]
  have hd2 : nestedAcquisitions [] d.destructorLocked.2 =
      [(LockDomain.frameMutex_, LockDomain.poseMutex_)] := by
    simp [QuestVuforiaDriver.destructorLocked, nestedAcquisitions]
  refine ⟨applyLocked_fst d c, ?_⟩
  cases c with
  | setCameraIntrinsics i =>
    cases i <;>
      refine ⟨by simp [DriverCall.lockTrace, DriverCall.applyLocked,
          QuestVuforiaDriver.setCameraIntrinsicsLocked, maxHeld, heldAfter],
        fun _ => ⟨by simp [DriverCall.lockTrace, DriverCall.applyLocked,
          QuestVuforiaDriver.setCameraIntrinsicsLocked, maxHeld, heldAfter],
          by simp [DriverCall.lockTrace, DriverCall.applyLocked,
            QuestVuforiaDriver.setCameraIntrinsicsLocked, nestedAcquisitions]⟩,
        fun h => (by cases h), fun h => (by cases h), ?_, hd1, hd2⟩ <;>
      intro pair hp <;>
      simp [DriverCall.lockTrace, DriverCall.applyLocked,
        QuestVuforiaDriver.setCameraIntrinsicsLocked, nestedAcquisitions] at hp
  | feedCameraFrame img w h i ts =>
    by_cases hneg : mul32 (mul32 w h) 3 < 0
    · have ht : (DriverCall.feedCameraFrame img w h i ts).lockTrace d =
          [LockEvent.acquire LockDomain.frameMutex_,
           LockEvent.release LockDomain.frameMutex_] := by
        simp [DriverCall.lockTrace, DriverCall.applyLocked,
          QuestVuforiaDriver.feedCameraFrameLocked, hneg]
      have ha : (DriverCall.feedCameraFrame img w h i ts).apply d = none := by
        simp [DriverCall.apply, QuestVuforiaDriver.feedCameraFrame, hneg]
      rw [ht, ha]
      refine ⟨by simp [maxHeld, heldAfter], fun h => (by cases h), fun _ h => (by cases h),
        fun _ _ => ⟨by simp [maxHeld, heldAfter], by simp [nestedAcquisitions]⟩, ?_, hd1, hd2⟩
      intro pair hp
      simp [nestedAcquisitions] at hp
    · have ht : (DriverCall.feedCameraFrame img w h i ts).lockTrace d =
          [LockEvent.acquire LockDomain.frameMutex_,
           LockEvent.acquire LockDomain.intrinsicsMutex_,
           LockEvent.release LockDomain.intrinsicsMutex_,
           LockEvent.release LockDomain.frameMutex_] := by
        simp [DriverCall.lockTrace, DriverCall.applyLocked,
          QuestVuforiaDriver.feedCameraFrameLocked, hneg]
      have ha : ((DriverCall.feedCameraFrame img w h i ts).apply d).isSome = true := by
        simp [DriverCall.apply, QuestVuforiaDriver.feedCameraFrame, hneg]
      rw [ht]
      refine ⟨by simp [maxHeld, heldAfter], fun h => (by cases h),
        fun _ _ => ⟨by simp [maxHeld, heldAfter], by simp [nestedAcquisitions]⟩,
        fun _ h => ?_, ?_, hd1, hd2⟩
      · rw [h] at ha
        cases ha
      · intro pair hp
        simp [nestedAcquisitions] at hp
        subst hp
        exact ⟨rfl, by decide⟩
  | _ =>
    refine ⟨by simp [DriverCall.lockTrace, DriverCall.applyLocked,
        QuestVuforiaDriver.feedDevicePoseLocked, QuestVuforiaDriver.acquireLatestFrameLocked,
        QuestVuforiaDriver.acquirePoseForTimestampLocked, maxHeld, heldAfter],
      fun _ => ⟨by simp [DriverCall.lockTrace, DriverCall.applyLocked,
        QuestVuforiaDriver.feedDevicePoseLocked, QuestVuforiaDriver.acquireLatestFrameLocked,
        QuestVuforiaDriver.acquirePoseForTimestampLocked, maxHeld, heldAfter],
        by simp [DriverCall.lockTrace, DriverCall.applyLocked,
          QuestVuforiaDriver.feedDevicePoseLocked, QuestVuforiaDriver.acquireLatestFrameLocked,
          QuestVuforiaDriver.acquirePoseForTimestampLocked, nestedAcquisitions]⟩,
      fun h => (by cases h), fun h => (by cases h), ?_, hd1, hd2⟩
    intro pair hp
    simp [DriverCall.lockTrace, DriverCall.applyLocked,
      QuestVuforiaDriver.feedDevicePoseLocked, QuestVuforiaDriver.acquireLatestFrameLocked,
      QuestVuforiaDriver.acquirePoseForTimestampLocked, nestedAcquisitions] at hp

/-- Counterexample to C21 as stated: a `feedCameraFrame` call with a 2x1 frame on
a fresh driver returns, and during it the frame lock and the intrinsics lock are
held together; during the destructor the frame lock and the pose lock are held
together. (A call with width -1 and height 1, whose allocation throws, holds one
lock.) -/
theorem lock_nesting_counterexample :
    ((frameArgsAt 1).toCall.apply (QuestVuforiaDriver.new : QuestVuforiaDriver ℤ)).isSome =
      true ∧
    (frameArgsAt 1).toCall.lockTrace (QuestVuforiaDriver.new : QuestVuforiaDriver ℤ) =
      [LockEvent.acquire LockDomain.frameMutex_, LockEvent.acquire LockDomain.intrinsicsMutex_,
       LockEvent.release LockDomain.intrinsicsMutex_, LockEvent.release LockDomain.frameMutex_] ∧
    maxHeld [] ((frameArgsAt 1).toCall.lockTrace
      (QuestVuforiaDriver.new : QuestVuforiaDriver ℤ)) = 2 ∧
    ¬ (maxHeld [] ((frameArgsAt 1).toCall.lockTrace
      (QuestVuforiaDriver.new : QuestVuforiaDriver ℤ)) ≤ 1) ∧
    maxHeld [] (QuestVuforiaDriver.new : QuestVuforiaDriver ℤ).destructorLocked.2 = 2 ∧
    negativeFrameArgs.toCall.apply (QuestVuforiaDriver.new : QuestVuforiaDriver ℤ) = none ∧
    maxHeld [] (negativeFrameArgs.toCall.lockTrace
      (QuestVuforiaDriver.new : QuestVuforiaDriver ℤ)) = 1 := by
  refine ⟨by decide, by decide, by decide, by decide, by decide, rfl, by decide⟩

end Quforia
